import Mathlib

/-!
# TextureStorage11: a shallow embedding

A model of `src/libGLESv2/renderer/d3d/d3d11/TextureStorage11.cpp`: the base
class `rx::TextureStorage11` and its four shape classes (2D, Cube, 3D, 2D-Array).

Conventions of the embedding.

* C++ `int` / `GLint` values are `Int`, `unsigned int` / `UINT` values are `Nat`;
  every conversion between the two is explicit (`toUINT`, `toInt32`) and wraps
  modulo `2^32`.
* Pointers are `Option`s of the object pointed to (`none` is `NULL`).  A native
  object (texture, view) carries the descriptor it was created with.
* Fixed-size member arrays (`mSwizzleCache`, `mLevelSRVs`, ...) are lists whose
  length is the array size (`gl::IMPLEMENTATION_MAX_TEXTURE_LEVELS`, a constant
  declared outside the translated sources).
* The renderer / device / blitter collaborators are a record `Renderer11` inside the
  storage: it holds the results the native calls are going to return (`results`), a
  counter for fresh object identities, and the log `calls` of every native call made,
  most recent first.
* `ASSERT` is the release-build no-op.  Where a property is about an assertion, the
  asserted condition is a `Bool`-valued definition of its own.
* The four shape classes share one record; `shape` selects the override that a
  virtual call dispatches to.
-/

namespace rx

/-! ## Machine integers -/

/-- Conversion of a C++ `int` to `unsigned int` (`static_cast<UINT>`): reduction modulo `2^32`. -/
def toUINT (x : Int) : Nat := (x % 4294967296).toNat

/-- Conversion of a C++ `unsigned int` to `int`: the two's-complement reading of the low 32 bits. -/
def toInt32 (n : Nat) : Int :=
  if n % 4294967296 < 2147483648 then ((n % 4294967296 : Nat) : Int)
  else ((n % 4294967296 : Nat) : Int) - 4294967296

/-- Wrap-around of an `unsigned int` result. -/
def wrapUINT (n : Nat) : Nat := n % 4294967296

abbrev GLenum := Nat
abbrev DXGI_FORMAT := Nat

def GL_NONE : GLenum := 0
def GL_RED : GLenum := 0x1903
def GL_GREEN : GLenum := 0x1904
def GL_BLUE : GLenum := 0x1905
def GL_ALPHA : GLenum := 0x1906
def GL_ZERO : GLenum := 0
def GL_ONE : GLenum := 1
def GL_NO_ERROR : GLenum := 0
def GL_OUT_OF_MEMORY : GLenum := 0x0505
def DXGI_FORMAT_UNKNOWN : DXGI_FORMAT := 0
def CUBE_FACE_COUNT : Nat := 6
def D3D_FEATURE_LEVEL_9_3 : Nat := 0x9300

/-- Modelled from the spec: the helper `D3D11CalcSubresource(MipSlice, ArraySlice, MipLevels)`
comes from the D3D11 headers, which are not among the sources; it is the "standard formula
`index = mipSlice + arraySlice * mipLevels`", computed on `UINT`s. -/
def D3D11CalcSubresource (MipSlice ArraySlice MipLevels : Nat) : Nat :=
  wrapUINT (MipSlice + wrapUINT (ArraySlice * MipLevels))

/-! ## Errors and native results -/

inductive HRESULT where
  | S_OK
  | E_OUTOFMEMORY
  | DXGI_ERROR_DEVICE_REMOVED
  deriving DecidableEq, Repr

def FAILED : HRESULT → Bool
  | .S_OK => false
  | _ => true

def isDeviceLostError : HRESULT → Bool
  | .DXGI_ERROR_DEVICE_REMOVED => true
  | _ => false

/-- The class `gl::Error`: an error code, `GL_NO_ERROR` meaning success. -/
structure Error where
  code : GLenum
  deriving DecidableEq, Repr

def Error.isError (e : Error) : Bool := e.code != GL_NO_ERROR

/-! ## Addressing -/

/-- The class `gl::ImageIndex`, as the storage reads it: `mipIndex`, `layerIndex`, and the
answer of `hasLayer()` (its definition is outside the translated sources, so the answer is a
field). -/
structure ImageIndex where
  mipIndex : Int
  layerIndex : Int
  layered : Bool
  deriving DecidableEq, Repr

def ImageIndex.hasLayer (index : ImageIndex) : Bool := index.layered

structure Extents where
  width : Int
  height : Int
  depth : Int
  deriving DecidableEq, Repr

/-- The structure `gl::Box`: an origin and extents. -/
structure Box where
  x : Int
  y : Int
  z : Int
  width : Int
  height : Int
  depth : Int
  deriving DecidableEq, Repr

/-- A staging image (`Image11`) as the storage sees it: an identity and the answer the image
gives to `isAssociatedStorageValid(storage)`, that is, whether its back-reference names this
storage (the class is defined outside the translated sources, so the answer is a field). -/
structure Image11 where
  id : Nat
  storageValid : Bool
  deriving DecidableEq, Repr

/-- A staging image (`Image`) as `setData` reads it: the answers of `getWidth()`,
`getHeight()` and `getDepth()`, and the entries of the format tables for its internal format
(`gl::GetInternalFormatInfo(format).depthBits` and `.compressed`, and the `pixelBytes` of the
texture format `d3d11::GetTextureFormatInfo(format, featureLevel).texFormat`); the class and
the tables are defined outside the translated sources, so the answers are fields. -/
structure Image where
  width : Int
  height : Int
  depth : Int
  depthBits : Nat
  compressed : Bool
  pixelBytes : Nat
  deriving DecidableEq, Repr

/-- The entry `d3d11::TextureFormat` of the format table for an internal format, as the
constructors read it. -/
structure TextureFormat where
  texFormat : DXGI_FORMAT
  srvFormat : DXGI_FORMAT
  rtvFormat : DXGI_FORMAT
  dsvFormat : DXGI_FORMAT
  swizzleTexFormat : DXGI_FORMAT
  swizzleSRVFormat : DXGI_FORMAT
  swizzleRTVFormat : DXGI_FORMAT
  deriving DecidableEq, Repr

/-! ## Native objects -/

inductive ViewDimension where
  | TEXTURE2D
  | TEXTURE2DARRAY
  | TEXTURECUBE
  | TEXTURE3D
  deriving DecidableEq, Repr

/-- The fields of `D3D11_TEXTURE2D_DESC` / `D3D11_TEXTURE3D_DESC` the storage sets or reads
(`Depth` is 1 for a 2D texture, `ArraySize` is 1 for a 3D texture). -/
structure TEXTURE_DESC where
  Width : Nat
  Height : Nat
  Depth : Nat
  MipLevels : Nat
  ArraySize : Nat
  Format : DXGI_FORMAT
  BindFlags : Nat
  MiscFlags : Nat
  deriving DecidableEq, Repr

/-- A native texture (`ID3D11Texture2D` / `ID3D11Texture3D`): an identity and the descriptor
`GetDesc` reports. -/
structure Texture where
  id : Nat
  desc : TEXTURE_DESC
  deriving DecidableEq, Repr

/-- The fields of `D3D11_SHADER_RESOURCE_VIEW_DESC`.  `MostDetailedMip` and `MipLevels` are the
first two members of every arm of the descriptor's union, so one pair stands for
`Texture2D`, `Texture2DArray`, `TextureCube` and `Texture3D` alike. -/
structure SHADER_RESOURCE_VIEW_DESC where
  Format : DXGI_FORMAT
  ViewDimension : ViewDimension
  MostDetailedMip : Nat
  MipLevels : Nat
  FirstArraySlice : Nat
  ArraySize : Nat
  deriving DecidableEq, Repr

/-- A native shader-resource view: an identity, the resource it views, its descriptor. -/
structure ShaderResourceView where
  id : Nat
  texture : Option Texture
  desc : SHADER_RESOURCE_VIEW_DESC
  deriving DecidableEq, Repr

/-- The fields of `D3D11_RENDER_TARGET_VIEW_DESC` (`FirstArraySlice` / `ArraySize` double
as `FirstWSlice` / `WSize` of the `Texture3D` arm). -/
structure RENDER_TARGET_VIEW_DESC where
  Format : DXGI_FORMAT
  ViewDimension : ViewDimension
  MipSlice : Nat
  FirstArraySlice : Nat
  ArraySize : Nat
  deriving DecidableEq, Repr

structure RenderTargetView where
  id : Nat
  texture : Option Texture
  desc : RENDER_TARGET_VIEW_DESC
  deriving DecidableEq, Repr

/-- The fields of `D3D11_DEPTH_STENCIL_VIEW_DESC`. -/
structure DEPTH_STENCIL_VIEW_DESC where
  Format : DXGI_FORMAT
  ViewDimension : ViewDimension
  MipSlice : Nat
  FirstArraySlice : Nat
  ArraySize : Nat
  Flags : Nat
  deriving DecidableEq, Repr

structure DepthStencilView where
  id : Nat
  texture : Option Texture
  desc : DEPTH_STENCIL_VIEW_DESC
  deriving DecidableEq, Repr

/-- Modelled from the spec: the class `RenderTarget11` is defined outside the sources; it is
the "render/depth-view wrapper" that holds the render-target or depth-stencil view it was
constructed with, the texture, the "companion single-level shader view" (null when none was
attached) and the extents it reports through `getWidth`, `getHeight`, `getDepth`. -/
structure RenderTarget11 where
  rtv : Option RenderTargetView
  dsv : Option DepthStencilView
  texture : Option Texture
  srv : Option ShaderResourceView
  width : Int
  height : Int
  depth : Int
  deriving DecidableEq, Repr

def RenderTarget11.getShaderResourceView (renderTarget : RenderTarget11) :
    Option ShaderResourceView := renderTarget.srv

def RenderTarget11.getRenderTargetView (renderTarget : RenderTarget11) :
    Option RenderTargetView := renderTarget.rtv

/-- The structure `D3D11_BOX`. -/
structure D3D11_BOX where
  left : Nat
  top : Nat
  front : Nat
  right : Nat
  bottom : Nat
  back : Nat
  deriving DecidableEq, Repr

/-- One call made to a collaborator of the storage: the device, the device context, the
blitter, a staging image, or the error and trace reporting of the library, with its
arguments (and its result where it has one).  A null image in one of the two image calls is
a method call through a null pointer.  The call `resize` is the allocation of a conversion
buffer (`MemoryBuffer::resize`), `S_OK` standing for its answer `true`. -/
inductive NativeCall where
  | CreateTexture2D (desc : TEXTURE_DESC) (result : HRESULT)
  | CreateTexture3D (desc : TEXTURE_DESC) (result : HRESULT)
  | CreateShaderResourceView (texture : Option Texture) (desc : SHADER_RESOURCE_VIEW_DESC)
      (result : HRESULT)
  | CreateRenderTargetView (texture : Option Texture) (desc : RENDER_TARGET_VIEW_DESC)
      (result : HRESULT)
  | CopySubresourceRegion (dst : Option Texture) (dstSubresource : Nat) (dstX dstY dstZ : Nat)
      (src : Option Texture) (srcSubresource : Nat) (srcBox : Option D3D11_BOX)
  | swizzleTexture (source : Option ShaderResourceView) (dest : Option RenderTargetView)
      (size : Extents) (swizzleRed swizzleGreen swizzleBlue swizzleAlpha : GLenum)
      (result : HRESULT)
  | notifyDeviceLost
  | glError (code : GLenum)
  | CreateDepthStencilView (texture : Option Texture) (desc : DEPTH_STENCIL_VIEW_DESC)
      (result : HRESULT)
  | copyDepthStencil (source : Option Texture) (sourceSubresource : Nat) (sourceArea : Box)
      (sourceSize : Extents) (dest : Option Texture) (destSubresource : Nat) (destArea : Box)
      (destSize : Extents) (result : HRESULT)
  | copyTexture (source : Option ShaderResourceView) (sourceArea : Box) (sourceSize : Extents)
      (dest : Option RenderTargetView) (destArea : Box) (destSize : Extents)
      (result : HRESULT)
  | isAssociatedStorageValid (image : Option Image11)
  | recoverFromAssociatedStorage (image : Option Image11) (result : HRESULT)
  | UNREACHABLE
  | resize (size : Nat) (result : HRESULT)
  | UpdateSubresource (resource : Option Texture) (destSubresource : Nat)
      (destBox : Option D3D11_BOX) (rowPitch depthPitch : Nat)
  deriving DecidableEq, Repr

/-- The renderer as the storage uses it: capability tier, workaround flags, the format
tables consulted (as functions, their definitions are outside the translated sources), and
the device itself: `results` are the results its next fallible calls return, in order
(`S_OK` once the list is used up), `nextId` the identity of the next object it creates,
`calls` the log of the calls made so far, most recent first. -/
structure Renderer11 where
  featureLevel : Nat
  zeroMaxLodWorkaround : Bool
  /-- The function `d3d11::MakeValidSize(false, format, &width, &height, &levelOffset)`: the
  adjusted width and height and the level offset. -/
  makeValidSize : DXGI_FORMAT → Int → Int → Int × Int × Int
  /-- Whether the component type `d3d11::GetDXGIFormatInfo(format).componentType` is `GL_INT`
  or `GL_UNSIGNED_INT`. -/
  isIntegerFormat : DXGI_FORMAT → Bool
  /-- The table entry `d3d11::GetDXGIFormatInfo(format).depthBits`. -/
  depthBits : DXGI_FORMAT → Nat
  /-- The table entry `d3d11::GetDXGIFormatInfo(format).stencilBits`. -/
  stencilBits : DXGI_FORMAT → Nat
  /-- The table entry `d3d11::GetDXGIFormatInfo(format).blockWidth`. -/
  blockWidth : DXGI_FORMAT → Nat
  /-- The table entry `d3d11::GetDXGIFormatInfo(format).blockHeight`. -/
  blockHeight : DXGI_FORMAT → Nat
  results : List HRESULT
  nextId : Nat
  calls : List NativeCall

/-- The result the next fallible native call returns. -/
def Renderer11.nextResult (r : Renderer11) : HRESULT := r.results.headD HRESULT.S_OK

/-- The renderer after one fallible native call `call` was made and logged. -/
def Renderer11.record (r : Renderer11) (call : NativeCall) : Renderer11 :=
  { r with results := r.results.tail, nextId := r.nextId + 1, calls := call :: r.calls }

/-- The renderer after a call that returns nothing was made and logged. -/
def Renderer11.note (r : Renderer11) (call : NativeCall) : Renderer11 :=
  { r with calls := call :: r.calls }

/-- The structure `gl::SamplerState`, as the storage reads it: the level range, the four
swizzle channels, and the answers of `swizzleRequired()` and of `gl::IsMipmapFiltered` (their
definitions are outside the translated sources, so the answers are fields). -/
structure SamplerState where
  baseLevel : Int
  maxLevel : Int
  swizzleRed : GLenum
  swizzleGreen : GLenum
  swizzleBlue : GLenum
  swizzleAlpha : GLenum
  swizzleNeeded : Bool
  mipmapFiltered : Bool
  deriving DecidableEq, Repr

def SamplerState.swizzleRequired (samplerState : SamplerState) : Bool :=
  samplerState.swizzleNeeded

/-- The function `gl::IsMipmapFiltered`. -/
def IsMipmapFiltered (samplerState : SamplerState) : Bool := samplerState.mipmapFiltered

def D3D11_BIND_SHADER_RESOURCE : Nat := 0x8
def D3D11_BIND_RENDER_TARGET : Nat := 0x20
def D3D11_BIND_DEPTH_STENCIL : Nat := 0x40
def D3D11_RESOURCE_MISC_TEXTURECUBE : Nat := 0x4

/-! ## The storage -/

structure SwizzleCacheValue where
  swizzleRed : GLenum
  swizzleGreen : GLenum
  swizzleBlue : GLenum
  swizzleAlpha : GLenum
  deriving DecidableEq, Repr

/-- The default constructor `SwizzleCacheValue()`: `GL_NONE` on all four channels. -/
def SwizzleCacheValue.default : SwizzleCacheValue :=
  { swizzleRed := GL_NONE, swizzleGreen := GL_NONE, swizzleBlue := GL_NONE,
    swizzleAlpha := GL_NONE }

/-- The comparison `SwizzleCacheValue::operator==`. -/
def SwizzleCacheValue.eq (a other : SwizzleCacheValue) : Bool :=
  a.swizzleRed == other.swizzleRed &&
  a.swizzleGreen == other.swizzleGreen &&
  a.swizzleBlue == other.swizzleBlue &&
  a.swizzleAlpha == other.swizzleAlpha

/-- The comparison `SwizzleCacheValue::operator!=`. -/
def SwizzleCacheValue.ne (a other : SwizzleCacheValue) : Bool := !(a.eq other)

/-- The key `SRVKey` of the shader-view cache. -/
structure SRVKey where
  baseLevel : Int
  mipLevels : Int
  swizzle : Bool
  deriving DecidableEq, Repr

/-- The order `SRVKey::operator<`: `std::tie(baseLevel, mipLevels, swizzle)` compared
lexicographically (`false < true` on the flag). -/
def SRVKey.lt (a rhs : SRVKey) : Bool :=
  if a.baseLevel < rhs.baseLevel then true
  else if rhs.baseLevel < a.baseLevel then false
  else if a.mipLevels < rhs.mipLevels then true
  else if rhs.mipLevels < a.mipLevels then false
  else (!a.swizzle && rhs.swizzle)

/-- The type `SRVCache`, a `std::map<SRVKey, ID3D11ShaderResourceView *>`: its entries in
iteration order. -/
abbrev SRVCache := List (SRVKey × Option ShaderResourceView)

/-- The lookup `std::map::find`: the value (a pointer) of the entry whose key is equivalent to
`key` under the map's order (neither is less than the other); `none` stands for `end()`. -/
def SRVCache.find : SRVCache → SRVKey → Option (Option ShaderResourceView)
  | [], _ => none
  | (k, v) :: rest, key =>
    if !(k.lt key) && !(key.lt k) then some v else SRVCache.find rest key

/-- The insertion `std::map::insert`: the pair goes to its place in the order, and nothing
changes when an equivalent key is in the map already. -/
def SRVCache.insert : SRVCache → SRVKey → Option ShaderResourceView → SRVCache
  | [], key, srv => [(key, srv)]
  | (k, v) :: rest, key, srv =>
    if key.lt k then (key, srv) :: (k, v) :: rest
    else if k.lt key then (k, v) :: SRVCache.insert rest key srv
    else (k, v) :: rest

/-- Modelled from the spec: the type `LevelLayerKey` is declared in a header that is not among
the sources; the caches are "keyed by (level[, layer/face])", and the source builds a key as
`LevelLayerKey(level, layer)` from two `int`s. -/
structure LevelLayerKey where
  first : Int
  second : Int
  deriving DecidableEq, Repr

/-- The order the maps compare keys with: the pairs compared lexicographically. -/
def LevelLayerKey.lt (a rhs : LevelLayerKey) : Bool :=
  if a.first < rhs.first then true
  else if rhs.first < a.first then false
  else decide (a.second < rhs.second)

/-- A `std::map<LevelLayerKey, T *>` (the types `ImageMap` and `RenderTargetMap`): its entries
in iteration order. -/
abbrev LevelLayerMap (α : Type) := List (LevelLayerKey × Option α)

/-- The lookup `std::map::find`; `none` stands for `end()`. -/
def LevelLayerMap.find {α : Type} : LevelLayerMap α → LevelLayerKey → Option (Option α)
  | [], _ => none
  | (k, v) :: rest, key =>
    if !(k.lt key) && !(key.lt k) then some v else LevelLayerMap.find rest key

/-- The assignment `map[key] = value`: the entry of an equivalent key gets the value, and a
new entry goes to its place in the order when there is none. -/
def LevelLayerMap.assign {α : Type} :
    LevelLayerMap α → LevelLayerKey → Option α → LevelLayerMap α
  | [], key, value => [(key, value)]
  | (k, v) :: rest, key, value =>
    if key.lt k then (key, value) :: (k, v) :: rest
    else if k.lt key then (k, v) :: LevelLayerMap.assign rest key value
    else (k, value) :: rest

/-- The read `map[key]`: the value of the entry, a null entry being inserted first when the
key is not in the map. -/
def LevelLayerMap.read {α : Type} (map : LevelLayerMap α) (key : LevelLayerKey) :
    Option α × LevelLayerMap α :=
  match LevelLayerMap.find map key with
  | some value => (value, map)
  | none => (none, LevelLayerMap.assign map key none)

inductive Shape where
  | Texture2D
  | Cube
  | Texture3D
  | Texture2DArray
  deriving DecidableEq, Repr

/-- The state of a storage object: the members of `TextureStorage11` and the members of the
shape classes that the translated operations use. -/
structure TextureStorage11 where
  shape : Shape
  mRenderer : Renderer11
  mBindFlags : Nat
  mTopLevel : Int
  mMipLevels : Nat
  mTextureFormat : DXGI_FORMAT
  mShaderResourceFormat : DXGI_FORMAT
  mRenderTargetFormat : DXGI_FORMAT
  mDepthStencilFormat : DXGI_FORMAT
  mSwizzleTextureFormat : DXGI_FORMAT
  mSwizzleShaderResourceFormat : DXGI_FORMAT
  mSwizzleRenderTargetFormat : DXGI_FORMAT
  mTextureWidth : Nat
  mTextureHeight : Nat
  mTextureDepth : Nat
  mSwizzleCache : List SwizzleCacheValue
  mSrvCache : SRVCache
  mLevelSRVs : List (Option ShaderResourceView)
  mTexture : Option Texture
  mSwizzleTexture : Option Texture
  mSwizzleRenderTargets : List (Option RenderTargetView)
  /-- Member of `TextureStorage11_2D` only. -/
  mLevelZeroTexture : Option Texture
  /-- Member of `TextureStorage11_2D` only. -/
  mUseLevelZeroTexture : Bool
  /-- The array `mAssociatedImages[level]` of `TextureStorage11_2D` and of
  `TextureStorage11_3D`. -/
  mAssociatedImages : List (Option Image11)
  /-- The array `mAssociatedImages[face][level]` of `TextureStorage11_Cube`: one row per
  face. -/
  mAssociatedImagesCube : List (List (Option Image11))
  /-- The map `mAssociatedImages` of `TextureStorage11_2DArray`. -/
  mAssociatedImagesMap : LevelLayerMap Image11
  /-- The array `mRenderTarget[level]` of `TextureStorage11_2D`. -/
  mRenderTarget : List (Option RenderTarget11)
  /-- Member of `TextureStorage11_2D` only. -/
  mLevelZeroRenderTarget : Option RenderTarget11
  /-- The array `mRenderTarget[face][level]` of `TextureStorage11_Cube`: one row per face. -/
  mRenderTargetCube : List (List (Option RenderTarget11))
  /-- Member of `TextureStorage11_3D` only. -/
  mLevelRenderTargets : List (Option RenderTarget11)
  /-- Member of `TextureStorage11_3D` only. -/
  mLevelLayerRenderTargets : LevelLayerMap RenderTarget11
  /-- Member of `TextureStorage11_2DArray` only. -/
  mRenderTargets : LevelLayerMap RenderTarget11

namespace TextureStorage11

def getBindFlags (s : TextureStorage11) : Nat := s.mBindFlags

def getTopLevel (s : TextureStorage11) : Int := s.mTopLevel

/-- Translation of `getLevelCount`: `mMipLevels - mTopLevel` is computed on `unsigned int` and
returned as `int`. -/
def getLevelCount (s : TextureStorage11) : Int :=
  toInt32 (toUINT ((s.mMipLevels : Int) - s.mTopLevel))

/-- Translation of `getLevelWidth`: `max(int(mTextureWidth) >> mipLevel, 1)`. -/
def getLevelWidth (s : TextureStorage11) (mipLevel : Int) : Int :=
  max (toInt32 s.mTextureWidth >>> mipLevel.toNat) 1

def getLevelHeight (s : TextureStorage11) (mipLevel : Int) : Int :=
  max (toInt32 s.mTextureHeight >>> mipLevel.toNat) 1

def getLevelDepth (s : TextureStorage11) (mipLevel : Int) : Int :=
  max (toInt32 s.mTextureDepth >>> mipLevel.toNat) 1

/-- Translation of the virtual `getResource() const`: the 2D class returns the level-zero
texture when it is the one in use, every class otherwise returns `mTexture`. -/
def getResource (s : TextureStorage11) : Option Texture :=
  match s.shape with
  | .Texture2D => if s.mUseLevelZeroTexture then s.mLevelZeroTexture else s.mTexture
  | _ => s.mTexture

/-- Translation of `getSubresourceIndex`. -/
def getSubresourceIndex (s : TextureStorage11) (index : ImageIndex) : Nat :=
  if s.getResource.isSome then
    let mipSlice := toUINT (index.mipIndex + s.mTopLevel)
    let arraySlice := toUINT (if index.hasLayer then index.layerIndex else 0)
    D3D11CalcSubresource mipSlice arraySlice s.mMipLevels
  else 0

/-! ### Member arrays

An index outside the array is undefined behaviour in the source; the model reads the
null / default element there and writes nothing. -/

/-- Read of `array[i]` in an array of pointers. -/
def ptrAt {α : Type} (array : List (Option α)) (i : Int) : Option α :=
  if 0 ≤ i then (array.getD i.toNat none) else none

/-- Write `array[i] = v`. -/
def setAt {α : Type} (array : List α) (i : Int) (v : α) : List α :=
  if 0 ≤ i then array.set i.toNat v else array

/-- Read of `mSwizzleCache[i]`. -/
def swizzleAt (array : List SwizzleCacheValue) (i : Int) : SwizzleCacheValue :=
  if 0 ≤ i then array.getD i.toNat SwizzleCacheValue.default else SwizzleCacheValue.default

/-! ### The device -/

/-- Number of mip levels of a full chain for the given extents (what the device allocates
when a texture is created with `MipLevels = 0`). -/
def fullMipLevels (width height depth : Nat) : Nat :=
  Nat.log 2 (max width (max height depth)) + 1

/-- The call `ID3D11Device::CreateTexture2D(&desc, NULL, &texture)`. -/
def CreateTexture2D (r : Renderer11) (desc : TEXTURE_DESC) :
    HRESULT × Option Texture × Renderer11 :=
  let result := r.nextResult
  let r1 := r.record (NativeCall.CreateTexture2D desc result)
  if FAILED result then (result, none, r1)
  else
    let levels := if desc.MipLevels = 0 then fullMipLevels desc.Width desc.Height 1
                  else desc.MipLevels
    (result, some { id := r.nextId, desc := { desc with MipLevels := levels } }, r1)

/-- The call `ID3D11Device::CreateTexture3D(&desc, NULL, &texture)`. -/
def CreateTexture3D (r : Renderer11) (desc : TEXTURE_DESC) :
    HRESULT × Option Texture × Renderer11 :=
  let result := r.nextResult
  let r1 := r.record (NativeCall.CreateTexture3D desc result)
  if FAILED result then (result, none, r1)
  else
    let levels := if desc.MipLevels = 0 then fullMipLevels desc.Width desc.Height desc.Depth
                  else desc.MipLevels
    (result, some { id := r.nextId, desc := { desc with MipLevels := levels } }, r1)

/-- The call `ID3D11Device::CreateShaderResourceView(texture, &desc, &srv)`. -/
def CreateShaderResourceView (r : Renderer11) (texture : Option Texture)
    (desc : SHADER_RESOURCE_VIEW_DESC) : HRESULT × Option ShaderResourceView × Renderer11 :=
  let result := r.nextResult
  let r1 := r.record (NativeCall.CreateShaderResourceView texture desc result)
  if FAILED result then (result, none, r1)
  else (result, some { id := r.nextId, texture := texture, desc := desc }, r1)

/-- The call `ID3D11Device::CreateRenderTargetView(texture, &desc, &rtv)`. -/
def CreateRenderTargetView (r : Renderer11) (texture : Option Texture)
    (desc : RENDER_TARGET_VIEW_DESC) : HRESULT × Option RenderTargetView × Renderer11 :=
  let result := r.nextResult
  let r1 := r.record (NativeCall.CreateRenderTargetView texture desc result)
  if FAILED result then (result, none, r1)
  else (result, some { id := r.nextId, texture := texture, desc := desc }, r1)

/-- The call `Blit11::swizzleTexture(source, dest, size, red, green, blue, alpha)`; a failed
blit reports `GL_OUT_OF_MEMORY`. -/
def swizzleTexture (r : Renderer11) (source : Option ShaderResourceView)
    (dest : Option RenderTargetView) (size : Extents)
    (swizzleRed swizzleGreen swizzleBlue swizzleAlpha : GLenum) : Error × Renderer11 :=
  let result := r.nextResult
  let r1 := r.record (NativeCall.swizzleTexture source dest size swizzleRed swizzleGreen
    swizzleBlue swizzleAlpha result)
  if FAILED result then ({ code := GL_OUT_OF_MEMORY }, r1) else ({ code := GL_NO_ERROR }, r1)

/-! ### TextureStorage11_2D: the level-zero workaround -/

/-- Translation of `TextureStorage11_2D::createTexture2DHelper`; `levelZero` tells which
member the out-pointer is (`&mLevelZeroTexture` or `&mTexture`). -/
def createTexture2DHelper (s : TextureStorage11) (width height levels : Int)
    (levelZero : Bool) : Bool × TextureStorage11 :=
  if width > 0 ∧ height > 0 then
    let sized := s.mRenderer.makeValidSize s.mTextureFormat width height
    let s1 := { s with mTopLevel := sized.2.2 }
    let desc : TEXTURE_DESC :=
      { Width := toUINT sized.1
        Height := toUINT sized.2.1
        Depth := 1
        MipLevels := if levels > 0 then toUINT (s1.mTopLevel + levels) else 0
        ArraySize := 1
        Format := s1.mTextureFormat
        BindFlags := s1.getBindFlags
        MiscFlags := 0 }
    let created := CreateTexture2D s1.mRenderer desc
    if isDeviceLostError created.1 then
      (false, { s1 with mRenderer := ((created.2.2.note NativeCall.notifyDeviceLost).note
        (NativeCall.glError GL_OUT_OF_MEMORY)) })
    else if FAILED created.1 then
      (false, { s1 with mRenderer := created.2.2.note (NativeCall.glError GL_OUT_OF_MEMORY) })
    else if levelZero then
      (true, { s1 with mRenderer := created.2.2, mLevelZeroTexture := created.2.1 })
    else
      (true, { s1 with mRenderer := created.2.2, mTexture := created.2.1 })
  else (true, s)

/-- Translation of `TextureStorage11_2D::pickLevelZeroWorkaroundTexture`. -/
def pickLevelZeroWorkaroundTexture2D (s : TextureStorage11) (useLevelZeroTexture : Bool) :
    TextureStorage11 :=
  if useLevelZeroTexture then
    let s1 := if s.mLevelZeroTexture.isNone then
        (createTexture2DHelper s (toInt32 s.mTextureWidth) (toInt32 s.mTextureHeight) 1 true).2
      else s
    let s2 := if !s1.mUseLevelZeroTexture then
        { s1 with mRenderer := (s1.mRenderer.note
            (NativeCall.CopySubresourceRegion s1.mLevelZeroTexture 0 0 0 0 s1.mTexture 0 none)) }
      else s1
    { s2 with mUseLevelZeroTexture := true }
  else
    let s1 := if s.mTexture.isNone then
        (createTexture2DHelper s (toInt32 s.mTextureWidth) (toInt32 s.mTextureHeight)
          (toInt32 s.mMipLevels) false).2
      else s
    let s2 := if s1.mUseLevelZeroTexture then
        { s1 with mRenderer := (s1.mRenderer.note
            (NativeCall.CopySubresourceRegion s1.mTexture 0 0 0 0 s1.mLevelZeroTexture 0 none)) }
      else s1
    { s2 with mUseLevelZeroTexture := false }

/-- Modelled from the spec: the virtual `pickLevelZeroWorkaroundTexture` of the base class
is declared in a header that is not among the sources; the lazy dual-resource workaround is
"2D shape only", so every other shape leaves the storage as it is. -/
def pickLevelZeroWorkaroundTexture (s : TextureStorage11) (useLevelZeroTexture : Bool) :
    TextureStorage11 :=
  match s.shape with
  | .Texture2D => pickLevelZeroWorkaroundTexture2D s useLevelZeroTexture
  | _ => s

/-! ### createSRV -/

/-- The error `gl::Error(GL_NO_ERROR)`. -/
def noError : Error := { code := GL_NO_ERROR }

/-- The error `gl::Error(GL_OUT_OF_MEMORY, ...)`. -/
def outOfMemory : Error := { code := GL_OUT_OF_MEMORY }

/-- The descriptor `TextureStorage11_2D::createSRV` fills in. -/
def srvDesc2D (s : TextureStorage11) (baseLevel mipLevels : Int) (format : DXGI_FORMAT) :
    SHADER_RESOURCE_VIEW_DESC :=
  { Format := format
    ViewDimension := ViewDimension.TEXTURE2D
    MostDetailedMip := toUINT (s.mTopLevel + baseLevel)
    MipLevels := toUINT mipLevels
    FirstArraySlice := 0
    ArraySize := 0 }

/-- The descriptor `TextureStorage11_Cube::createSRV` fills in.  Integer formats are viewed
as an array of six 2D textures with a single mip; on feature level 9_3 and below the most
detailed mip is recomputed from the mip count of `mTexture` (read as 0 when `mTexture` is
null, where the source dereferences a null pointer). -/
def srvDescCube (s : TextureStorage11) (baseLevel mipLevels : Int) (format : DXGI_FORMAT) :
    SHADER_RESOURCE_VIEW_DESC :=
  let srvDesc : SHADER_RESOURCE_VIEW_DESC :=
    if s.mRenderer.isIntegerFormat format then
      { Format := format
        ViewDimension := ViewDimension.TEXTURE2DARRAY
        MostDetailedMip := toUINT (s.mTopLevel + baseLevel)
        MipLevels := 1
        FirstArraySlice := 0
        ArraySize := CUBE_FACE_COUNT }
    else
      { Format := format
        ViewDimension := ViewDimension.TEXTURECUBE
        MostDetailedMip := toUINT (s.mTopLevel + baseLevel)
        MipLevels := toUINT mipLevels
        FirstArraySlice := 0
        ArraySize := 0 }
  if s.mRenderer.featureLevel ≤ D3D_FEATURE_LEVEL_9_3 then
    let descMipLevels := match s.mTexture with
      | some texture => texture.desc.MipLevels
      | none => 0
    { srvDesc with
      MostDetailedMip := toUINT ((descMipLevels : Int) - (srvDesc.MipLevels : Int)) }
  else srvDesc

/-- The descriptor `TextureStorage11_3D::createSRV` fills in. -/
def srvDesc3D (s : TextureStorage11) (baseLevel mipLevels : Int) (format : DXGI_FORMAT)
    (texture : Option Texture) : SHADER_RESOURCE_VIEW_DESC :=
  let srvDesc : SHADER_RESOURCE_VIEW_DESC :=
    { Format := format
      ViewDimension := ViewDimension.TEXTURE3D
      MostDetailedMip := toUINT baseLevel
      MipLevels := toUINT mipLevels
      FirstArraySlice := 0
      ArraySize := 0 }
  match texture with
  | some texture3D =>
    if s.mRenderer.featureLevel ≤ D3D_FEATURE_LEVEL_9_3 then
      { srvDesc with
        MostDetailedMip := toUINT ((texture3D.desc.MipLevels : Int) - (srvDesc.MipLevels : Int)) }
    else srvDesc
  | none => srvDesc

/-- The descriptor `TextureStorage11_2DArray::createSRV` fills in. -/
def srvDesc2DArray (s : TextureStorage11) (baseLevel mipLevels : Int) (format : DXGI_FORMAT) :
    SHADER_RESOURCE_VIEW_DESC :=
  { Format := format
    ViewDimension := ViewDimension.TEXTURE2DARRAY
    MostDetailedMip := toUINT (s.mTopLevel + baseLevel)
    MipLevels := toUINT mipLevels
    FirstArraySlice := 0
    ArraySize := s.mTextureDepth }

/-- The descriptor the `createSRV` override of the storage's shape fills in. -/
def createSRVDesc (s : TextureStorage11) (baseLevel mipLevels : Int) (format : DXGI_FORMAT)
    (texture : Option Texture) : SHADER_RESOURCE_VIEW_DESC :=
  match s.shape with
  | .Texture2D => srvDesc2D s baseLevel mipLevels format
  | .Cube => srvDescCube s baseLevel mipLevels format
  | .Texture3D => srvDesc3D s baseLevel mipLevels format texture
  | .Texture2DArray => srvDesc2DArray s baseLevel mipLevels format

/-- The texture the `createSRV` override views: the 2D class under the zero-max-LOD
workaround replaces the incoming texture by `mLevelZeroTexture` (one mip requested) or
`mTexture`; every other case views the incoming texture. -/
def createSRVTexture (s : TextureStorage11) (mipLevels : Int) (texture : Option Texture) :
    Option Texture :=
  match s.shape with
  | .Texture2D =>
    if s.mRenderer.zeroMaxLodWorkaround then
      (if mipLevels = 1 then s.mLevelZeroTexture else s.mTexture)
    else texture
  | _ => texture

/-- Translation of the virtual `createSRV(baseLevel, mipLevels, format, texture, outSRV)`
(the four overrides): fill in the descriptor, create the native view, report
`GL_OUT_OF_MEMORY` when the creation failed.  The method is `const`: only the device
changes. -/
def createSRV (s : TextureStorage11) (baseLevel mipLevels : Int) (format : DXGI_FORMAT)
    (texture : Option Texture) : Error × Option ShaderResourceView × TextureStorage11 :=
  let srvDesc := createSRVDesc s baseLevel mipLevels format texture
  let created := CreateShaderResourceView s.mRenderer (createSRVTexture s mipLevels texture)
    srvDesc
  if FAILED created.1 then (outOfMemory, none, { s with mRenderer := created.2.2 })
  else (noError, created.2.1, { s with mRenderer := created.2.2 })

/-! ### The swizzle texture and its render targets -/

/-- The descriptor the `getSwizzleTexture` override of the storage's shape fills in. -/
def swizzleTextureDesc (s : TextureStorage11) : TEXTURE_DESC :=
  { Width := s.mTextureWidth
    Height := s.mTextureHeight
    Depth := match s.shape with
      | .Texture3D => s.mTextureDepth
      | _ => 1
    MipLevels := s.mMipLevels
    ArraySize := match s.shape with
      | .Texture2D => 1
      | .Cube => CUBE_FACE_COUNT
      | .Texture3D => 1
      | .Texture2DArray => s.mTextureDepth
    Format := s.mSwizzleTextureFormat
    BindFlags := D3D11_BIND_SHADER_RESOURCE ||| D3D11_BIND_RENDER_TARGET
    MiscFlags := match s.shape with
      | .Cube => D3D11_RESOURCE_MISC_TEXTURECUBE
      | _ => 0 }

/-- Translation of the virtual `getSwizzleTexture(outTexture)` (the four overrides): create
the swizzle texture on first use (`CreateTexture3D` for the 3D class, `CreateTexture2D`
otherwise), then hand out `mSwizzleTexture`. -/
def getSwizzleTexture (s : TextureStorage11) : Error × Option Texture × TextureStorage11 :=
  if s.mSwizzleTexture.isNone then
    let created := if s.shape = Shape.Texture3D then
        CreateTexture3D s.mRenderer (swizzleTextureDesc s)
      else CreateTexture2D s.mRenderer (swizzleTextureDesc s)
    if FAILED created.1 then (outOfMemory, none, { s with mRenderer := created.2.2 })
    else (noError, created.2.1, { s with mRenderer := created.2.2, mSwizzleTexture := created.2.1 })
  else (noError, s.mSwizzleTexture, s)

/-- The descriptor the `getSwizzleRenderTarget` override of the storage's shape fills in
(`WSize = -1` of the 3D class is the `UINT` 4294967295). -/
def swizzleRenderTargetDesc (s : TextureStorage11) (mipLevel : Int) : RENDER_TARGET_VIEW_DESC :=
  { Format := s.mSwizzleRenderTargetFormat
    ViewDimension := match s.shape with
      | .Texture2D => ViewDimension.TEXTURE2D
      | .Cube => ViewDimension.TEXTURE2DARRAY
      | .Texture3D => ViewDimension.TEXTURE3D
      | .Texture2DArray => ViewDimension.TEXTURE2DARRAY
    MipSlice := toUINT (s.mTopLevel + mipLevel)
    FirstArraySlice := 0
    ArraySize := match s.shape with
      | .Texture2D => 0
      | .Cube => CUBE_FACE_COUNT
      | .Texture3D => toUINT (-1)
      | .Texture2DArray => s.mTextureDepth }

/-- Translation of the virtual `getSwizzleRenderTarget(mipLevel, outRTV)` (the four
overrides). -/
def getSwizzleRenderTarget (s : TextureStorage11) (mipLevel : Int) :
    Error × Option RenderTargetView × TextureStorage11 :=
  if (ptrAt s.mSwizzleRenderTargets mipLevel).isNone then
    let swizzle := getSwizzleTexture s
    if swizzle.1.isError then (swizzle.1, none, swizzle.2.2)
    else
      let s1 := swizzle.2.2
      let created := CreateRenderTargetView s1.mRenderer s1.mSwizzleTexture
        (swizzleRenderTargetDesc s1 mipLevel)
      if FAILED created.1 then (outOfMemory, none, { s1 with mRenderer := created.2.2 })
      else
        let s2 := { s1 with
          mRenderer := created.2.2
          mSwizzleRenderTargets := setAt s1.mSwizzleRenderTargets mipLevel created.2.1 }
        (noError, ptrAt s2.mSwizzleRenderTargets mipLevel, s2)
  else (noError, ptrAt s.mSwizzleRenderTargets mipLevel, s)

/-! ### Shader views -/

/-- The local `mipLevels` of `getSRV`: one level without mip filtering, `maxLevel - baseLevel`
with it, clamped to `mMipLevels - mTopLevel - baseLevel` (all on `unsigned int`). -/
def requestedMipLevels (s : TextureStorage11) (samplerState : SamplerState) : Nat :=
  let mipmapping := IsMipmapFiltered samplerState
  let mipLevels : Nat :=
    if mipmapping then toUINT (samplerState.maxLevel - samplerState.baseLevel) else 1
  min mipLevels (toUINT ((s.mMipLevels : Int) - s.mTopLevel - samplerState.baseLevel))

/-- The two conditions `getSRV` asserts on a renderer of feature level 9_3 or below:
`!swizzleRequired` and `mipLevels == 1 || mipLevels == mMipLevels`. -/
def getSRVAsserts (s : TextureStorage11) (samplerState : SamplerState) : Bool :=
  if s.mRenderer.featureLevel ≤ D3D_FEATURE_LEVEL_9_3 then
    !samplerState.swizzleRequired &&
      (requestedMipLevels s samplerState == 1 ||
        requestedMipLevels s samplerState == s.mMipLevels)
  else true

/-- The local `key` of `getSRV`. -/
def getSRVKey (s : TextureStorage11) (samplerState : SamplerState) : SRVKey :=
  { baseLevel := samplerState.baseLevel
    mipLevels := toInt32 (requestedMipLevels s samplerState)
    swizzle := samplerState.swizzleRequired }

/-- Translation of `getSRV(samplerState, outSRV)`: the error, the view written to `*outSRV`
(`none` where the source leaves it unwritten) and the storage after the call.  The two
feature-level assertions and the call of `verifySwizzleExists`, which only asserts, have no
effect. -/
def getSRV (s : TextureStorage11) (samplerState : SamplerState) :
    Error × Option ShaderResourceView × TextureStorage11 :=
  let swizzleRequired := samplerState.swizzleRequired
  let mipLevels := requestedMipLevels s samplerState
  let key := getSRVKey s samplerState
  let s1 := if s.mRenderer.zeroMaxLodWorkaround then
      pickLevelZeroWorkaroundTexture s (mipLevels == 1)
    else s
  match s1.mSrvCache.find key with
  | some srv => (noError, srv, s1)
  | none =>
    let picked : Error × Option Texture × TextureStorage11 :=
      if swizzleRequired then getSwizzleTexture s1 else (noError, s1.getResource, s1)
    if picked.1.isError then (picked.1, none, picked.2.2)
    else
      let s2 := picked.2.2
      let format := if swizzleRequired then s2.mSwizzleShaderResourceFormat
        else s2.mShaderResourceFormat
      let created := createSRV s2 samplerState.baseLevel (toInt32 mipLevels) format picked.2.1
      if created.1.isError then (created.1, none, created.2.2)
      else
        (noError, created.2.1,
          { created.2.2 with mSrvCache := created.2.2.mSrvCache.insert key created.2.1 })

/-- Translation of `getSRVLevel(mipLevel, outSRV)`. -/
def getSRVLevel (s : TextureStorage11) (mipLevel : Int) :
    Error × Option ShaderResourceView × TextureStorage11 :=
  if (ptrAt s.mLevelSRVs mipLevel).isNone then
    let created := createSRV s mipLevel 1 s.mShaderResourceFormat s.getResource
    if created.1.isError then (created.1, none, created.2.2)
    else
      let s1 := { created.2.2 with
        mLevelSRVs := setAt created.2.2.mLevelSRVs mipLevel created.2.1 }
      (noError, ptrAt s1.mLevelSRVs mipLevel, s1)
  else (noError, ptrAt s.mLevelSRVs mipLevel, s)

/-! ### Swizzles -/

/-- The body of the loop of `generateSwizzles` for one `level`: nothing to do when the cached
swizzle of the level is the target already; otherwise fetch the level view and the swizzle
render target, blit, and record the target. -/
def generateSwizzlesLevel (s : TextureStorage11)
    (swizzleRed swizzleGreen swizzleBlue swizzleAlpha : GLenum) (level : Int) :
    Error × TextureStorage11 :=
  let swizzleTarget : SwizzleCacheValue :=
    { swizzleRed := swizzleRed, swizzleGreen := swizzleGreen, swizzleBlue := swizzleBlue,
      swizzleAlpha := swizzleAlpha }
  if (swizzleAt s.mSwizzleCache level).ne swizzleTarget then
    let source := getSRVLevel s level
    if source.1.isError then (source.1, source.2.2)
    else
      let dest := getSwizzleRenderTarget source.2.2 level
      if dest.1.isError then (dest.1, dest.2.2)
      else
        let s2 := dest.2.2
        let size : Extents :=
          { width := s2.getLevelWidth level, height := s2.getLevelHeight level,
            depth := s2.getLevelDepth level }
        let blit := swizzleTexture s2.mRenderer source.2.1 dest.2.1 size swizzleRed swizzleGreen
          swizzleBlue swizzleAlpha
        if blit.1.isError then (blit.1, { s2 with mRenderer := blit.2 })
        else
          (noError, { s2 with
            mRenderer := blit.2
            mSwizzleCache := setAt s2.mSwizzleCache level swizzleTarget })
  else (noError, s)

/-- The loop `for (int level = ...; level < getLevelCount(); level++)` of `generateSwizzles`
from `level` on; the bound is read again before every iteration.  `fuel` bounds the number of
iterations: the caller passes the number of levels, and the loop ends by its own test before
the fuel does (`generateSwizzlesFrom_fuel`). -/
def generateSwizzlesFrom (swizzleRed swizzleGreen swizzleBlue swizzleAlpha : GLenum) :
    Nat → Nat → TextureStorage11 → Error × TextureStorage11
  | 0, _, s => (noError, s)
  | fuel + 1, level, s =>
    if (level : Int) < s.getLevelCount then
      let step := generateSwizzlesLevel s swizzleRed swizzleGreen swizzleBlue swizzleAlpha level
      if step.1.isError then step
      else generateSwizzlesFrom swizzleRed swizzleGreen swizzleBlue swizzleAlpha fuel (level + 1)
        step.2
    else (noError, s)

/-- Translation of `generateSwizzles(swizzleRed, swizzleGreen, swizzleBlue, swizzleAlpha)`. -/
def generateSwizzles (s : TextureStorage11)
    (swizzleRed swizzleGreen swizzleBlue swizzleAlpha : GLenum) : Error × TextureStorage11 :=
  generateSwizzlesFrom swizzleRed swizzleGreen swizzleBlue swizzleAlpha s.getLevelCount.toNat 0 s

/-- Translation of `invalidateSwizzleCacheLevel(mipLevel)`. -/
def invalidateSwizzleCacheLevel (s : TextureStorage11) (mipLevel : Int) : TextureStorage11 :=
  if mipLevel ≥ 0 ∧ toUINT mipLevel < s.mSwizzleCache.length then
    { s with mSwizzleCache := setAt s.mSwizzleCache mipLevel SwizzleCacheValue.default }
  else s

/-- Translation of `invalidateSwizzleCache()`: the loop over the `ArraySize(mSwizzleCache)`
entries, each `unsigned int` index passed on as `int`. -/
def invalidateSwizzleCache (s : TextureStorage11) : TextureStorage11 :=
  (List.range s.mSwizzleCache.length).foldl
    (fun storage mipLevel => invalidateSwizzleCacheLevel storage (toInt32 mipLevel)) s

/-- The condition `verifySwizzleExists(swizzleRed, swizzleGreen, swizzleBlue, swizzleAlpha)`
asserts: every `level < mMipLevels` has `mSwizzleCache[level] == swizzleTarget`. -/
def verifySwizzleExists (s : TextureStorage11)
    (swizzleRed swizzleGreen swizzleBlue swizzleAlpha : GLenum) : Bool :=
  let swizzleTarget : SwizzleCacheValue :=
    { swizzleRed := swizzleRed, swizzleGreen := swizzleGreen, swizzleBlue := swizzleBlue,
      swizzleAlpha := swizzleAlpha }
  (List.range s.mMipLevels).all
    (fun level => (swizzleAt s.mSwizzleCache level).eq swizzleTarget)

/-! ### Copies between resources -/

/-- The call `ID3D11Device::CreateDepthStencilView(texture, &desc, &dsv)`. -/
def CreateDepthStencilView (r : Renderer11) (texture : Option Texture)
    (desc : DEPTH_STENCIL_VIEW_DESC) : HRESULT × Option DepthStencilView × Renderer11 :=
  let result := r.nextResult
  let r1 := r.record (NativeCall.CreateDepthStencilView texture desc result)
  if FAILED result then (result, none, r1)
  else (result, some { id := r.nextId, texture := texture, desc := desc }, r1)

/-- The call `Blit11::copyDepthStencil(source, sourceSubresource, sourceArea, sourceSize, dest,
destSubresource, destArea, destSize, NULL)`; a failed blit reports `GL_OUT_OF_MEMORY`. -/
def copyDepthStencil (r : Renderer11) (source : Option Texture) (sourceSubresource : Nat)
    (sourceArea : Box) (sourceSize : Extents) (dest : Option Texture) (destSubresource : Nat)
    (destArea : Box) (destSize : Extents) : Error × Renderer11 :=
  let result := r.nextResult
  let r1 := r.record (NativeCall.copyDepthStencil source sourceSubresource sourceArea
    sourceSize dest destSubresource destArea destSize result)
  if FAILED result then ({ code := GL_OUT_OF_MEMORY }, r1) else ({ code := GL_NO_ERROR }, r1)

/-- The call `Blit11::copyTexture(source, sourceArea, sourceSize, dest, destArea, destSize,
NULL, format, GL_LINEAR)`; a failed blit reports `GL_OUT_OF_MEMORY`. -/
def copyTexture (r : Renderer11) (source : Option ShaderResourceView) (sourceArea : Box)
    (sourceSize : Extents) (dest : Option RenderTargetView) (destArea : Box)
    (destSize : Extents) : Error × Renderer11 :=
  let result := r.nextResult
  let r1 := r.record (NativeCall.copyTexture source sourceArea sourceSize dest destArea
    destSize result)
  if FAILED result then ({ code := GL_OUT_OF_MEMORY }, r1) else ({ code := GL_NO_ERROR }, r1)

/-- Modelled from the spec: the helper `roundUp(value, multiple)` is defined outside the
sources; it does the "rounding ... up to the format's compressed-block granularity", on
`UINT`. -/
def roundUp (value multiple : Nat) : Nat :=
  wrapUINT (((value + multiple - 1) / multiple) * multiple)

/-- Translation of `TextureStorage11_2D::getResource(int includeLevel)`: the resource and the
storage after the call (the full-chain texture may have to be created). -/
def getResourceLevel2D (s : TextureStorage11) (includeLevel : Int) :
    Option Texture × TextureStorage11 :=
  if s.mRenderer.zeroMaxLodWorkaround ∧ includeLevel > 0 then
    let s1 := if s.mTexture.isNone then
        (createTexture2DHelper s (toInt32 s.mTextureWidth) (toInt32 s.mTextureHeight)
          (toInt32 s.mMipLevels) false).2
      else s
    (s1.mTexture, s1)
  else (s.getResource, s)

/-- Modelled from the spec: the virtual `getResource(int includeLevel)` of the base class is
declared in a header that is not among the sources; the dual-resource workaround is "2D shape
only", so every other shape answers with `getResource()`. -/
def getResourceLevel (s : TextureStorage11) (includeLevel : Int) :
    Option Texture × TextureStorage11 :=
  match s.shape with
  | .Texture2D => getResourceLevel2D s includeLevel
  | _ => (s.getResource, s)

/-- The local `fullCopy` of `updateSubresourceLevel`: the copy area is the whole level. -/
def fullCopy (copyArea : Box) (texSize : Extents) : Bool :=
  copyArea.x == 0 && copyArea.y == 0 && copyArea.z == 0 &&
  copyArea.width == texSize.width && copyArea.height == texSize.height &&
  copyArea.depth == texSize.depth

/-- The local `srcBox` of `updateSubresourceLevel`. -/
def updateSourceBox (s : TextureStorage11) (copyArea : Box) : D3D11_BOX :=
  { left := toUINT copyArea.x
    top := toUINT copyArea.y
    right := wrapUINT (toUINT copyArea.x +
      roundUp (toUINT copyArea.width) (s.mRenderer.blockWidth s.mTextureFormat))
    bottom := wrapUINT (toUINT copyArea.y +
      roundUp (toUINT copyArea.height) (s.mRenderer.blockHeight s.mTextureFormat))
    front := toUINT copyArea.z
    back := toUINT (copyArea.z + copyArea.depth) }

/-- Translation of `updateSubresourceLevel(srcTexture, sourceSubresource, index, copyArea)`. -/
def updateSubresourceLevel (s : TextureStorage11) (srcTexture : Option Texture)
    (sourceSubresource : Nat) (index : ImageIndex) (copyArea : Box) :
    Error × TextureStorage11 :=
  let level := index.mipIndex
  let s1 := s.invalidateSwizzleCacheLevel level
  let texSize : Extents :=
    { width := s1.getLevelWidth level, height := s1.getLevelHeight level,
      depth := s1.getLevelDepth level }
  let full := fullCopy copyArea texSize
  let dst := getResourceLevel s1 level
  let s2 := dst.2
  let dstSubresource := s2.getSubresourceIndex index
  if !full && (decide (s2.mRenderer.depthBits s2.mTextureFormat > 0) ||
      decide (s2.mRenderer.stencilBits s2.mTextureFormat > 0)) then
    let copied := copyDepthStencil s2.mRenderer srcTexture sourceSubresource copyArea texSize
      dst.1 dstSubresource copyArea texSize
    (copied.1, { s2 with mRenderer := copied.2 })
  else
    (noError, { s2 with mRenderer := (s2.mRenderer.note
      (NativeCall.CopySubresourceRegion dst.1 dstSubresource (toUINT copyArea.x)
        (toUINT copyArea.y) (toUINT copyArea.z) srcTexture sourceSubresource
        (if full then none else some (updateSourceBox s2 copyArea)))) })

/-- Translation of `copySubresourceLevel(dstTexture, dstSubresource, index, region)`. -/
def copySubresourceLevel (s : TextureStorage11) (dstTexture : Option Texture)
    (dstSubresource : Nat) (index : ImageIndex) (region : Box) : Error × TextureStorage11 :=
  let src := getResourceLevel s index.mipIndex
  let s1 := src.2
  let srcSubresource := s1.getSubresourceIndex index
  (noError, { s1 with mRenderer := (s1.mRenderer.note
    (NativeCall.CopySubresourceRegion dstTexture dstSubresource (toUINT region.x)
      (toUINT region.y) (toUINT region.z) src.1 srcSubresource none)) })

/-! ### Uploads from client memory -/

/-- The local `fullUpdate` of `setData`: no box, or a box equal to
`gl::Box(0, 0, 0, mTextureWidth, mTextureHeight, mTextureDepth)` (the comparison of boxes is
member by member). -/
def fullUpdate (s : TextureStorage11) (destBox : Option Box) : Bool :=
  match destBox with
  | none => true
  | some box =>
    box == { x := 0, y := 0, z := 0, width := toInt32 s.mTextureWidth,
             height := toInt32 s.mTextureHeight, depth := toInt32 s.mTextureDepth }

/-- The two conditions `setData` asserts before it converts the pixels:
`depthBits == 0 || fullUpdate` and `!compressed`. -/
def setDataAsserts (s : TextureStorage11) (image : Image) (destBox : Option Box) : Bool :=
  (image.depthBits == 0 || fullUpdate s destBox) && !image.compressed

/-- The local `destD3DBox` of `setData`. -/
def updateDestBox (destBox : Box) : D3D11_BOX :=
  { left := toUINT destBox.x
    right := toUINT (destBox.x + destBox.width)
    top := toUINT destBox.y
    bottom := toUINT (destBox.y + destBox.height)
    front := 0
    back := 1 }

/-- Translation of `setData(index, image, destBox, type, unpack, pixelData)`.  The arguments
`type`, `unpack` and `pixelData` only feed the conversion of the pixels into the conversion
buffer (the source pitches and the load function); the contents of the buffer are not part
of the model, so they are left out.  What is modelled: the allocation of the buffer, which
can fail, and the call `UpdateSubresource` with its resource, subresource, box and pitches. -/
def setData (s : TextureStorage11) (index : ImageIndex) (image : Image)
    (destBox : Option Box) : Error × TextureStorage11 :=
  let resource := s.getResource
  let destSubresource := s.getSubresourceIndex index
  let full := fullUpdate s destBox
  let width := match destBox with
    | some box => box.width
    | none => image.width
  let height := match destBox with
    | some box => box.height
    | none => image.height
  let depth := match destBox with
    | some box => box.depth
    | none => image.depth
  let bufferRowPitch := toUINT ((image.pixelBytes : Int) * width)
  let bufferDepthPitch := toUINT ((bufferRowPitch : Int) * height)
  let result := s.mRenderer.nextResult
  let r1 := s.mRenderer.record
    (NativeCall.resize (toUINT ((bufferDepthPitch : Int) * depth)) result)
  if FAILED result then (outOfMemory, { s with mRenderer := r1 })
  else
    (noError, { s with mRenderer := (r1.note
      (NativeCall.UpdateSubresource resource destSubresource
        (if full then none else destBox.map updateDestBox)
        bufferRowPitch bufferDepthPitch)) })

/-! ### Render targets -/

/-- Read of `array[i]`, a row of a two-dimensional member array. -/
def rowAt {α : Type} (array : List (List α)) (i : Int) : List α :=
  if 0 ≤ i then array.getD i.toNat [] else []

/-- Read of `array[i][j]` in a two-dimensional array of pointers. -/
def ptrAt2 {α : Type} (array : List (List (Option α))) (i j : Int) : Option α :=
  ptrAt (rowAt array i) j

/-- Write `array[i][j] = v`. -/
def setAt2 {α : Type} (array : List (List α)) (i j : Int) (v : α) : List (List α) :=
  setAt array i (setAt (rowAt array i) j v)

/-- Translation of `TextureStorage11_2D::getRenderTarget(index, outRT)`: the error, the
pointer written to `*outRT` (`none` where the source leaves it unwritten) and the storage
after the call.  The macro `UNREACHABLE()` reports through the trace of the library and
execution goes on. -/
def getRenderTarget2D (s : TextureStorage11) (index : ImageIndex) :
    Error × Option RenderTarget11 × TextureStorage11 :=
  let level := index.mipIndex
  if s.mUseLevelZeroTexture then
    if s.mLevelZeroRenderTarget.isNone then
      let rtvDesc : RENDER_TARGET_VIEW_DESC :=
        { Format := s.mRenderTargetFormat, ViewDimension := ViewDimension.TEXTURE2D,
          MipSlice := toUINT (s.mTopLevel + level), FirstArraySlice := 0, ArraySize := 0 }
      let created := CreateRenderTargetView s.mRenderer s.mLevelZeroTexture rtvDesc
      if FAILED created.1 then (outOfMemory, none, { s with mRenderer := created.2.2 })
      else
        let s1 := { s with
          mRenderer := created.2.2
          mLevelZeroRenderTarget := some
            { rtv := created.2.1, dsv := none, texture := s.mLevelZeroTexture, srv := none,
              width := s.getLevelWidth level, height := s.getLevelHeight level, depth := 1 } }
        (noError, s1.mLevelZeroRenderTarget, s1)
    else (noError, s.mLevelZeroRenderTarget, s)
  else if (ptrAt s.mRenderTarget level).isNone then
    let viewed : Error × Option ShaderResourceView × TextureStorage11 :=
      if !(decide (s.mRenderer.featureLevel ≤ D3D_FEATURE_LEVEL_9_3)) then getSRVLevel s level
      else (noError, none, s)
    if viewed.1.isError then (viewed.1, none, viewed.2.2)
    else
      let s1 := viewed.2.2
      if s1.mRenderTargetFormat ≠ DXGI_FORMAT_UNKNOWN then
        let rtvDesc : RENDER_TARGET_VIEW_DESC :=
          { Format := s1.mRenderTargetFormat, ViewDimension := ViewDimension.TEXTURE2D,
            MipSlice := toUINT (s1.mTopLevel + level), FirstArraySlice := 0, ArraySize := 0 }
        let created := CreateRenderTargetView s1.mRenderer s1.mTexture rtvDesc
        if FAILED created.1 then (outOfMemory, none, { s1 with mRenderer := created.2.2 })
        else
          let s2 := { s1 with
            mRenderer := created.2.2
            mRenderTarget := setAt s1.mRenderTarget level (some
              { rtv := created.2.1, dsv := none, texture := s1.mTexture, srv := viewed.2.1,
                width := s1.getLevelWidth level, height := s1.getLevelHeight level,
                depth := 1 }) }
          (noError, ptrAt s2.mRenderTarget level, s2)
      else if s1.mDepthStencilFormat ≠ DXGI_FORMAT_UNKNOWN then
        let dsvDesc : DEPTH_STENCIL_VIEW_DESC :=
          { Format := s1.mDepthStencilFormat, ViewDimension := ViewDimension.TEXTURE2D,
            MipSlice := toUINT (s1.mTopLevel + level), FirstArraySlice := 0, ArraySize := 0,
            Flags := 0 }
        let created := CreateDepthStencilView s1.mRenderer s1.mTexture dsvDesc
        if FAILED created.1 then (outOfMemory, none, { s1 with mRenderer := created.2.2 })
        else
          let s2 := { s1 with
            mRenderer := created.2.2
            mRenderTarget := setAt s1.mRenderTarget level (some
              { rtv := none, dsv := created.2.1, texture := s1.mTexture, srv := viewed.2.1,
                width := s1.getLevelWidth level, height := s1.getLevelHeight level,
                depth := 1 }) }
          (noError, ptrAt s2.mRenderTarget level, s2)
      else
        let s2 := { s1 with mRenderer := s1.mRenderer.note NativeCall.UNREACHABLE }
        (noError, ptrAt s2.mRenderTarget level, s2)
  else (noError, ptrAt s.mRenderTarget level, s)

/-- Translation of `TextureStorage11_Cube::getRenderTarget(index, outRT)`. -/
def getRenderTargetCube (s : TextureStorage11) (index : ImageIndex) :
    Error × Option RenderTarget11 × TextureStorage11 :=
  let faceIndex := index.layerIndex
  let level := index.mipIndex
  if (ptrAt2 s.mRenderTargetCube faceIndex level).isNone then
    let srvDesc : SHADER_RESOURCE_VIEW_DESC :=
      { Format := s.mShaderResourceFormat, ViewDimension := ViewDimension.TEXTURE2DARRAY,
        MostDetailedMip := toUINT (s.mTopLevel + level), MipLevels := 1,
        FirstArraySlice := toUINT faceIndex, ArraySize := 1 }
    let viewed := CreateShaderResourceView s.mRenderer s.mTexture srvDesc
    if FAILED viewed.1 then (outOfMemory, none, { s with mRenderer := viewed.2.2 })
    else
      let s1 := { s with mRenderer := viewed.2.2 }
      if s1.mRenderTargetFormat ≠ DXGI_FORMAT_UNKNOWN then
        let rtvDesc : RENDER_TARGET_VIEW_DESC :=
          { Format := s1.mRenderTargetFormat, ViewDimension := ViewDimension.TEXTURE2DARRAY,
            MipSlice := toUINT (s1.mTopLevel + level), FirstArraySlice := toUINT faceIndex,
            ArraySize := 1 }
        let created := CreateRenderTargetView s1.mRenderer s1.mTexture rtvDesc
        if FAILED created.1 then (outOfMemory, none, { s1 with mRenderer := created.2.2 })
        else
          let s2 := { s1 with
            mRenderer := created.2.2
            mRenderTargetCube := setAt2 s1.mRenderTargetCube faceIndex level (some
              { rtv := created.2.1, dsv := none, texture := s1.mTexture, srv := viewed.2.1,
                width := s1.getLevelWidth level, height := s1.getLevelHeight level,
                depth := 1 }) }
          (noError, ptrAt2 s2.mRenderTargetCube faceIndex level, s2)
      else if s1.mDepthStencilFormat ≠ DXGI_FORMAT_UNKNOWN then
        let dsvDesc : DEPTH_STENCIL_VIEW_DESC :=
          { Format := s1.mDepthStencilFormat, ViewDimension := ViewDimension.TEXTURE2DARRAY,
            MipSlice := toUINT (s1.mTopLevel + level), FirstArraySlice := toUINT faceIndex,
            ArraySize := 1, Flags := 0 }
        let created := CreateDepthStencilView s1.mRenderer s1.mTexture dsvDesc
        if FAILED created.1 then (outOfMemory, none, { s1 with mRenderer := created.2.2 })
        else
          let s2 := { s1 with
            mRenderer := created.2.2
            mRenderTargetCube := setAt2 s1.mRenderTargetCube faceIndex level (some
              { rtv := none, dsv := created.2.1, texture := s1.mTexture, srv := viewed.2.1,
                width := s1.getLevelWidth level, height := s1.getLevelHeight level,
                depth := 1 }) }
          (noError, ptrAt2 s2.mRenderTargetCube faceIndex level, s2)
      else
        let s2 := { s1 with mRenderer := s1.mRenderer.note NativeCall.UNREACHABLE }
        (noError, ptrAt2 s2.mRenderTargetCube faceIndex level, s2)
  else (noError, ptrAt2 s.mRenderTargetCube faceIndex level, s)

/-- Translation of `TextureStorage11_3D::getRenderTarget(index, outRT)`. -/
def getRenderTarget3D (s : TextureStorage11) (index : ImageIndex) :
    Error × Option RenderTarget11 × TextureStorage11 :=
  let mipLevel := index.mipIndex
  if !index.hasLayer then
    if (ptrAt s.mLevelRenderTargets mipLevel).isNone then
      let viewed := getSRVLevel s mipLevel
      if viewed.1.isError then (viewed.1, none, viewed.2.2)
      else
        let s1 := viewed.2.2
        let rtvDesc : RENDER_TARGET_VIEW_DESC :=
          { Format := s1.mRenderTargetFormat, ViewDimension := ViewDimension.TEXTURE3D,
            MipSlice := toUINT (s1.mTopLevel + mipLevel), FirstArraySlice := 0,
            ArraySize := toUINT (-1) }
        let created := CreateRenderTargetView s1.mRenderer s1.mTexture rtvDesc
        if FAILED created.1 then (outOfMemory, none, { s1 with mRenderer := created.2.2 })
        else
          let s2 := { s1 with
            mRenderer := created.2.2
            mLevelRenderTargets := setAt s1.mLevelRenderTargets mipLevel (some
              { rtv := created.2.1, dsv := none, texture := s1.mTexture, srv := viewed.2.1,
                width := s1.getLevelWidth mipLevel, height := s1.getLevelHeight mipLevel,
                depth := s1.getLevelDepth mipLevel }) }
          (noError, ptrAt s2.mLevelRenderTargets mipLevel, s2)
    else (noError, ptrAt s.mLevelRenderTargets mipLevel, s)
  else
    let layer := index.layerIndex
    let key : LevelLayerKey := { first := mipLevel, second := layer }
    if (LevelLayerMap.find s.mLevelLayerRenderTargets key).isNone then
      let rtvDesc : RENDER_TARGET_VIEW_DESC :=
        { Format := s.mRenderTargetFormat, ViewDimension := ViewDimension.TEXTURE3D,
          MipSlice := toUINT (s.mTopLevel + mipLevel), FirstArraySlice := toUINT layer,
          ArraySize := 1 }
      let created := CreateRenderTargetView s.mRenderer s.mTexture rtvDesc
      if FAILED created.1 then (outOfMemory, none, { s with mRenderer := created.2.2 })
      else
        let s1 := { s with
          mRenderer := created.2.2
          mLevelLayerRenderTargets := LevelLayerMap.assign s.mLevelLayerRenderTargets key (some
            { rtv := created.2.1, dsv := none, texture := s.mTexture, srv := none,
              width := s.getLevelWidth mipLevel, height := s.getLevelHeight mipLevel,
              depth := 1 }) }
        let out := LevelLayerMap.read s1.mLevelLayerRenderTargets key
        (noError, out.1, { s1 with mLevelLayerRenderTargets := out.2 })
    else
      let out := LevelLayerMap.read s.mLevelLayerRenderTargets key
      (noError, out.1, { s with mLevelLayerRenderTargets := out.2 })

/-- Translation of `TextureStorage11_2DArray::getRenderTarget(index, outRT)`. -/
def getRenderTarget2DArray (s : TextureStorage11) (index : ImageIndex) :
    Error × Option RenderTarget11 × TextureStorage11 :=
  let mipLevel := index.mipIndex
  let layer := index.layerIndex
  let key : LevelLayerKey := { first := mipLevel, second := layer }
  if (LevelLayerMap.find s.mRenderTargets key).isNone then
    let srvDesc : SHADER_RESOURCE_VIEW_DESC :=
      { Format := s.mShaderResourceFormat, ViewDimension := ViewDimension.TEXTURE2DARRAY,
        MostDetailedMip := toUINT (s.mTopLevel + mipLevel), MipLevels := 1,
        FirstArraySlice := toUINT layer, ArraySize := 1 }
    let viewed := CreateShaderResourceView s.mRenderer s.mTexture srvDesc
    if FAILED viewed.1 then (outOfMemory, none, { s with mRenderer := viewed.2.2 })
    else
      let s1 := { s with mRenderer := viewed.2.2 }
      if s1.mRenderTargetFormat ≠ DXGI_FORMAT_UNKNOWN then
        let rtvDesc : RENDER_TARGET_VIEW_DESC :=
          { Format := s1.mRenderTargetFormat, ViewDimension := ViewDimension.TEXTURE2DARRAY,
            MipSlice := toUINT (s1.mTopLevel + mipLevel), FirstArraySlice := toUINT layer,
            ArraySize := 1 }
        let created := CreateRenderTargetView s1.mRenderer s1.mTexture rtvDesc
        if FAILED created.1 then (outOfMemory, none, { s1 with mRenderer := created.2.2 })
        else
          let s2 := { s1 with
            mRenderer := created.2.2
            mRenderTargets := LevelLayerMap.assign s1.mRenderTargets key (some
              { rtv := created.2.1, dsv := none, texture := s1.mTexture, srv := viewed.2.1,
                width := s1.getLevelWidth mipLevel, height := s1.getLevelHeight mipLevel,
                depth := 1 }) }
          let out := LevelLayerMap.read s2.mRenderTargets key
          (noError, out.1, { s2 with mRenderTargets := out.2 })
      else
        let s2 := { s1 with mRenderer := s1.mRenderer.note NativeCall.UNREACHABLE }
        let out := LevelLayerMap.read s2.mRenderTargets key
        (noError, out.1, { s2 with mRenderTargets := out.2 })
  else
    let out := LevelLayerMap.read s.mRenderTargets key
    (noError, out.1, { s with mRenderTargets := out.2 })

/-- The virtual `getRenderTarget(index, outRT)`. -/
def getRenderTarget (s : TextureStorage11) (index : ImageIndex) :
    Error × Option RenderTarget11 × TextureStorage11 :=
  match s.shape with
  | .Texture2D => getRenderTarget2D s index
  | .Cube => getRenderTargetCube s index
  | .Texture3D => getRenderTarget3D s index
  | .Texture2DArray => getRenderTarget2DArray s index

/-- Translation of `generateMipmap(sourceIndex, destIndex)`: the storage after the call.  A
null render target (handed out after `UNREACHABLE()` only) is read as null views and zero
extents. -/
def generateMipmap (s : TextureStorage11) (sourceIndex destIndex : ImageIndex) :
    TextureStorage11 :=
  let s1 := s.invalidateSwizzleCacheLevel destIndex.mipIndex
  let source := getRenderTarget s1 sourceIndex
  if source.1.isError then source.2.2
  else
    let dest := getRenderTarget source.2.2 destIndex
    if dest.1.isError then dest.2.2
    else
      let s2 := dest.2.2
      let sourceSRV := source.2.1.bind RenderTarget11.getShaderResourceView
      let destRTV := dest.2.1.bind RenderTarget11.getRenderTargetView
      let sourceSize : Extents :=
        match source.2.1 with
        | some target => { width := target.width, height := target.height,
                           depth := target.depth }
        | none => { width := 0, height := 0, depth := 0 }
      let destSize : Extents :=
        match dest.2.1 with
        | some target => { width := target.width, height := target.height,
                           depth := target.depth }
        | none => { width := 0, height := 0, depth := 0 }
      let sourceArea : Box :=
        { x := 0, y := 0, z := 0, width := sourceSize.width, height := sourceSize.height,
          depth := sourceSize.depth }
      let destArea : Box :=
        { x := 0, y := 0, z := 0, width := destSize.width, height := destSize.height,
          depth := destSize.depth }
      { s2 with mRenderer :=
        (copyTexture s2.mRenderer sourceSRV sourceArea sourceSize destRTV destArea destSize).2 }

/-! ### The association of staging images with slots -/

/-- The constant `gl::IMPLEMENTATION_MAX_TEXTURE_LEVELS`, the declared size of the per-level
member arrays, read off the base-class array `mLevelSRVs`. -/
def IMPLEMENTATION_MAX_TEXTURE_LEVELS (s : TextureStorage11) : Int := s.mLevelSRVs.length

/-- Translation of `TextureStorage11_2D::associateImage(image, index)`. -/
def associateImage2D (s : TextureStorage11) (image : Option Image11) (index : ImageIndex) :
    TextureStorage11 :=
  let level := index.mipIndex
  if 0 ≤ level ∧ level < s.IMPLEMENTATION_MAX_TEXTURE_LEVELS then
    { s with mAssociatedImages := setAt s.mAssociatedImages level image }
  else s

/-- Translation of `TextureStorage11_Cube::associateImage(image, index)`. -/
def associateImageCube (s : TextureStorage11) (image : Option Image11) (index : ImageIndex) :
    TextureStorage11 :=
  let level := index.mipIndex
  let layerTarget := index.layerIndex
  if 0 ≤ level ∧ level < s.IMPLEMENTATION_MAX_TEXTURE_LEVELS then
    if 0 ≤ layerTarget ∧ layerTarget < CUBE_FACE_COUNT then
      { s with mAssociatedImagesCube := setAt2 s.mAssociatedImagesCube layerTarget level image }
    else s
  else s

/-- Translation of `TextureStorage11_3D::associateImage(image, index)`. -/
def associateImage3D (s : TextureStorage11) (image : Option Image11) (index : ImageIndex) :
    TextureStorage11 :=
  let level := index.mipIndex
  if 0 ≤ level ∧ level < s.IMPLEMENTATION_MAX_TEXTURE_LEVELS then
    { s with mAssociatedImages := setAt s.mAssociatedImages level image }
  else s

/-- Translation of `TextureStorage11_2DArray::associateImage(image, index)`. -/
def associateImage2DArray (s : TextureStorage11) (image : Option Image11)
    (index : ImageIndex) : TextureStorage11 :=
  let level := index.mipIndex
  let layerTarget := index.layerIndex
  if 0 ≤ level ∧ level < s.getLevelCount then
    let key : LevelLayerKey := { first := level, second := layerTarget }
    { s with mAssociatedImagesMap := LevelLayerMap.assign s.mAssociatedImagesMap key image }
  else s

/-- The virtual `associateImage(image, index)`. -/
def associateImage (s : TextureStorage11) (image : Option Image11) (index : ImageIndex) :
    TextureStorage11 :=
  match s.shape with
  | .Texture2D => associateImage2D s image index
  | .Cube => associateImageCube s image index
  | .Texture3D => associateImage3D s image index
  | .Texture2DArray => associateImage2DArray s image index

/-- Translation of `TextureStorage11_2D::isAssociatedImageValid(index, expectedImage)`. -/
def isAssociatedImageValid2D (s : TextureStorage11) (index : ImageIndex)
    (expectedImage : Option Image11) : Bool :=
  let level := index.mipIndex
  if 0 ≤ level ∧ level < s.IMPLEMENTATION_MAX_TEXTURE_LEVELS then
    decide (ptrAt s.mAssociatedImages level = expectedImage)
  else false

/-- Translation of `TextureStorage11_Cube::isAssociatedImageValid(index, expectedImage)`. -/
def isAssociatedImageValidCube (s : TextureStorage11) (index : ImageIndex)
    (expectedImage : Option Image11) : Bool :=
  let level := index.mipIndex
  let layerTarget := index.layerIndex
  if 0 ≤ level ∧ level < s.IMPLEMENTATION_MAX_TEXTURE_LEVELS then
    if 0 ≤ layerTarget ∧ layerTarget < CUBE_FACE_COUNT then
      decide (ptrAt2 s.mAssociatedImagesCube layerTarget level = expectedImage)
    else false
  else false

/-- Translation of `TextureStorage11_3D::isAssociatedImageValid(index, expectedImage)`. -/
def isAssociatedImageValid3D (s : TextureStorage11) (index : ImageIndex)
    (expectedImage : Option Image11) : Bool :=
  let level := index.mipIndex
  if 0 ≤ level ∧ level < s.IMPLEMENTATION_MAX_TEXTURE_LEVELS then
    decide (ptrAt s.mAssociatedImages level = expectedImage)
  else false

/-- Translation of `TextureStorage11_2DArray::isAssociatedImageValid(index, expectedImage)`:
the read `mAssociatedImages[key]` happens for a key that `find` has found only, so it inserts
nothing. -/
def isAssociatedImageValid2DArray (s : TextureStorage11) (index : ImageIndex)
    (expectedImage : Option Image11) : Bool :=
  let key : LevelLayerKey := { first := index.mipIndex, second := index.layerIndex }
  match LevelLayerMap.find s.mAssociatedImagesMap key with
  | some image => decide (image = expectedImage)
  | none => false

/-- The virtual `isAssociatedImageValid(index, expectedImage)`. -/
def isAssociatedImageValid (s : TextureStorage11) (index : ImageIndex)
    (expectedImage : Option Image11) : Bool :=
  match s.shape with
  | .Texture2D => isAssociatedImageValid2D s index expectedImage
  | .Cube => isAssociatedImageValidCube s index expectedImage
  | .Texture3D => isAssociatedImageValid3D s index expectedImage
  | .Texture2DArray => isAssociatedImageValid2DArray s index expectedImage

/-- Translation of `TextureStorage11_2D::disassociateImage(index, expectedImage)`. -/
def disassociateImage2D (s : TextureStorage11) (index : ImageIndex)
    (expectedImage : Option Image11) : TextureStorage11 :=
  let level := index.mipIndex
  if 0 ≤ level ∧ level < s.IMPLEMENTATION_MAX_TEXTURE_LEVELS then
    if ptrAt s.mAssociatedImages level = expectedImage then
      { s with mAssociatedImages := setAt s.mAssociatedImages level none }
    else s
  else s

/-- Translation of `TextureStorage11_Cube::disassociateImage(index, expectedImage)`. -/
def disassociateImageCube (s : TextureStorage11) (index : ImageIndex)
    (expectedImage : Option Image11) : TextureStorage11 :=
  let level := index.mipIndex
  let layerTarget := index.layerIndex
  if 0 ≤ level ∧ level < s.IMPLEMENTATION_MAX_TEXTURE_LEVELS then
    if 0 ≤ layerTarget ∧ layerTarget < CUBE_FACE_COUNT then
      if ptrAt2 s.mAssociatedImagesCube layerTarget level = expectedImage then
        { s with
          mAssociatedImagesCube := setAt2 s.mAssociatedImagesCube layerTarget level none }
      else s
    else s
  else s

/-- Translation of `TextureStorage11_3D::disassociateImage(index, expectedImage)`. -/
def disassociateImage3D (s : TextureStorage11) (index : ImageIndex)
    (expectedImage : Option Image11) : TextureStorage11 :=
  let level := index.mipIndex
  if 0 ≤ level ∧ level < s.IMPLEMENTATION_MAX_TEXTURE_LEVELS then
    if ptrAt s.mAssociatedImages level = expectedImage then
      { s with mAssociatedImages := setAt s.mAssociatedImages level none }
    else s
  else s

/-- Translation of `TextureStorage11_2DArray::disassociateImage(index, expectedImage)`: the
entry of the key stays in the map, with a null image. -/
def disassociateImage2DArray (s : TextureStorage11) (index : ImageIndex)
    (expectedImage : Option Image11) : TextureStorage11 :=
  let key : LevelLayerKey := { first := index.mipIndex, second := index.layerIndex }
  let imageAssociationCorrect : Bool :=
    match LevelLayerMap.find s.mAssociatedImagesMap key with
    | some image => decide (image = expectedImage)
    | none => false
  if imageAssociationCorrect then
    { s with mAssociatedImagesMap := LevelLayerMap.assign s.mAssociatedImagesMap key none }
  else s

/-- The virtual `disassociateImage(index, expectedImage)`. -/
def disassociateImage (s : TextureStorage11) (index : ImageIndex)
    (expectedImage : Option Image11) : TextureStorage11 :=
  match s.shape with
  | .Texture2D => disassociateImage2D s index expectedImage
  | .Cube => disassociateImageCube s index expectedImage
  | .Texture3D => disassociateImage3D s index expectedImage
  | .Texture2DArray => disassociateImage2DArray s index expectedImage

/-- The call `image->isAssociatedStorageValid(this)`: logged with the image it is made on; a
call through a null pointer (undefined in the source) is logged as such and answered with
`false`. -/
def isAssociatedStorageValid (s : TextureStorage11) (image : Option Image11) :
    Bool × TextureStorage11 :=
  (match image with
   | some staged => staged.storageValid
   | none => false,
   { s with mRenderer := s.mRenderer.note (NativeCall.isAssociatedStorageValid image) })

/-- Modelled from the spec: `Image11::recoverFromAssociatedStorage` is defined outside the
sources.  The call is the reconciliation of the image stored in the slot `index` ("forces X
to reconcile its data against the storage"); it is logged with its result, a failed one
reports `GL_OUT_OF_MEMORY`, and a successful one ends the association of the image with its
slot through `disassociateImage` ("this reconciliation call is expected to itself drive the
association to Unassociated as a side effect"). -/
def recoverFromAssociatedStorage (s : TextureStorage11) (image : Option Image11)
    (index : ImageIndex) : Error × TextureStorage11 :=
  let result := s.mRenderer.nextResult
  let s1 := { s with mRenderer :=
    s.mRenderer.record (NativeCall.recoverFromAssociatedStorage image result) }
  if FAILED result then (outOfMemory, s1) else (noError, disassociateImage s1 index image)

/-- The part of `releaseAssociatedImage` and of the destructors that all classes share, once
the image of the slot has been read: check the back-reference of the image, and let the image
recover its data when the back-reference is valid. -/
def recoverIfAssociationCorrect (s : TextureStorage11) (image : Option Image11)
    (index : ImageIndex) : Error × TextureStorage11 :=
  let checked := isAssociatedStorageValid s image
  if checked.1 then recoverFromAssociatedStorage checked.2 image index
  else (noError, checked.2)

/-- Translation of `TextureStorage11_2D::releaseAssociatedImage(index, incomingImage)`. -/
def releaseAssociatedImage2D (s : TextureStorage11) (index : ImageIndex)
    (incomingImage : Option Image11) : Error × TextureStorage11 :=
  let level := index.mipIndex
  if 0 ≤ level ∧ level < s.IMPLEMENTATION_MAX_TEXTURE_LEVELS then
    if (ptrAt s.mAssociatedImages level).isSome ∧
        ptrAt s.mAssociatedImages level ≠ incomingImage then
      let recovered := recoverIfAssociationCorrect s (ptrAt s.mAssociatedImages level) index
      if recovered.1.isError then (recovered.1, recovered.2) else (noError, recovered.2)
    else (noError, s)
  else (noError, s)

/-- Translation of `TextureStorage11_Cube::releaseAssociatedImage(index, incomingImage)`. -/
def releaseAssociatedImageCube (s : TextureStorage11) (index : ImageIndex)
    (incomingImage : Option Image11) : Error × TextureStorage11 :=
  let level := index.mipIndex
  let layerTarget := index.layerIndex
  if 0 ≤ level ∧ level < s.IMPLEMENTATION_MAX_TEXTURE_LEVELS then
    if 0 ≤ layerTarget ∧ layerTarget < CUBE_FACE_COUNT then
      if (ptrAt2 s.mAssociatedImagesCube layerTarget level).isSome ∧
          ptrAt2 s.mAssociatedImagesCube layerTarget level ≠ incomingImage then
        let recovered := recoverIfAssociationCorrect s
          (ptrAt2 s.mAssociatedImagesCube layerTarget level) index
        if recovered.1.isError then (recovered.1, recovered.2) else (noError, recovered.2)
      else (noError, s)
    else (noError, s)
  else (noError, s)

/-- Translation of `TextureStorage11_3D::releaseAssociatedImage(index, incomingImage)`. -/
def releaseAssociatedImage3D (s : TextureStorage11) (index : ImageIndex)
    (incomingImage : Option Image11) : Error × TextureStorage11 :=
  let level := index.mipIndex
  if 0 ≤ level ∧ level < s.IMPLEMENTATION_MAX_TEXTURE_LEVELS then
    if (ptrAt s.mAssociatedImages level).isSome ∧
        ptrAt s.mAssociatedImages level ≠ incomingImage then
      let recovered := recoverIfAssociationCorrect s (ptrAt s.mAssociatedImages level) index
      if recovered.1.isError then (recovered.1, recovered.2) else (noError, recovered.2)
    else (noError, s)
  else (noError, s)

/-- Translation of `TextureStorage11_2DArray::releaseAssociatedImage(index,
incomingImage)`. -/
def releaseAssociatedImage2DArray (s : TextureStorage11) (index : ImageIndex)
    (incomingImage : Option Image11) : Error × TextureStorage11 :=
  let key : LevelLayerKey := { first := index.mipIndex, second := index.layerIndex }
  match LevelLayerMap.find s.mAssociatedImagesMap key with
  | some image =>
    if image.isSome ∧ image ≠ incomingImage then
      let recovered := recoverIfAssociationCorrect s image index
      if recovered.1.isError then (recovered.1, recovered.2) else (noError, recovered.2)
    else (noError, s)
  | none => (noError, s)

/-- The virtual `releaseAssociatedImage(index, incomingImage)`. -/
def releaseAssociatedImage (s : TextureStorage11) (index : ImageIndex)
    (incomingImage : Option Image11) : Error × TextureStorage11 :=
  match s.shape with
  | .Texture2D => releaseAssociatedImage2D s index incomingImage
  | .Cube => releaseAssociatedImageCube s index incomingImage
  | .Texture3D => releaseAssociatedImage3D s index incomingImage
  | .Texture2DArray => releaseAssociatedImage2DArray s index incomingImage

/-! ### Destruction

The destructors first let the associated images recover their data; the releases of the
native objects that follow make no call that is logged.  The result is the storage at the
end of the loop over the association records. -/

/-- The index of the slot a destructor loop is at. -/
def slotIndex (level layer : Int) : ImageIndex :=
  { mipIndex := level, layerIndex := layer, layered := true }

/-- Translation of the first loop of `TextureStorage11_2D::~TextureStorage11_2D`. -/
def destroy2D (s : TextureStorage11) : TextureStorage11 :=
  (List.range s.IMPLEMENTATION_MAX_TEXTURE_LEVELS.toNat).foldl (fun storage i =>
    if (ptrAt storage.mAssociatedImages i).isSome then
      (recoverIfAssociationCorrect storage (ptrAt storage.mAssociatedImages i)
        (slotIndex i 0)).2
    else storage) s

/-- Translation of the first loop of `TextureStorage11_Cube::~TextureStorage11_Cube`: levels
in the outer loop, faces in the inner one. -/
def destroyCube (s : TextureStorage11) : TextureStorage11 :=
  (List.range s.IMPLEMENTATION_MAX_TEXTURE_LEVELS.toNat).foldl (fun outer level =>
    (List.range CUBE_FACE_COUNT).foldl (fun storage face =>
      if (ptrAt2 storage.mAssociatedImagesCube face level).isSome then
        (recoverIfAssociationCorrect storage (ptrAt2 storage.mAssociatedImagesCube face level)
          (slotIndex level face)).2
      else storage) outer) s

/-- Translation of the first loop of `TextureStorage11_3D::~TextureStorage11_3D`. -/
def destroy3D (s : TextureStorage11) : TextureStorage11 :=
  (List.range s.IMPLEMENTATION_MAX_TEXTURE_LEVELS.toNat).foldl (fun storage i =>
    if (ptrAt storage.mAssociatedImages i).isSome then
      (recoverIfAssociationCorrect storage (ptrAt storage.mAssociatedImages i)
        (slotIndex i 0)).2
    else storage) s

/-- Translation of the first loop of `TextureStorage11_2DArray::~TextureStorage11_2DArray`:
the loop visits the entries of the map in key order and calls `isAssociatedStorageValid` on
the image of each entry, whatever the pointer is. -/
def destroy2DArray (s : TextureStorage11) : TextureStorage11 :=
  (s.mAssociatedImagesMap.map Prod.fst).foldl (fun storage key =>
    (recoverIfAssociationCorrect storage
      ((LevelLayerMap.find storage.mAssociatedImagesMap key).getD none)
      (slotIndex key.first key.second)).2) s

/-- The destructor of the class of the storage. -/
def destroy (s : TextureStorage11) : TextureStorage11 :=
  match s.shape with
  | .Texture2D => destroy2D s
  | .Cube => destroyCube s
  | .Texture3D => destroy3D s
  | .Texture2DArray => destroy2DArray s

/-! ### Predicates used in the statements -/

/-- The members `mTopLevel` (an `int`) and `mMipLevels` (an `unsigned int`) hold values of
their C++ types, and the level offset is not negative (it counts size doublings). -/
def Representable (s : TextureStorage11) : Prop :=
  0 ≤ s.mTopLevel ∧ s.mTopLevel < 2147483648 ∧ s.mMipLevels < 4294967296

instance (s : TextureStorage11) : Decidable (Representable s) := by
  unfold Representable
  infer_instance

/-- The layer an index addresses, an absent layer counting as 0. -/
def layerOf (index : ImageIndex) : Int := if index.hasLayer then index.layerIndex else 0

/-- An index is valid for a storage with `layers` layers: its level is in
`[0, getLevelCount())` and its layer in `[0, layers)`. -/
def ValidIndex (s : TextureStorage11) (layers : Nat) (index : ImageIndex) : Prop :=
  0 ≤ index.mipIndex ∧ index.mipIndex < s.getLevelCount ∧
    0 ≤ layerOf index ∧ layerOf index < (layers : Int)

instance (s : TextureStorage11) (layers : Nat) (index : ImageIndex) :
    Decidable (ValidIndex s layers index) := by
  unfold ValidIndex
  infer_instance

/-- Whether a logged call is a `CreateShaderResourceView` (what `createSRV` issues). -/
def isSRVCreation : NativeCall → Bool
  | .CreateShaderResourceView _ _ _ => true
  | _ => false

/-- The number of native shader-view creations the device has been asked for so far. -/
def srvCreations (s : TextureStorage11) : Nat :=
  (s.mRenderer.calls.filter isSRVCreation).length

/-- The mip range `(MostDetailedMip, MipLevels)` of a view handed out. -/
def mipRangeOf : Option ShaderResourceView → Option (Nat × Nat)
  | some view => some (view.desc.MostDetailedMip, view.desc.MipLevels)
  | none => none

/-- The capabilities and format tables of the renderer `r2` are those of `r1` (a native call
changes the device part of the renderer only). -/
def SameCaps (r1 r2 : Renderer11) : Prop :=
  r2.featureLevel = r1.featureLevel ∧ r2.zeroMaxLodWorkaround = r1.zeroMaxLodWorkaround ∧
  r2.makeValidSize = r1.makeValidSize ∧ r2.isIntegerFormat = r1.isIntegerFormat

/-- The members no translated operation writes: `s2` has the shape, bind flags, mip count,
formats and extents of `s1`, and its renderer the capabilities and format tables of the
renderer of `s1`. -/
structure SameConfig (s1 s2 : TextureStorage11) : Prop where
  shape : s2.shape = s1.shape
  bindFlags : s2.mBindFlags = s1.mBindFlags
  mipLevels : s2.mMipLevels = s1.mMipLevels
  textureFormat : s2.mTextureFormat = s1.mTextureFormat
  shaderResourceFormat : s2.mShaderResourceFormat = s1.mShaderResourceFormat
  renderTargetFormat : s2.mRenderTargetFormat = s1.mRenderTargetFormat
  depthStencilFormat : s2.mDepthStencilFormat = s1.mDepthStencilFormat
  swizzleTextureFormat : s2.mSwizzleTextureFormat = s1.mSwizzleTextureFormat
  swizzleShaderResourceFormat :
    s2.mSwizzleShaderResourceFormat = s1.mSwizzleShaderResourceFormat
  swizzleRenderTargetFormat : s2.mSwizzleRenderTargetFormat = s1.mSwizzleRenderTargetFormat
  width : s2.mTextureWidth = s1.mTextureWidth
  height : s2.mTextureHeight = s1.mTextureHeight
  depth : s2.mTextureDepth = s1.mTextureDepth
  featureLevel : s2.mRenderer.featureLevel = s1.mRenderer.featureLevel
  workaround : s2.mRenderer.zeroMaxLodWorkaround = s1.mRenderer.zeroMaxLodWorkaround
  makeValidSize : s2.mRenderer.makeValidSize = s1.mRenderer.makeValidSize
  isIntegerFormat : s2.mRenderer.isIntegerFormat = s1.mRenderer.isIntegerFormat

/-- Whether a logged call is a swizzle blit. -/
def isSwizzleBlit : NativeCall → Bool
  | .swizzleTexture _ _ _ _ _ _ _ _ => true
  | _ => false

/-- The swizzle blits issued so far, most recent first. -/
def swizzleBlits (s : TextureStorage11) : List NativeCall :=
  s.mRenderer.calls.filter isSwizzleBlit

/-- The successful swizzle blit of `level`: from the level's shader view to the level's
swizzle render target, over the level's extents, as they are cached in `s`. -/
def swizzleBlitOf (s : TextureStorage11)
    (swizzleRed swizzleGreen swizzleBlue swizzleAlpha : GLenum) (level : Nat) : NativeCall :=
  NativeCall.swizzleTexture (ptrAt s.mLevelSRVs level) (ptrAt s.mSwizzleRenderTargets level)
    { width := s.getLevelWidth level, height := s.getLevelHeight level,
      depth := s.getLevelDepth level }
    swizzleRed swizzleGreen swizzleBlue swizzleAlpha HRESULT.S_OK

/-- The levels in `[first, getLevelCount())` whose cached swizzle differs from the given one,
in increasing order. -/
def staleLevelsFrom (s : TextureStorage11)
    (swizzleRed swizzleGreen swizzleBlue swizzleAlpha : GLenum) (first : Nat) : List Nat :=
  (List.range' first (s.getLevelCount.toNat - first)).filter (fun level =>
    (swizzleAt s.mSwizzleCache level).ne
      { swizzleRed := swizzleRed, swizzleGreen := swizzleGreen, swizzleBlue := swizzleBlue,
        swizzleAlpha := swizzleAlpha })

/-- The levels in `[0, getLevelCount())` whose cached swizzle differs from the given one, in
increasing order. -/
def staleLevels (s : TextureStorage11)
    (swizzleRed swizzleGreen swizzleBlue swizzleAlpha : GLenum) : List Nat :=
  staleLevelsFrom s swizzleRed swizzleGreen swizzleBlue swizzleAlpha 0

/-- The operations on the caches of a storage that the statements about cached views range
over. -/
inductive CacheOp where
  | generateSwizzles (swizzleRed swizzleGreen swizzleBlue swizzleAlpha : GLenum)
  | invalidateSwizzleCacheLevel (mipLevel : Int)
  | invalidateSwizzleCache
  | getSRVLevel (mipLevel : Int)
  | getSRV (samplerState : SamplerState)

/-- The storage after one cache operation (whatever the operation returned). -/
def CacheOp.apply (op : CacheOp) (s : TextureStorage11) : TextureStorage11 :=
  match op with
  | .generateSwizzles red green blue alpha => (s.generateSwizzles red green blue alpha).2
  | .invalidateSwizzleCacheLevel mipLevel => s.invalidateSwizzleCacheLevel mipLevel
  | .invalidateSwizzleCache => s.invalidateSwizzleCache
  | .getSRVLevel mipLevel => (s.getSRVLevel mipLevel).2.2
  | .getSRV samplerState => (s.getSRV samplerState).2.2

/-- The storage after a sequence of cache operations. -/
def applyOps (ops : List CacheOp) (s : TextureStorage11) : TextureStorage11 :=
  ops.foldl (fun storage op => op.apply storage) s

/-- Whether a logged call is a copy into a texture that `updateSubresourceLevel` can issue:
the depth-stencil copy of the blitter or the region copy of the device context. -/
def isCopyCall : NativeCall → Bool
  | .copyDepthStencil _ _ _ _ _ _ _ _ _ => true
  | .CopySubresourceRegion _ _ _ _ _ _ _ _ => true
  | _ => false

/-- Whether a logged call is the blit `copyTexture` of `generateMipmap`. -/
def isCopyTexture : NativeCall → Bool
  | .copyTexture _ _ _ _ _ _ _ => true
  | _ => false

/-- Whether a logged call is the creation of a native view. -/
def isViewCreation : NativeCall → Bool
  | .CreateShaderResourceView _ _ _ => true
  | .CreateRenderTargetView _ _ _ => true
  | .CreateDepthStencilView _ _ _ => true
  | _ => false

/-- The log of `r2` is the log of `r1` with more recent calls on top, all of them creations
of native views or reports of `UNREACHABLE()`. -/
def ViewCallsOnly (r1 r2 : Renderer11) : Prop :=
  ∃ added : List NativeCall, r2.calls = added ++ r1.calls ∧
    ∀ call ∈ added, isViewCreation call = true ∨ call = NativeCall.UNREACHABLE

/-- Whether a logged call is the creation of a depth-stencil view. -/
def isDepthStencilViewCreation : NativeCall → Bool
  | .CreateDepthStencilView _ _ _ => true
  | _ => false

/-- Whether a logged call is a reconciliation `recoverFromAssociatedStorage`. -/
def isRecovery : NativeCall → Bool
  | .recoverFromAssociatedStorage _ _ => true
  | _ => false

/-- The content of subresource `subresource` of the texture `id` after the logged calls
(most recent first), starting from the contents `initial`: a copy of a whole subresource
(null source box, destination origin) gives the destination the content of the source; the
other calls are not interpreted. -/
def subresourceContent (initial : Nat → Nat → Nat) : List NativeCall → Nat → Nat → Nat
  | [], id, subresource => initial id subresource
  | .CopySubresourceRegion (some dst) dstSubresource 0 0 0 (some src) srcSubresource none
      :: older, id, subresource =>
    if id = dst.id ∧ subresource = dstSubresource then
      subresourceContent initial older src.id srcSubresource
    else subresourceContent initial older id subresource
  | _ :: older, id, subresource => subresourceContent initial older id subresource

/-- The association record of the slot `index` of a 2D or 3D storage. -/
def associatedImageLevel (s : TextureStorage11) (index : ImageIndex) : Option Image11 :=
  if 0 ≤ index.mipIndex ∧ index.mipIndex < s.IMPLEMENTATION_MAX_TEXTURE_LEVELS then
    ptrAt s.mAssociatedImages index.mipIndex
  else none

/-- The association record of the slot `index` of a cube storage. -/
def associatedImageCube (s : TextureStorage11) (index : ImageIndex) : Option Image11 :=
  if 0 ≤ index.mipIndex ∧ index.mipIndex < s.IMPLEMENTATION_MAX_TEXTURE_LEVELS then
    if 0 ≤ index.layerIndex ∧ index.layerIndex < CUBE_FACE_COUNT then
      ptrAt2 s.mAssociatedImagesCube index.layerIndex index.mipIndex
    else none
  else none

/-- The association record of the slot `index` of a 2D-array storage: the image of the map
entry, null when the map has no entry for the slot. -/
def associatedImageMap (s : TextureStorage11) (index : ImageIndex) : Option Image11 :=
  (LevelLayerMap.find s.mAssociatedImagesMap
    { first := index.mipIndex, second := index.layerIndex }).getD none

/-- The association record of the slot `index`: the image the storage holds for the slot,
`none` when the slot is unassociated. -/
def associatedImage (s : TextureStorage11) (index : ImageIndex) : Option Image11 :=
  match s.shape with
  | .Texture2D => associatedImageLevel s index
  | .Cube => associatedImageCube s index
  | .Texture3D => associatedImageLevel s index
  | .Texture2DArray => associatedImageMap s index

/-- The member arrays of association records have their declared sizes:
`IMPLEMENTATION_MAX_TEXTURE_LEVELS` slots per level array, `CUBE_FACE_COUNT` rows of that
size in the cube array. -/
def AssociationsSized (s : TextureStorage11) : Prop :=
  s.mAssociatedImages.length = s.mLevelSRVs.length ∧
  s.mAssociatedImagesCube.length = CUBE_FACE_COUNT ∧
  ∀ row ∈ s.mAssociatedImagesCube, row.length = s.mLevelSRVs.length

instance (s : TextureStorage11) : Decidable (AssociationsSized s) := by
  unfold AssociationsSized
  infer_instance

/-- The slot `index` is in range for the association records of the storage: its level is in
`[0, IMPLEMENTATION_MAX_TEXTURE_LEVELS)` for the array-based classes (and its face in
`[0, CUBE_FACE_COUNT)` for a cube), in `[0, getLevelCount())` for a 2D-array storage. -/
def SlotInRange (s : TextureStorage11) (index : ImageIndex) : Prop :=
  if s.shape = Shape.Texture2DArray then
    0 ≤ index.mipIndex ∧ index.mipIndex < s.getLevelCount
  else if s.shape = Shape.Cube then
    (0 ≤ index.mipIndex ∧ index.mipIndex < s.IMPLEMENTATION_MAX_TEXTURE_LEVELS) ∧
      0 ≤ index.layerIndex ∧ index.layerIndex < CUBE_FACE_COUNT
  else 0 ≤ index.mipIndex ∧ index.mipIndex < s.IMPLEMENTATION_MAX_TEXTURE_LEVELS

instance (s : TextureStorage11) (index : ImageIndex) : Decidable (SlotInRange s index) := by
  unfold SlotInRange
  infer_instance

/-- The render target the cache of the storage holds for the slot `index`, `none` when it
holds none: for a 2D storage the cache of the resource in use, for a 3D storage the
per-level array or the per-layer map as the index has no layer or has one. -/
def cachedRenderTarget (s : TextureStorage11) (index : ImageIndex) : Option RenderTarget11 :=
  match s.shape with
  | .Texture2D =>
    if s.mUseLevelZeroTexture then s.mLevelZeroRenderTarget
    else ptrAt s.mRenderTarget index.mipIndex
  | .Cube => ptrAt2 s.mRenderTargetCube index.layerIndex index.mipIndex
  | .Texture3D =>
    if !index.hasLayer then ptrAt s.mLevelRenderTargets index.mipIndex
    else (LevelLayerMap.find s.mLevelLayerRenderTargets
      { first := index.mipIndex, second := index.layerIndex }).getD none
  | .Texture2DArray =>
    (LevelLayerMap.find s.mRenderTargets
      { first := index.mipIndex, second := index.layerIndex }).getD none

/-- Whether every render target cached in the per-level array of a 2D storage carries the
extents of its level. -/
def renderTargetsSized (s : TextureStorage11) : Bool :=
  (List.range s.mRenderTarget.length).all fun level =>
    match s.mRenderTarget.getD level none with
    | none => true
    | some target =>
      target.width == s.getLevelWidth (level : Int) &&
        target.height == s.getLevelHeight (level : Int)

/-- The box of the most recent upload `UpdateSubresource` in a log, `none` when the log holds
no upload; the inner `none` is the null box. -/
def lastUploadBox : List NativeCall → Option (Option D3D11_BOX)
  | [] => none
  | NativeCall.UpdateSubresource _ _ destBox _ _ :: _ => some destBox
  | _ :: rest => lastUploadBox rest

/-- Whether the override of `getRenderTarget` for the shape of the storage finds a format to
create a view with: the render-target or the depth-stencil format for the 2D class on its
full-chain texture and for the cube class, the render-target format for the 2D-array class;
the 2D class on its level-zero-only texture and the 3D class create a render-target view
without testing a format. -/
def hasTargetFormat (s : TextureStorage11) : Bool :=
  match s.shape with
  | .Texture2D =>
    s.mUseLevelZeroTexture || s.mRenderTargetFormat != DXGI_FORMAT_UNKNOWN ||
      s.mDepthStencilFormat != DXGI_FORMAT_UNKNOWN
  | .Cube =>
    s.mRenderTargetFormat != DXGI_FORMAT_UNKNOWN ||
      s.mDepthStencilFormat != DXGI_FORMAT_UNKNOWN
  | .Texture3D => true
  | .Texture2DArray => s.mRenderTargetFormat != DXGI_FORMAT_UNKNOWN

/-- The slot `index` addresses an element inside the array its render target is cached in
(the single level-zero target and the map-based caches hold every slot). -/
def TargetSlotInRange (s : TextureStorage11) (index : ImageIndex) : Prop :=
  match s.shape with
  | .Texture2D =>
    s.mUseLevelZeroTexture = true ∨
      (0 ≤ index.mipIndex ∧ index.mipIndex < s.mRenderTarget.length)
  | .Cube =>
    (0 ≤ index.layerIndex ∧ index.layerIndex.toNat < s.mRenderTargetCube.length) ∧
      0 ≤ index.mipIndex ∧
      index.mipIndex < (rowAt s.mRenderTargetCube index.layerIndex).length
  | .Texture3D =>
    index.hasLayer = true ∨
      (0 ≤ index.mipIndex ∧ index.mipIndex < s.mLevelRenderTargets.length)
  | .Texture2DArray => True

instance (s : TextureStorage11) (index : ImageIndex) :
    Decidable (TargetSlotInRange s index) := by
  unfold TargetSlotInRange
  cases s.shape <;> infer_instance

/-- Whether no entry of the map-based render-target caches holds a null pointer. -/
def noNullTargets (s : TextureStorage11) : Bool :=
  s.mLevelLayerRenderTargets.all (fun entry => entry.2.isSome) &&
    s.mRenderTargets.all (fun entry => entry.2.isSome)

/-- The swizzle values a sampler may name: the four channels, zero and one. -/
def isSwizzleValue (value : GLenum) : Bool :=
  value == GL_RED || value == GL_GREEN || value == GL_BLUE || value == GL_ALPHA ||
    value == GL_ZERO || value == GL_ONE

/-! ### States used as concrete inputs -/

/-- Translation of the base constructor `TextureStorage11(renderer, bindFlags)` together with
the null-initialisation of the shape class members; `maxLevels` is the array size
`gl::IMPLEMENTATION_MAX_TEXTURE_LEVELS`. -/
def init (renderer : Renderer11) (bindFlags : Nat) (shape : Shape) (maxLevels : Nat) :
    TextureStorage11 :=
  { shape := shape
    mRenderer := renderer
    mBindFlags := bindFlags
    mTopLevel := 0
    mMipLevels := 0
    mTextureFormat := DXGI_FORMAT_UNKNOWN
    mShaderResourceFormat := DXGI_FORMAT_UNKNOWN
    mRenderTargetFormat := DXGI_FORMAT_UNKNOWN
    mDepthStencilFormat := DXGI_FORMAT_UNKNOWN
    mSwizzleTextureFormat := DXGI_FORMAT_UNKNOWN
    mSwizzleShaderResourceFormat := DXGI_FORMAT_UNKNOWN
    mSwizzleRenderTargetFormat := DXGI_FORMAT_UNKNOWN
    mTextureWidth := 0
    mTextureHeight := 0
    mTextureDepth := 0
    mSwizzleCache := List.replicate maxLevels SwizzleCacheValue.default
    mSrvCache := []
    mLevelSRVs := List.replicate maxLevels none
    mTexture := none
    mSwizzleTexture := none
    mSwizzleRenderTargets := List.replicate maxLevels none
    mLevelZeroTexture := none
    mUseLevelZeroTexture := false
    mAssociatedImages := List.replicate maxLevels none
    mAssociatedImagesCube := List.replicate CUBE_FACE_COUNT (List.replicate maxLevels none)
    mAssociatedImagesMap := []
    mRenderTarget := List.replicate maxLevels none
    mLevelZeroRenderTarget := none
    mRenderTargetCube := List.replicate CUBE_FACE_COUNT (List.replicate maxLevels none)
    mLevelRenderTargets := List.replicate maxLevels none
    mLevelLayerRenderTargets := []
    mRenderTargets := [] }

/-! ### Constructors

The argument `formatInfo` is the entry `d3d11::GetTextureFormatInfo(internalformat,
featureLevel)` of the format table, which is outside the translated sources.  The serial
bookkeeping (`initializeSerials`) is not part of the model. -/

/-- Translation of `GetTextureBindFlags(internalFormat, featureLevel, renderTarget)`. -/
def GetTextureBindFlags (formatInfo : TextureFormat) (renderTarget : Bool) : Nat :=
  let flags0 : Nat := 0
  let flags1 := if formatInfo.srvFormat ≠ DXGI_FORMAT_UNKNOWN
    then flags0 ||| D3D11_BIND_SHADER_RESOURCE else flags0
  let flags2 := if formatInfo.dsvFormat ≠ DXGI_FORMAT_UNKNOWN
    then flags1 ||| D3D11_BIND_DEPTH_STENCIL else flags1
  if formatInfo.rtvFormat ≠ DXGI_FORMAT_UNKNOWN ∧ renderTarget = true
    then flags2 ||| D3D11_BIND_RENDER_TARGET else flags2

/-- The part the four shape constructors share: the base constructor with the bind flags of
the format, the null members, and the seven formats copied from the table entry. -/
def withFormats (renderer : Renderer11) (formatInfo : TextureFormat) (renderTarget : Bool)
    (shape : Shape) (maxLevels : Nat) : TextureStorage11 :=
  { init renderer (GetTextureBindFlags formatInfo renderTarget) shape maxLevels with
    mTextureFormat := formatInfo.texFormat
    mShaderResourceFormat := formatInfo.srvFormat
    mDepthStencilFormat := formatInfo.dsvFormat
    mRenderTargetFormat := formatInfo.rtvFormat
    mSwizzleTextureFormat := formatInfo.swizzleTexFormat
    mSwizzleShaderResourceFormat := formatInfo.swizzleSRVFormat
    mSwizzleRenderTargetFormat := formatInfo.swizzleRTVFormat }

/-- Translation of the constructor `TextureStorage11_2D(renderer, internalformat,
renderTarget, width, height, levels, hintLevelZeroOnly)`. -/
def TextureStorage11_2D (renderer : Renderer11) (formatInfo : TextureFormat)
    (renderTarget : Bool) (width height levels : Int) (hintLevelZeroOnly : Bool)
    (maxLevels : Nat) : TextureStorage11 :=
  let s0 := withFormats renderer formatInfo renderTarget Shape.Texture2D maxLevels
  let created :=
    if hintLevelZeroOnly then createTexture2DHelper s0 width height 1 true
    else createTexture2DHelper s0 width height levels false
  let s1 := { created.2 with mUseLevelZeroTexture := hintLevelZeroOnly }
  if created.1 then
    { s1 with
      mMipLevels := toUINT levels
      mTextureWidth := toUINT width
      mTextureHeight := toUINT height
      mTextureDepth := 1 }
  else s1

/-- The members a constructor reads back from the created texture with `GetDesc`; `depth`
selects what `mTextureDepth` is set to. -/
def recordDesc (s : TextureStorage11) (renderer : Renderer11) (texture : Option Texture)
    (depth : TEXTURE_DESC → Nat) : TextureStorage11 :=
  match texture with
  | some created =>
    { s with
      mRenderer := renderer
      mTexture := some created
      mMipLevels := created.desc.MipLevels
      mTextureWidth := created.desc.Width
      mTextureHeight := created.desc.Height
      mTextureDepth := depth created.desc }
  | none => { s with mRenderer := renderer }

/-- Translation of the constructor `TextureStorage11_Cube(renderer, internalformat,
renderTarget, size, levels)`. -/
def TextureStorage11_Cube (renderer : Renderer11) (formatInfo : TextureFormat)
    (renderTarget : Bool) (size levels : Int) (maxLevels : Nat) : TextureStorage11 :=
  let s0 := withFormats renderer formatInfo renderTarget Shape.Cube maxLevels
  if size > 0 then
    let sized := s0.mRenderer.makeValidSize s0.mTextureFormat size size
    let s1 := { s0 with mTopLevel := sized.2.2 }
    let desc : TEXTURE_DESC :=
      { Width := toUINT sized.1
        Height := toUINT sized.1
        Depth := 1
        MipLevels := if levels > 0 then toUINT (s1.mTopLevel + levels) else 0
        ArraySize := CUBE_FACE_COUNT
        Format := s1.mTextureFormat
        BindFlags := s1.getBindFlags
        MiscFlags := D3D11_RESOURCE_MISC_TEXTURECUBE }
    let created := CreateTexture2D s1.mRenderer desc
    if FAILED created.1 then
      { s1 with mRenderer := created.2.2.note (NativeCall.glError GL_OUT_OF_MEMORY) }
    else recordDesc s1 created.2.2 created.2.1 (fun _ => 1)
  else s0

/-- Translation of the constructor `TextureStorage11_3D(renderer, internalformat,
renderTarget, width, height, depth, levels)`. -/
def TextureStorage11_3D (renderer : Renderer11) (formatInfo : TextureFormat)
    (renderTarget : Bool) (width height depth levels : Int) (maxLevels : Nat) :
    TextureStorage11 :=
  let s0 := withFormats renderer formatInfo renderTarget Shape.Texture3D maxLevels
  if width > 0 ∧ height > 0 ∧ depth > 0 then
    let sized := s0.mRenderer.makeValidSize s0.mTextureFormat width height
    let s1 := { s0 with mTopLevel := sized.2.2 }
    let desc : TEXTURE_DESC :=
      { Width := toUINT sized.1
        Height := toUINT sized.2.1
        Depth := toUINT depth
        MipLevels := if levels > 0 then toUINT (s1.mTopLevel + levels) else 0
        ArraySize := 1
        Format := s1.mTextureFormat
        BindFlags := s1.getBindFlags
        MiscFlags := 0 }
    let created := CreateTexture3D s1.mRenderer desc
    if isDeviceLostError created.1 then
      { s1 with mRenderer := ((created.2.2.note NativeCall.notifyDeviceLost).note
        (NativeCall.glError GL_OUT_OF_MEMORY)) }
    else if FAILED created.1 then
      { s1 with mRenderer := created.2.2.note (NativeCall.glError GL_OUT_OF_MEMORY) }
    else recordDesc s1 created.2.2 created.2.1 (fun desc => desc.Depth)
  else s0

/-- Translation of the constructor `TextureStorage11_2DArray(renderer, internalformat,
renderTarget, width, height, depth, levels)`. -/
def TextureStorage11_2DArray (renderer : Renderer11) (formatInfo : TextureFormat)
    (renderTarget : Bool) (width height depth levels : Int) (maxLevels : Nat) :
    TextureStorage11 :=
  let s0 := withFormats renderer formatInfo renderTarget Shape.Texture2DArray maxLevels
  if width > 0 ∧ height > 0 ∧ depth > 0 then
    let sized := s0.mRenderer.makeValidSize s0.mTextureFormat width height
    let s1 := { s0 with mTopLevel := sized.2.2 }
    let desc : TEXTURE_DESC :=
      { Width := toUINT sized.1
        Height := toUINT sized.2.1
        Depth := 1
        MipLevels := if levels > 0 then toUINT (s1.mTopLevel + levels) else 0
        ArraySize := toUINT depth
        Format := s1.mTextureFormat
        BindFlags := s1.getBindFlags
        MiscFlags := 0 }
    let created := CreateTexture2D s1.mRenderer desc
    if isDeviceLostError created.1 then
      { s1 with mRenderer := ((created.2.2.note NativeCall.notifyDeviceLost).note
        (NativeCall.glError GL_OUT_OF_MEMORY)) }
    else if FAILED created.1 then
      { s1 with mRenderer := created.2.2.note (NativeCall.glError GL_OUT_OF_MEMORY) }
    else recordDesc s1 created.2.2 created.2.1 (fun desc => desc.ArraySize)
  else s0

/-- A feature-level 11_0 renderer without workarounds, whose size adjustment changes
nothing, whose formats are not integer formats, and whose native calls all succeed. -/
def plainRenderer : Renderer11 :=
  { featureLevel := 0xb000
    zeroMaxLodWorkaround := false
    makeValidSize := fun _ width height => (width, height, 0)
    isIntegerFormat := fun _ => false
    depthBits := fun _ => 0
    stencilBits := fun _ => 0
    blockWidth := fun _ => 1
    blockHeight := fun _ => 1
    results := []
    nextId := 100
    calls := [] }

/-- A native texture with the given identity, extents, mip count and array size. -/
def textureOf (id width height depth mipLevels arraySize : Nat) : Texture :=
  { id := id
    desc := { Width := width, Height := height, Depth := depth, MipLevels := mipLevels,
              ArraySize := arraySize, Format := 28, BindFlags := 0x28, MiscFlags := 0 } }

/-- A cube storage of 3 levels of size 16 (no level offset), freshly created. -/
def cube16 : TextureStorage11 :=
  { init plainRenderer 0x28 Shape.Cube 15 with
    mMipLevels := 3
    mTextureFormat := 28
    mShaderResourceFormat := 28
    mRenderTargetFormat := 28
    mSwizzleTextureFormat := 28
    mSwizzleShaderResourceFormat := 28
    mSwizzleRenderTargetFormat := 28
    mTextureWidth := 16
    mTextureHeight := 16
    mTextureDepth := 1
    mTexture := some (textureOf 1 16 16 1 3 6) }

/-- A 2D storage of 256 x 256 texels with 5 levels in an RGBA8 format (no level offset),
freshly created on the full-chain texture. -/
def storage256 : TextureStorage11 :=
  { init plainRenderer 0x28 Shape.Texture2D 15 with
    mMipLevels := 5
    mTextureFormat := 28
    mShaderResourceFormat := 28
    mRenderTargetFormat := 28
    mSwizzleTextureFormat := 28
    mSwizzleShaderResourceFormat := 28
    mSwizzleRenderTargetFormat := 28
    mTextureWidth := 256
    mTextureHeight := 256
    mTextureDepth := 1
    mTexture := some (textureOf 1 256 256 1 5 1) }

/-- A sampler state with `baseLevel = 0`, `maxLevel = 4`, no swizzle, and a mip-filtering
minification filter. -/
def samplerMipmapped : SamplerState :=
  { baseLevel := 0, maxLevel := 4, swizzleRed := GL_RED, swizzleGreen := GL_GREEN,
    swizzleBlue := GL_BLUE, swizzleAlpha := GL_ALPHA, swizzleNeeded := false,
    mipmapFiltered := true }

/-- The sampler state `samplerMipmapped` with a minification filter that does not use mips. -/
def samplerFlat : SamplerState := { samplerMipmapped with mipmapFiltered := false }

/-- A renderer like `plainRenderer` for which format 30 (an unsigned-integer RGBA8 format) is
an integer format. -/
def integerRenderer : Renderer11 :=
  { plainRenderer with isIntegerFormat := fun format => format == 30 }

/-- A cube storage of 3 levels of size 16 in the integer format 30, freshly created. -/
def cubeInteger : TextureStorage11 :=
  { cube16 with
    mRenderer := integerRenderer
    mTextureFormat := 30
    mShaderResourceFormat := 30
    mRenderTargetFormat := 30 }

/-- A cube storage of a block-compressed format whose requested size 2 was doubled to the
block size 4: level offset 1, 2 requested levels, so 3 levels in the native texture. -/
def cubeOffset : TextureStorage11 :=
  { init plainRenderer 0x8 Shape.Cube 15 with
    mTopLevel := 1
    mMipLevels := 3
    mTextureFormat := 71
    mShaderResourceFormat := 71
    mSwizzleTextureFormat := 28
    mSwizzleShaderResourceFormat := 28
    mSwizzleRenderTargetFormat := 28
    mTextureWidth := 4
    mTextureHeight := 4
    mTextureDepth := 1
    mTexture := some (textureOf 1 4 4 1 3 6) }

/-- A 2D-array storage of 4 layers of 16 x 16 texels with one level in a depth-stencil format
(typeless 44, depth-stencil view format 45, shader view format 46): its render-target format
is unset. -/
def arrayDepth : TextureStorage11 :=
  { init plainRenderer 0x48 Shape.Texture2DArray 15 with
    mMipLevels := 1
    mTextureFormat := 44
    mShaderResourceFormat := 46
    mDepthStencilFormat := 45
    mTextureWidth := 16
    mTextureHeight := 16
    mTextureDepth := 4
    mTexture := some
      { id := 1
        desc := { Width := 16, Height := 16, Depth := 1, MipLevels := 1, ArraySize := 4,
                  Format := 44, BindFlags := 0x48, MiscFlags := 0 } } }

/-- A 2D-array storage of 4 layers of 16 x 16 texels with 3 levels in an RGBA8 format. -/
def array16 : TextureStorage11 :=
  { init plainRenderer 0x28 Shape.Texture2DArray 15 with
    mMipLevels := 3
    mTextureFormat := 28
    mShaderResourceFormat := 28
    mRenderTargetFormat := 28
    mSwizzleTextureFormat := 28
    mSwizzleShaderResourceFormat := 28
    mSwizzleRenderTargetFormat := 28
    mTextureWidth := 16
    mTextureHeight := 16
    mTextureDepth := 4
    mTexture := some (textureOf 1 16 16 1 3 4) }

/-- A 3D storage of 16 x 16 x 4 texels with 3 levels in an RGBA8 format. -/
def volume16 : TextureStorage11 :=
  { init plainRenderer 0x28 Shape.Texture3D 15 with
    mMipLevels := 3
    mTextureFormat := 28
    mShaderResourceFormat := 28
    mRenderTargetFormat := 28
    mSwizzleTextureFormat := 28
    mSwizzleShaderResourceFormat := 28
    mSwizzleRenderTargetFormat := 28
    mTextureWidth := 16
    mTextureHeight := 16
    mTextureDepth := 4
    mTexture := some (textureOf 1 16 16 4 3 1) }

/-- A cube storage of one level of size 16 in the depth-stencil format of `arrayDepth`. -/
def cubeDepth : TextureStorage11 :=
  { arrayDepth with
    shape := Shape.Cube
    mTextureDepth := 1
    mTexture := some
      { id := 1
        desc := { Width := 16, Height := 16, Depth := 1, MipLevels := 1, ArraySize := 6,
                  Format := 44, BindFlags := 0x48, MiscFlags := 0x4 } } }

/-- A staging image whose back-reference names the storage. -/
def imageA : Image11 := { id := 1, storageValid := true }

/-- Another staging image whose back-reference names the storage. -/
def imageB : Image11 := { id := 2, storageValid := true }

/-- A staging image whose back-reference does not name the storage. -/
def imageStale : Image11 := { id := 3, storageValid := false }

/-- The index of level `level` without a layer. -/
def levelIndex (level : Int) : ImageIndex :=
  { mipIndex := level, layerIndex := 0, layered := false }

/-- A renderer like `plainRenderer` that needs the zero-max-LOD workaround. -/
def workaroundRenderer : Renderer11 :=
  { plainRenderer with zeroMaxLodWorkaround := true }

/-- The storage `storage256` on a renderer that needs the zero-max-LOD workaround, its
full-chain texture in use. -/
def workaround256 : TextureStorage11 :=
  { storage256 with mRenderer := workaroundRenderer }

/-- A renderer like `plainRenderer` for which format 44 has 24 depth bits and 8 stencil
bits. -/
def depthRenderer : Renderer11 :=
  { plainRenderer with
    depthBits := fun format => if format = 44 then 24 else 0
    stencilBits := fun format => if format = 44 then 8 else 0 }

/-- The table entry of an RGBA8 format: one format for the texture and every view. -/
def formatRGBA8 : TextureFormat :=
  { texFormat := 28, srvFormat := 28, rtvFormat := 28, dsvFormat := DXGI_FORMAT_UNKNOWN,
    swizzleTexFormat := 28, swizzleSRVFormat := 28, swizzleRTVFormat := 28 }

/-- The table entry of the block-compressed format 71 (blocks of 4 x 4 texels): no
render-target and no depth-stencil format. -/
def formatBlock : TextureFormat :=
  { texFormat := 71, srvFormat := 71, rtvFormat := DXGI_FORMAT_UNKNOWN,
    dsvFormat := DXGI_FORMAT_UNKNOWN, swizzleTexFormat := 28, swizzleSRVFormat := 28,
    swizzleRTVFormat := 28 }

/-- A renderer like `plainRenderer` for which format 71 has blocks of 4 x 4 texels: a
requested size below the block size is doubled until both extents are multiples of 4, the
level offset counting the doublings. -/
def blockRenderer : Renderer11 :=
  { plainRenderer with
    makeValidSize := fun format width height =>
      if format = 71 ∧ (width < 4 ∨ height < 4) then
        if width % 4 = 0 ∧ height % 4 = 0 then (width, height, 0)
        else if (2 * width) % 4 = 0 ∧ (2 * height) % 4 = 0 then (2 * width, 2 * height, 1)
        else (4 * width, 4 * height, 2)
      else (width, height, 0)
    blockWidth := fun format => if format = 71 then 4 else 1
    blockHeight := fun format => if format = 71 then 4 else 1 }

/-- A 2D storage of 256 x 256 texels with 5 levels, constructed with the level-zero hint on
a renderer that needs the zero-max-LOD workaround: its level-zero-only texture is in use. -/
def levelZero256 : TextureStorage11 :=
  TextureStorage11_2D workaroundRenderer formatRGBA8 true 256 256 5 true 15

/-- A staging image of 256 x 256 texels in an RGBA8 format (4 bytes a texel). -/
def imageRGBA : Image :=
  { width := 256, height := 256, depth := 1, depthBits := 0, compressed := false,
    pixelBytes := 4 }

/-- A staging image of 32 x 32 texels in a depth format of 24 depth bits. -/
def imageDepth24 : Image :=
  { width := 32, height := 32, depth := 1, depthBits := 24, compressed := false,
    pixelBytes := 4 }

/-- A 2D storage of 64 x 64 texels with 2 levels in the depth-stencil format of
`arrayDepth`. -/
def depth64 : TextureStorage11 :=
  { init depthRenderer 0x48 Shape.Texture2D 15 with
    mMipLevels := 2
    mTextureFormat := 44
    mShaderResourceFormat := 46
    mDepthStencilFormat := 45
    mTextureWidth := 64
    mTextureHeight := 64
    mTextureDepth := 1
    mTexture := some
      { id := 1
        desc := { Width := 64, Height := 64, Depth := 1, MipLevels := 2, ArraySize := 1,
                  Format := 44, BindFlags := 0x48, MiscFlags := 0 } } }

/-- A sampler state with a mip-filtering minification filter whose level range is the single
level 0 (`baseLevel = maxLevel = 0`). -/
def samplerOneLevel : SamplerState := { samplerMipmapped with maxLevel := 0 }

/-- A zero-sized 2D storage, as its constructor leaves it: the creation of the texture is
skipped, so it has no physical resource. -/
def zeroSized : TextureStorage11 :=
  TextureStorage11_2D plainRenderer formatRGBA8 false 0 0 1 false 15

/-- A 2D storage of 8 x 8 texels with one level in the block-compressed format 71: neither
its render-target format nor its depth-stencil format is set. -/
def block8 : TextureStorage11 :=
  TextureStorage11_2D blockRenderer formatBlock false 8 8 1 false 15

/-- The box of the whole level 1 of `storage256` (128 x 128 x 1 texels). -/
def boxLevelOne : Box := { x := 0, y := 0, z := 0, width := 128, height := 128, depth := 1 }

/-- A region of 8 x 8 texels over the slices 2 and 3 of level 0 of `volume16`. -/
def boxSlices : Box := { x := 0, y := 0, z := 2, width := 8, height := 8, depth := 2 }

/-- A renderer like `plainRenderer` of feature level 9_3. -/
def legacyRenderer : Renderer11 :=
  { plainRenderer with featureLevel := D3D_FEATURE_LEVEL_9_3 }

/-- The storage `storage256` on a renderer of feature level 9_3. -/
def legacy256 : TextureStorage11 :=
  { storage256 with mRenderer := legacyRenderer }

/-- A 2D-array storage of 2 layers of 8 x 8 texels with one level in the block-compressed
format 71: neither its render-target format nor its depth-stencil format is set. -/
def blockArray : TextureStorage11 :=
  TextureStorage11_2DArray blockRenderer formatBlock false 8 8 2 1 15

end TextureStorage11

end rx

/-! # Lemmas -/

namespace rx

/-! ## The order of the cache keys and the map operations -/

theorem SRVKey.lt_irrefl (a : SRVKey) : a.lt a = false := by
  unfold SRVKey.lt
  simp

theorem SRVKey.lt_asymm {a b : SRVKey} (h : a.lt b = true) : b.lt a = false := by
  unfold SRVKey.lt at *
  split_ifs at h ⊢ <;> first | omega | simp_all

theorem SRVKey.lt_trans {a b c : SRVKey} (hab : a.lt b = true) (hbc : b.lt c = true) :
    a.lt c = true := by
  unfold SRVKey.lt at *
  split_ifs at hab hbc ⊢ <;> first | omega | simp_all

theorem SRVKey.lt_or_lt_of_ne {a b : SRVKey} (h : a ≠ b) : a.lt b = true ∨ b.lt a = true := by
  rcases a with ⟨a1, a2, a3⟩
  rcases b with ⟨b1, b2, b3⟩
  unfold SRVKey.lt
  simp only
  by_cases h1 : a1 = b1
  · by_cases h2 : a2 = b2
    · have h3 : a3 ≠ b3 := by
        intro h3
        exact h (by rw [h1, h2, h3])
      subst h1 h2
      cases a3 <;> cases b3 <;> simp_all
    · subst h1
      rcases lt_or_gt_of_ne h2 with h | h
      · left; simp [h]
      · right; simp [h]
  · rcases lt_or_gt_of_ne h1 with h | h
    · left; simp [h]
    · right; simp [h]

/-- Two keys are equivalent under the order exactly when they are equal. -/
theorem SRVKey.equiv_iff (a b : SRVKey) :
    (!(a.lt b) && !(b.lt a)) = true ↔ a = b := by
  constructor
  · intro h
    by_contra hne
    rcases SRVKey.lt_or_lt_of_ne hne with h1 | h1 <;> simp [h1] at h
  · rintro rfl
    simp [SRVKey.lt_irrefl]

theorem SRVCache.find_insert_self (cache : SRVCache) (key : SRVKey)
    (srv : Option ShaderResourceView) (hmiss : cache.find key = none) :
    (cache.insert key srv).find key = some srv := by
  induction cache with
  | nil => simp [SRVCache.insert, SRVCache.find, SRVKey.lt_irrefl]
  | cons head rest ih =>
    obtain ⟨k, v⟩ := head
    cases h1 : key.lt k <;> cases h2 : k.lt key
    · simp [SRVCache.find, h1, h2] at hmiss
    · simp only [SRVCache.find, h1, h2] at hmiss
      simp only [SRVCache.insert, SRVCache.find, h1, h2]
      simpa using ih (by simpa using hmiss)
    · simp [SRVCache.insert, SRVCache.find, h1, SRVKey.lt_irrefl]
    · simp [SRVCache.insert, SRVCache.find, h1, SRVKey.lt_irrefl]

theorem SRVCache.find_insert_other (cache : SRVCache) (key other : SRVKey)
    (srv : Option ShaderResourceView) (hne : other ≠ key) :
    (cache.insert key srv).find other = cache.find other := by
  have hkey : (!(key.lt other) && !(other.lt key)) = false := by
    by_contra h
    simp only [Bool.not_eq_false] at h
    exact hne ((SRVKey.equiv_iff key other).mp h).symm
  induction cache with
  | nil => simp [SRVCache.insert, SRVCache.find, hkey]
  | cons head rest ih =>
    obtain ⟨k, v⟩ := head
    cases h1 : key.lt k <;> cases h2 : k.lt key
    · simp [SRVCache.insert, SRVCache.find, h1, h2]
    · simp only [SRVCache.insert, SRVCache.find, h1, h2]
      simp [ih]
    · have hstep : SRVCache.find ((key, srv) :: (k, v) :: rest) other
          = SRVCache.find ((k, v) :: rest) other := by
        conv_lhs => unfold SRVCache.find
        rw [if_neg (by simp [hkey])]
      simpa [SRVCache.insert, h1] using hstep
    · have hstep : SRVCache.find ((key, srv) :: (k, v) :: rest) other
          = SRVCache.find ((k, v) :: rest) other := by
        conv_lhs => unfold SRVCache.find
        rw [if_neg (by simp [hkey])]
      simpa [SRVCache.insert, h1] using hstep

theorem SRVCache.length_insert (cache : SRVCache) (key : SRVKey)
    (srv : Option ShaderResourceView) (hmiss : cache.find key = none) :
    (cache.insert key srv).length = cache.length + 1 := by
  induction cache with
  | nil => simp [SRVCache.insert]
  | cons head rest ih =>
    obtain ⟨k, v⟩ := head
    cases h1 : key.lt k <;> cases h2 : k.lt key
    · simp [SRVCache.find, h1, h2] at hmiss
    · simp only [SRVCache.find, h1, h2] at hmiss
      simp only [SRVCache.insert, h1, h2]
      simpa using ih (by simpa using hmiss)
    · simp [SRVCache.insert, h1]
    · simp [SRVCache.insert, h1]

/-! ## The per-layer maps -/

theorem LevelLayerKey.pair_lt_irrefl (a : LevelLayerKey) : a.lt a = false := by
  unfold LevelLayerKey.lt
  simp

theorem LevelLayerMap.find_assign_self {α : Type} (map : LevelLayerMap α)
    (key : LevelLayerKey) (value : Option α) :
    LevelLayerMap.find (LevelLayerMap.assign map key value) key = some value := by
  induction map with
  | nil => simp [LevelLayerMap.assign, LevelLayerMap.find, LevelLayerKey.pair_lt_irrefl]
  | cons head rest ih =>
    obtain ⟨k, v⟩ := head
    cases h1 : key.lt k <;> cases h2 : k.lt key
    · simp [LevelLayerMap.assign, LevelLayerMap.find, h1, h2]
    · simp only [LevelLayerMap.assign, LevelLayerMap.find, h1, h2]
      simpa using ih
    · simp [LevelLayerMap.assign, LevelLayerMap.find, h1, LevelLayerKey.pair_lt_irrefl]
    · simp [LevelLayerMap.assign, LevelLayerMap.find, h1, LevelLayerKey.pair_lt_irrefl]

/-- A read of a key that is in the map returns its value and leaves the map. -/
theorem LevelLayerMap.read_of_find {α : Type} (map : LevelLayerMap α) (key : LevelLayerKey)
    (value : Option α) (h : LevelLayerMap.find map key = some value) :
    LevelLayerMap.read map key = (value, map) := by
  unfold LevelLayerMap.read
  rw [h]

/-- What a read returns is what the map holds for the key afterwards. -/
theorem LevelLayerMap.read_fst {α : Type} (map : LevelLayerMap α) (key : LevelLayerKey) :
    (LevelLayerMap.find (LevelLayerMap.read map key).2 key).getD none
      = (LevelLayerMap.read map key).1 := by
  unfold LevelLayerMap.read
  cases h : LevelLayerMap.find map key with
  | some value => simp [h]
  | none => simp [LevelLayerMap.find_assign_self]

namespace TextureStorage11

/-! ## Machine-integer lemmas -/

theorem toUINT_cast (x : Int) : ((toUINT x : Nat) : Int) = x % 4294967296 := by
  unfold toUINT
  have h : (0 : Int) ≤ x % 4294967296 := Int.emod_nonneg _ (by norm_num)
  omega

theorem toUINT_lt (x : Int) : toUINT x < 4294967296 := by
  have h := toUINT_cast x
  have h2 : x % 4294967296 < 4294967296 := Int.emod_lt_of_pos _ (by norm_num)
  omega

theorem toUINT_of_range {x : Int} (h0 : 0 ≤ x) (h1 : x < 4294967296) :
    ((toUINT x : Nat) : Int) = x := by
  rw [toUINT_cast]
  omega

theorem toInt32_of_lt {n : Nat} (h : n < 2147483648) : toInt32 n = (n : Int) := by
  unfold toInt32
  have h1 : n % 4294967296 = n := Nat.mod_eq_of_lt (by omega)
  rw [h1, if_pos h]

/-- The level count is `mMipLevels - mTopLevel` whenever it is positive. -/
theorem getLevelCount_eq_of_pos (s : TextureStorage11) (hs : s.Representable)
    (hpos : 0 < s.getLevelCount) :
    s.getLevelCount = (s.mMipLevels : Int) - s.mTopLevel := by
  obtain ⟨h0, h1, h2⟩ := hs
  unfold getLevelCount toInt32 at *
  have hc := toUINT_cast ((s.mMipLevels : Int) - s.mTopLevel)
  have hl := toUINT_lt ((s.mMipLevels : Int) - s.mTopLevel)
  have hm : toUINT ((s.mMipLevels : Int) - s.mTopLevel) % 4294967296
      = toUINT ((s.mMipLevels : Int) - s.mTopLevel) := Nat.mod_eq_of_lt hl
  rw [hm] at hpos ⊢
  split at hpos <;> rename_i hlt <;> simp only [hlt, if_true, if_false] <;> omega

theorem getSubresourceIndex_cast (s : TextureStorage11) (index : ImageIndex)
    (hres : s.getResource.isSome = true) :
    ((s.getSubresourceIndex index : Nat) : Int) =
      ((index.mipIndex + s.mTopLevel) +
        (if index.hasLayer then index.layerIndex else 0) * (s.mMipLevels : Int)) % 4294967296 := by
  unfold getSubresourceIndex D3D11CalcSubresource wrapUINT
  simp only [hres, if_true]
  push_cast
  rw [toUINT_cast, toUINT_cast]
  generalize (if index.hasLayer = true then index.layerIndex else 0) = b
  generalize index.mipIndex + s.mTopLevel = a
  rw [Int.emod_add_emod, Int.add_emod_emod, Int.add_emod a, Int.add_emod a]
  congr 2
  rw [Int.mul_emod, Int.emod_emod, ← Int.mul_emod]

/-- On a valid index nothing wraps: the subresource index is the plain sum. -/
theorem getSubresourceIndex_valid (s : TextureStorage11) (layers : Nat) (index : ImageIndex)
    (hres : s.getResource.isSome = true) (hs : s.Representable)
    (hfit : layers * s.mMipLevels ≤ 4294967296) (hv : s.ValidIndex layers index) :
    ((s.getSubresourceIndex index : Nat) : Int) =
      (index.mipIndex + s.mTopLevel) + layerOf index * (s.mMipLevels : Int) ∧
    index.mipIndex + s.mTopLevel < (s.mMipLevels : Int) := by
  obtain ⟨h0, h1, h2, h3⟩ := hv
  have hcount := getLevelCount_eq_of_pos s hs (by omega)
  have htop := hs.1
  have hlt : index.mipIndex + s.mTopLevel < (s.mMipLevels : Int) := by omega
  refine ⟨?_, hlt⟩
  rw [getSubresourceIndex_cast s index hres]
  unfold layerOf at *
  generalize (if index.hasLayer = true then index.layerIndex else 0) = b at *
  have hb : b * (s.mMipLevels : Int) + (s.mMipLevels : Int) ≤ (layers : Int) * s.mMipLevels := by
    nlinarith
  have hfit2 : ((layers : Int) * (s.mMipLevels : Int)) ≤ 4294967296 := by exact_mod_cast hfit
  have hnn : 0 ≤ b * (s.mMipLevels : Int) := by positivity
  apply Int.emod_eq_of_lt <;> omega

/-! ## The device -/

theorem SameCaps.refl (r : Renderer11) : SameCaps r r := ⟨rfl, rfl, rfl, rfl⟩

theorem SameCaps.trans {r1 r2 r3 : Renderer11} (h12 : SameCaps r1 r2) (h23 : SameCaps r2 r3) :
    SameCaps r1 r3 :=
  ⟨h23.1.trans h12.1, h23.2.1.trans h12.2.1, h23.2.2.1.trans h12.2.2.1,
    h23.2.2.2.trans h12.2.2.2⟩

theorem sameCaps_record (r : Renderer11) (call : NativeCall) : SameCaps r (r.record call) :=
  ⟨rfl, rfl, rfl, rfl⟩

theorem sameCaps_note (r : Renderer11) (call : NativeCall) : SameCaps r (r.note call) :=
  ⟨rfl, rfl, rfl, rfl⟩

theorem CreateTexture2D_renderer (r : Renderer11) (desc : TEXTURE_DESC) :
    (CreateTexture2D r desc).2.2 = r.record (NativeCall.CreateTexture2D desc r.nextResult) := by
  unfold CreateTexture2D
  dsimp only
  split_ifs <;> rfl

theorem CreateTexture3D_renderer (r : Renderer11) (desc : TEXTURE_DESC) :
    (CreateTexture3D r desc).2.2 = r.record (NativeCall.CreateTexture3D desc r.nextResult) := by
  unfold CreateTexture3D
  dsimp only
  split_ifs <;> rfl

theorem CreateShaderResourceView_renderer (r : Renderer11) (texture : Option Texture)
    (desc : SHADER_RESOURCE_VIEW_DESC) :
    (CreateShaderResourceView r texture desc).2.2 =
      r.record (NativeCall.CreateShaderResourceView texture desc r.nextResult) := by
  unfold CreateShaderResourceView
  dsimp only
  split_ifs <;> rfl

theorem CreateRenderTargetView_renderer (r : Renderer11) (texture : Option Texture)
    (desc : RENDER_TARGET_VIEW_DESC) :
    (CreateRenderTargetView r texture desc).2.2 =
      r.record (NativeCall.CreateRenderTargetView texture desc r.nextResult) := by
  unfold CreateRenderTargetView
  dsimp only
  split_ifs <;> rfl

theorem swizzleTexture_renderer (r : Renderer11) (source : Option ShaderResourceView)
    (dest : Option RenderTargetView) (size : Extents) (red green blue alpha : GLenum) :
    (swizzleTexture r source dest size red green blue alpha).2 =
      r.record (NativeCall.swizzleTexture source dest size red green blue alpha
        r.nextResult) := by
  unfold swizzleTexture
  dsimp only
  split_ifs <;> rfl

/-! ## What each operation writes

Every operation returns the storage it was given with some of its caches and the device
part of its renderer replaced. -/

theorem createTexture2DHelper_writes (s : TextureStorage11) (width height levels : Int)
    (levelZero : Bool) :
    ∃ topLevel renderer texture levelZeroTexture,
      (createTexture2DHelper s width height levels levelZero).2 =
        { s with mTopLevel := topLevel, mRenderer := renderer, mTexture := texture,
                 mLevelZeroTexture := levelZeroTexture } ∧
      SameCaps s.mRenderer renderer ∧
      renderer.calls.filter isSRVCreation = s.mRenderer.calls.filter isSRVCreation := by
  unfold createTexture2DHelper
  dsimp only
  split_ifs <;>
    exact ⟨_, _, _, _, rfl,
      by first
        | exact SameCaps.refl _
        | (rw [CreateTexture2D_renderer]; exact ⟨rfl, rfl, rfl, rfl⟩),
      by first
        | rfl
        | (rw [CreateTexture2D_renderer]; rfl)⟩

theorem pickLevelZeroWorkaroundTexture_writes (s : TextureStorage11) (use : Bool) :
    ∃ topLevel renderer texture levelZeroTexture useLevelZero,
      pickLevelZeroWorkaroundTexture s use =
        { s with mTopLevel := topLevel, mRenderer := renderer, mTexture := texture,
                 mLevelZeroTexture := levelZeroTexture,
                 mUseLevelZeroTexture := useLevelZero } ∧
      SameCaps s.mRenderer renderer ∧
      renderer.calls.filter isSRVCreation = s.mRenderer.calls.filter isSRVCreation := by
  unfold pickLevelZeroWorkaroundTexture
  split
  · unfold pickLevelZeroWorkaroundTexture2D
    obtain ⟨t1, r1, x1, z1, h1, c1, f1⟩ := createTexture2DHelper_writes s
      (toInt32 s.mTextureWidth) (toInt32 s.mTextureHeight) 1 true
    obtain ⟨t2, r2, x2, z2, h2, c2, f2⟩ := createTexture2DHelper_writes s
      (toInt32 s.mTextureWidth) (toInt32 s.mTextureHeight) (toInt32 s.mMipLevels) false
    rw [h1, h2]
    dsimp only
    split_ifs <;>
      exact ⟨_, _, _, _, _, rfl,
        by first
          | exact SameCaps.refl _
          | exact c1
          | exact c2,
        by first
          | rfl
          | exact f1
          | exact f2⟩
  · exact ⟨_, _, _, _, _, rfl, SameCaps.refl _, rfl⟩

theorem getSwizzleTexture_writes (s : TextureStorage11) :
    ∃ renderer swizzleTexture,
      (getSwizzleTexture s).2.2 =
        { s with mRenderer := renderer, mSwizzleTexture := swizzleTexture } ∧
      SameCaps s.mRenderer renderer ∧
      renderer.calls.filter isSRVCreation = s.mRenderer.calls.filter isSRVCreation := by
  unfold getSwizzleTexture
  dsimp only
  split_ifs <;>
    exact ⟨_, _, rfl,
      by first
        | exact SameCaps.refl _
        | (rw [CreateTexture2D_renderer]; exact ⟨rfl, rfl, rfl, rfl⟩)
        | (rw [CreateTexture3D_renderer]; exact ⟨rfl, rfl, rfl, rfl⟩),
      by first
        | rfl
        | (rw [CreateTexture2D_renderer]; rfl)
        | (rw [CreateTexture3D_renderer]; rfl)⟩

theorem createSRV_writes (s : TextureStorage11) (baseLevel mipLevels : Int)
    (format : DXGI_FORMAT) (texture : Option Texture) :
    (createSRV s baseLevel mipLevels format texture).2.2 =
      { s with mRenderer := (s.mRenderer.record
          (NativeCall.CreateShaderResourceView (createSRVTexture s mipLevels texture)
            (createSRVDesc s baseLevel mipLevels format texture) s.mRenderer.nextResult)) } := by
  unfold createSRV
  dsimp only
  rw [CreateShaderResourceView_renderer]
  split_ifs <;> rfl

/-- A successful `createSRV` hands out the view the device created, with the descriptor of
the storage's shape. -/
theorem createSRV_success (s : TextureStorage11) (baseLevel mipLevels : Int)
    (format : DXGI_FORMAT) (texture : Option Texture)
    (hok : (createSRV s baseLevel mipLevels format texture).1.isError = false) :
    ∃ view, (createSRV s baseLevel mipLevels format texture).2.1 = some view ∧
      view.desc = createSRVDesc s baseLevel mipLevels format texture ∧
      view.texture = createSRVTexture s mipLevels texture := by
  cases hres : FAILED s.mRenderer.nextResult
  · simp [createSRV, CreateShaderResourceView, hres]
  · simp [createSRV, CreateShaderResourceView, hres, outOfMemory, Error.isError,
      GL_OUT_OF_MEMORY, GL_NO_ERROR] at hok

/-! ## createSRV descriptors -/

theorem toUINT_toInt32 (n : Nat) : toUINT (toInt32 n) = n % 4294967296 := by
  have h := toUINT_cast (toInt32 n)
  have hlt : n % 4294967296 < 4294967296 := Nat.mod_lt _ (by norm_num)
  have hd : (toInt32 n) % 4294967296 = ((n % 4294967296 : Nat) : Int) := by
    unfold toInt32
    split_ifs <;> omega
  omega

theorem requestedMipLevels_lt (s : TextureStorage11) (samplerState : SamplerState) :
    requestedMipLevels s samplerState < 4294967296 := by
  unfold requestedMipLevels
  exact lt_of_le_of_lt (min_le_right _ _) (toUINT_lt _)

theorem createSRVDesc_Format (s : TextureStorage11) (baseLevel mipLevels : Int)
    (format : DXGI_FORMAT) (texture : Option Texture) :
    (createSRVDesc s baseLevel mipLevels format texture).Format = format := by
  unfold createSRVDesc
  split
  · rfl
  · unfold srvDescCube; dsimp only; split_ifs <;> rfl
  · unfold srvDesc3D; dsimp only; split <;> [split_ifs <;> rfl; rfl]
  · rfl

theorem createSRVDesc_MipLevels (s : TextureStorage11) (baseLevel mipLevels : Int)
    (format : DXGI_FORMAT) (texture : Option Texture) :
    (createSRVDesc s baseLevel mipLevels format texture).MipLevels =
      if s.shape = Shape.Cube ∧ s.mRenderer.isIntegerFormat format = true then 1
      else toUINT mipLevels := by
  unfold createSRVDesc
  split <;> rename_i hshape
  · simp [hshape, srvDesc2D]
  · unfold srvDescCube; dsimp only; split_ifs <;> simp_all
  · have hne : ¬ (s.shape = Shape.Cube ∧ s.mRenderer.isIntegerFormat format = true) := by
      simp [hshape]
    rw [if_neg hne]
    unfold srvDesc3D; dsimp only; split <;> [split_ifs <;> rfl; rfl]
  · simp [hshape, srvDesc2DArray]

/-! ## getSRV -/

/-- The workaround step of `getSRV` leaves the cache and the count of view creations. -/
theorem getSRV_pick (s : TextureStorage11) (use : Bool) :
    (if s.mRenderer.zeroMaxLodWorkaround then pickLevelZeroWorkaroundTexture s use
      else s).mSrvCache = s.mSrvCache ∧
    srvCreations (if s.mRenderer.zeroMaxLodWorkaround then pickLevelZeroWorkaroundTexture s use
      else s) = srvCreations s ∧
    SameConfig s (if s.mRenderer.zeroMaxLodWorkaround then pickLevelZeroWorkaroundTexture s use
      else s) := by
  split_ifs
  · obtain ⟨_, _, _, _, _, h, hc, hf⟩ := pickLevelZeroWorkaroundTexture_writes s use
    rw [h]
    refine ⟨rfl, ?_, ?_⟩
    · unfold srvCreations; dsimp only; rw [hf]
    · constructor <;> first | rfl | exact hc.1 | exact hc.2.1 | exact hc.2.2.1 | exact hc.2.2.2
  · exact ⟨rfl, rfl, by constructor <;> rfl⟩

/-- A cache hit: `getSRV` succeeds with the cached view, creates no view and leaves the
cache as it is. -/
theorem getSRV_hit (s : TextureStorage11) (samplerState : SamplerState)
    (srv : Option ShaderResourceView)
    (hhit : s.mSrvCache.find (getSRVKey s samplerState) = some srv) :
    (getSRV s samplerState).1 = noError ∧ (getSRV s samplerState).2.1 = srv ∧
    (getSRV s samplerState).2.2.mSrvCache = s.mSrvCache ∧
    srvCreations (getSRV s samplerState).2.2 = srvCreations s := by
  unfold getSRV
  dsimp only
  rw [(getSRV_pick _ _).1, hhit]
  exact ⟨rfl, rfl, (getSRV_pick _ _).1, (getSRV_pick _ _).2.1⟩

/-- A cache miss that succeeds: exactly one view is created, its mip count is the requested
one (a single mip for an integer-format cube), and the cache gains the pair of the key and
that view. -/
theorem getSRV_miss (s : TextureStorage11) (samplerState : SamplerState)
    (hmiss : s.mSrvCache.find (getSRVKey s samplerState) = none)
    (hok : (getSRV s samplerState).1.isError = false) :
    (getSRV s samplerState).2.2.mSrvCache =
      s.mSrvCache.insert (getSRVKey s samplerState) (getSRV s samplerState).2.1 ∧
    srvCreations (getSRV s samplerState).2.2 = srvCreations s + 1 ∧
    (∃ view, (getSRV s samplerState).2.1 = some view ∧
      view.desc.MipLevels =
        if s.shape = Shape.Cube ∧ s.mRenderer.isIntegerFormat view.desc.Format = true then 1
        else requestedMipLevels s samplerState) ∧
    ∃ (working : TextureStorage11) (format : DXGI_FORMAT) (texture : Option Texture),
      working.shape = s.shape ∧
      (getSRV s samplerState).2.1 =
        (createSRV working samplerState.baseLevel
          (toInt32 (requestedMipLevels s samplerState)) format texture).2.1 := by
  unfold getSRV at hok ⊢
  dsimp only at hok ⊢
  rw [(getSRV_pick _ _).1, hmiss] at hok ⊢
  dsimp only at hok ⊢
  obtain ⟨hc1, hn1, hk1⟩ := getSRV_pick s (requestedMipLevels s samplerState == 1)
  generalize (if s.mRenderer.zeroMaxLodWorkaround = true then
    s.pickLevelZeroWorkaroundTexture (requestedMipLevels s samplerState == 1) else s) = s1
    at hok hc1 hn1 hk1 ⊢
  have hpicked : (if samplerState.swizzleRequired = true then s1.getSwizzleTexture
      else (noError, s1.getResource, s1)).2.2.mSrvCache = s.mSrvCache ∧
    srvCreations (if samplerState.swizzleRequired = true then s1.getSwizzleTexture
      else (noError, s1.getResource, s1)).2.2 = srvCreations s ∧
    (if samplerState.swizzleRequired = true then s1.getSwizzleTexture
      else (noError, s1.getResource, s1)).2.2.shape = s.shape ∧
    (if samplerState.swizzleRequired = true then s1.getSwizzleTexture
      else (noError, s1.getResource, s1)).2.2.mRenderer.isIntegerFormat
        = s.mRenderer.isIntegerFormat := by
    split_ifs
    · obtain ⟨_, _, h, hc, hf⟩ := getSwizzleTexture_writes s1
      rw [h]
      refine ⟨hc1, ?_, hk1.shape, hc.2.2.2.trans hk1.isIntegerFormat⟩
      rw [← hn1]; unfold srvCreations; dsimp only; rw [hf]
    · exact ⟨hc1, hn1, hk1.shape, hk1.isIntegerFormat⟩
  generalize (if samplerState.swizzleRequired = true then s1.getSwizzleTexture
    else (noError, s1.getResource, s1)) = picked at hok hpicked ⊢
  obtain ⟨hc2, hn2, hshape, hint⟩ := hpicked
  cases he : picked.1.isError
  swap
  · simp [he] at hok
  simp only [he, Bool.false_eq_true, if_false] at hok ⊢
  generalize (if samplerState.swizzleRequired = true then
    picked.2.2.mSwizzleShaderResourceFormat else picked.2.2.mShaderResourceFormat) = format
    at hok ⊢
  cases hc : (createSRV picked.2.2 samplerState.baseLevel
      (toInt32 (requestedMipLevels s samplerState)) format picked.2.1).1.isError
  swap
  · simp [hc] at hok
  simp only [hc, Bool.false_eq_true, if_false] at hok ⊢
  have hw := createSRV_writes picked.2.2 samplerState.baseLevel
    (toInt32 (requestedMipLevels s samplerState)) format picked.2.1
  obtain ⟨view, hv, hdesc, _⟩ := createSRV_success picked.2.2 samplerState.baseLevel
    (toInt32 (requestedMipLevels s samplerState)) format picked.2.1 hc
  refine ⟨?_, ?_, ⟨view, hv, ?_⟩, picked.2.2, format, picked.2.1, hshape, rfl⟩
  · dsimp only
    rw [hw, hc2]
  · unfold srvCreations at hn2 ⊢
    dsimp only
    rw [hw]
    simp [Renderer11.record, isSRVCreation, hn2]
  · rw [hdesc, createSRVDesc_MipLevels, createSRVDesc_Format, hshape, hint, toUINT_toInt32,
      Nat.mod_eq_of_lt (requestedMipLevels_lt s samplerState)]

/-- After a successful `getSRV` the cache maps the key of the request to the view handed
out. -/
theorem getSRV_cached (s : TextureStorage11) (samplerState : SamplerState)
    (hok : (getSRV s samplerState).1.isError = false) :
    (getSRV s samplerState).2.2.mSrvCache.find (getSRVKey s samplerState)
      = some (getSRV s samplerState).2.1 := by
  cases hfind : s.mSrvCache.find (getSRVKey s samplerState) with
  | none =>
    rw [(getSRV_miss s samplerState hfind hok).1]
    exact SRVCache.find_insert_self _ _ _ hfind
  | some srv =>
    obtain ⟨_, hout, hcache, _⟩ := getSRV_hit s samplerState srv hfind
    rw [hcache, hout, hfind]

/-! ## Member arrays -/

theorem ptrAt_setAt_self {α : Type} (array : List (Option α)) (i : Int) (v : Option α)
    (h0 : 0 ≤ i) (h1 : i < array.length) : ptrAt (setAt array i v) i = v := by
  unfold ptrAt setAt
  simp only [h0, if_true]
  have : i.toNat < array.length := by omega
  simp [List.getD_eq_getElem?_getD, List.getElem?_set, this]

theorem ptrAt_setAt_other {α : Type} (array : List (Option α)) (i j : Int) (v : Option α)
    (hne : i ≠ j) : ptrAt (setAt array i v) j = ptrAt array j := by
  unfold ptrAt setAt
  by_cases hi : 0 ≤ i
  · by_cases hj : 0 ≤ j
    · have : i.toNat ≠ j.toNat := by omega
      simp [hi, hj, List.getD_eq_getElem?_getD, List.getElem?_set, this]
    · simp [hj]
  · simp [hi]

theorem swizzleAt_setAt_self (array : List SwizzleCacheValue) (i : Int) (v : SwizzleCacheValue)
    (h0 : 0 ≤ i) (h1 : i < array.length) : swizzleAt (setAt array i v) i = v := by
  unfold swizzleAt setAt
  simp only [h0, if_true]
  have : i.toNat < array.length := by omega
  simp [List.getD_eq_getElem?_getD, List.getElem?_set, this]

theorem swizzleAt_setAt_other (array : List SwizzleCacheValue) (i j : Int)
    (v : SwizzleCacheValue) (hne : i ≠ j) :
    swizzleAt (setAt array i v) j = swizzleAt array j := by
  unfold swizzleAt setAt
  by_cases hi : 0 ≤ i
  · by_cases hj : 0 ≤ j
    · have : i.toNat ≠ j.toNat := by omega
      simp [hi, hj, List.getD_eq_getElem?_getD, List.getElem?_set, this]
    · simp [hj]
  · simp [hi]

theorem length_setAt {α : Type} (array : List α) (i : Int) (v : α) :
    (setAt array i v).length = array.length := by
  unfold setAt
  split_ifs <;> simp

theorem SwizzleCacheValue.ne_eq_false_iff (a b : SwizzleCacheValue) :
    a.ne b = false ↔ a = b := by
  rcases a with ⟨a1, a2, a3, a4⟩
  rcases b with ⟨b1, b2, b3, b4⟩
  simp [SwizzleCacheValue.ne, SwizzleCacheValue.eq]
  tauto

/-! ## getSRVLevel -/

/-- The cached case of `getSRVLevel`: the cached view comes back and nothing changes. -/
theorem getSRVLevel_cached (s : TextureStorage11) (mipLevel : Int) (view : ShaderResourceView)
    (h : ptrAt s.mLevelSRVs mipLevel = some view) :
    getSRVLevel s mipLevel = (noError, some view, s) := by
  unfold getSRVLevel
  simp [h]

theorem ptrAt_setAt_keeps {α : Type} (array : List (Option α)) (i : Int) (v : Option α)
    (hnull : ptrAt array i = none) (l : Int) (w : α) (h : ptrAt array l = some w) :
    ptrAt (setAt array i v) l = some w := by
  have hne : i ≠ l := by
    rintro rfl
    rw [hnull] at h
    exact absurd h (by simp)
  rw [ptrAt_setAt_other _ _ _ _ hne, h]

/-- What `getSRVLevel` writes: the device, and the entry of `mipLevel` where it was null. -/
theorem getSRVLevel_writes (s : TextureStorage11) (mipLevel : Int) :
    ∃ renderer levelSRVs,
      (getSRVLevel s mipLevel).2.2 = { s with mRenderer := renderer, mLevelSRVs := levelSRVs } ∧
      SameCaps s.mRenderer renderer ∧
      renderer.calls.filter isSwizzleBlit = s.mRenderer.calls.filter isSwizzleBlit ∧
      levelSRVs.length = s.mLevelSRVs.length ∧
      (∀ l view, ptrAt s.mLevelSRVs l = some view → ptrAt levelSRVs l = some view) ∧
      (∀ l, l ≠ mipLevel → ptrAt levelSRVs l = ptrAt s.mLevelSRVs l) ∧
      ((getSRVLevel s mipLevel).1.isError = false →
        (getSRVLevel s mipLevel).2.1 = ptrAt levelSRVs mipLevel) := by
  unfold getSRVLevel
  cases hcached : ptrAt s.mLevelSRVs mipLevel with
  | some view =>
    simp only [Option.isNone_some, Bool.false_eq_true, if_false]
    exact ⟨_, _, rfl, SameCaps.refl _, rfl, rfl, fun _ _ h => h, fun _ _ => rfl,
      fun _ => hcached.symm⟩
  | none =>
    simp only [Option.isNone_none, if_true]
    have hw := createSRV_writes s mipLevel 1 s.mShaderResourceFormat s.getResource
    cases herr : (createSRV s mipLevel 1 s.mShaderResourceFormat s.getResource).1.isError
    · simp only [Bool.false_eq_true, if_false]
      rw [hw]
      exact ⟨_, _, rfl, sameCaps_record _ _, rfl, length_setAt _ _ _,
        fun l view h => ptrAt_setAt_keeps _ _ _ hcached l view h,
        fun l hl => ptrAt_setAt_other _ _ _ _ (Ne.symm hl), fun _ => rfl⟩
    · simp only [if_true]
      rw [hw]
      exact ⟨_, _, rfl, sameCaps_record _ _, rfl, rfl, fun _ _ h => h, fun _ _ => rfl,
        fun h => absurd h (by simp [herr])⟩

/-- What `getSwizzleRenderTarget` writes: the device, the swizzle texture, and the entry of
`mipLevel` where it was null. -/
theorem getSwizzleRenderTarget_writes (s : TextureStorage11) (mipLevel : Int) :
    ∃ renderer swizzleTexture renderTargets,
      (getSwizzleRenderTarget s mipLevel).2.2 =
        { s with mRenderer := renderer, mSwizzleTexture := swizzleTexture,
                 mSwizzleRenderTargets := renderTargets } ∧
      SameCaps s.mRenderer renderer ∧
      renderer.calls.filter isSwizzleBlit = s.mRenderer.calls.filter isSwizzleBlit ∧
      renderTargets.length = s.mSwizzleRenderTargets.length ∧
      (∀ l view, ptrAt s.mSwizzleRenderTargets l = some view →
        ptrAt renderTargets l = some view) ∧
      (∀ l, l ≠ mipLevel → ptrAt renderTargets l = ptrAt s.mSwizzleRenderTargets l) ∧
      ((getSwizzleRenderTarget s mipLevel).1.isError = false →
        (getSwizzleRenderTarget s mipLevel).2.1 = ptrAt renderTargets mipLevel) := by
  unfold getSwizzleRenderTarget
  cases hcached : ptrAt s.mSwizzleRenderTargets mipLevel with
  | some view =>
    simp only [Option.isNone_some, Bool.false_eq_true, if_false]
    exact ⟨_, _, _, rfl, SameCaps.refl _, rfl, rfl, fun _ _ h => h, fun _ _ => rfl,
      fun _ => hcached.symm⟩
  | none =>
    simp only [Option.isNone_none, if_true]
    obtain ⟨r1, st1, hsw, hcaps, hblits⟩ : ∃ renderer swizzleTexture,
        (getSwizzleTexture s).2.2 =
          { s with mRenderer := renderer, mSwizzleTexture := swizzleTexture } ∧
        SameCaps s.mRenderer renderer ∧
        renderer.calls.filter isSwizzleBlit = s.mRenderer.calls.filter isSwizzleBlit := by
      unfold getSwizzleTexture
      dsimp only
      split_ifs <;>
        exact ⟨_, _, rfl,
          by first
            | exact SameCaps.refl _
            | (rw [CreateTexture2D_renderer]; exact ⟨rfl, rfl, rfl, rfl⟩)
            | (rw [CreateTexture3D_renderer]; exact ⟨rfl, rfl, rfl, rfl⟩),
          by first
            | rfl
            | (rw [CreateTexture2D_renderer]; rfl)
            | (rw [CreateTexture3D_renderer]; rfl)⟩
    rw [hsw]
    cases herr : (getSwizzleTexture s).1.isError
    · simp only [Bool.false_eq_true, if_false]
      rw [CreateRenderTargetView_renderer]
      split_ifs
      · exact ⟨_, _, _, rfl, SameCaps.trans hcaps (sameCaps_record _ _),
          by simpa [Renderer11.record, isSwizzleBlit] using hblits,
          rfl, fun _ _ h => h, fun _ _ => rfl, fun h => absurd h (by simp [outOfMemory,
            Error.isError, GL_OUT_OF_MEMORY, GL_NO_ERROR])⟩
      · exact ⟨_, _, _, rfl, SameCaps.trans hcaps (sameCaps_record _ _),
          by simpa [Renderer11.record, isSwizzleBlit] using hblits,
          length_setAt _ _ _,
          fun l view h => ptrAt_setAt_keeps _ _ _ hcached l view h,
          fun l hl => ptrAt_setAt_other _ _ _ _ (Ne.symm hl), fun _ => rfl⟩
    · simp only [if_true]
      exact ⟨_, _, _, rfl, hcaps, hblits, rfl, fun _ _ h => h, fun _ _ => rfl,
        fun h => absurd h (by simp [herr])⟩

theorem eq_S_OK_of_not_FAILED {result : HRESULT} (h : FAILED result = false) :
    result = HRESULT.S_OK := by
  cases result <;> simp [FAILED] at h ⊢

/-! ## One level of generateSwizzles -/

/-- A level whose cached swizzle is the target already: nothing happens. -/
theorem generateSwizzlesLevel_fresh (s : TextureStorage11) (red green blue alpha : GLenum)
    (level : Int)
    (h : (swizzleAt s.mSwizzleCache level).ne
      { swizzleRed := red, swizzleGreen := green, swizzleBlue := blue, swizzleAlpha := alpha }
        = false) :
    generateSwizzlesLevel s red green blue alpha level = (noError, s) := by
  unfold generateSwizzlesLevel
  simp [h]

/-- What one level of `generateSwizzles` writes, and what it does when it succeeds on a
level whose cached swizzle is not the target: one blit, from the level's view to the level's
swizzle render target, and the target recorded for the level. -/
theorem generateSwizzlesLevel_writes (s : TextureStorage11) (red green blue alpha : GLenum)
    (level : Int) :
    ∃ renderer levelSRVs swizzleTexture renderTargets cache,
      (generateSwizzlesLevel s red green blue alpha level).2 =
        { s with mRenderer := renderer, mLevelSRVs := levelSRVs,
                 mSwizzleTexture := swizzleTexture, mSwizzleRenderTargets := renderTargets,
                 mSwizzleCache := cache } ∧
      SameCaps s.mRenderer renderer ∧
      levelSRVs.length = s.mLevelSRVs.length ∧
      cache.length = s.mSwizzleCache.length ∧
      (∀ l view, ptrAt s.mLevelSRVs l = some view → ptrAt levelSRVs l = some view) ∧
      (∀ l, l ≠ level → ptrAt levelSRVs l = ptrAt s.mLevelSRVs l) ∧
      (∀ l, l ≠ level → ptrAt renderTargets l = ptrAt s.mSwizzleRenderTargets l) ∧
      (∀ l, l ≠ level → swizzleAt cache l = swizzleAt s.mSwizzleCache l) ∧
      ((generateSwizzlesLevel s red green blue alpha level).1.isError = false →
        (swizzleAt s.mSwizzleCache level).ne
          { swizzleRed := red, swizzleGreen := green, swizzleBlue := blue,
            swizzleAlpha := alpha } = true →
        renderer.calls.filter isSwizzleBlit =
          NativeCall.swizzleTexture (ptrAt levelSRVs level) (ptrAt renderTargets level)
            { width := s.getLevelWidth level, height := s.getLevelHeight level,
              depth := s.getLevelDepth level } red green blue alpha HRESULT.S_OK
            :: s.mRenderer.calls.filter isSwizzleBlit ∧
        cache = setAt s.mSwizzleCache level
          { swizzleRed := red, swizzleGreen := green, swizzleBlue := blue,
            swizzleAlpha := alpha }) := by
  cases hstale : (swizzleAt s.mSwizzleCache level).ne
      { swizzleRed := red, swizzleGreen := green, swizzleBlue := blue, swizzleAlpha := alpha }
  · rw [generateSwizzlesLevel_fresh s red green blue alpha level hstale]
    exact ⟨_, _, _, _, _, rfl, SameCaps.refl _, rfl, rfl, fun _ _ h => h, fun _ _ => rfl,
      fun _ _ => rfl, fun _ _ => rfl, fun _ h => absurd h (by simp)⟩
  · unfold generateSwizzlesLevel
    simp only [hstale, if_true]
    obtain ⟨r1, l1, h1, c1, b1, n1, k1, o1, out1⟩ := getSRVLevel_writes s level
    generalize hsrc : getSRVLevel s level = source at h1 out1 ⊢
    cases he1 : source.1.isError
    swap
    · simp only [if_true]
      rw [h1]
      exact ⟨_, _, _, _, _, rfl, c1, n1, rfl, k1, o1, fun _ _ => rfl, fun _ _ => rfl,
        fun h => absurd h (by simp [he1])⟩
    simp only [Bool.false_eq_true, if_false]
    obtain ⟨r2, t2, g2, h2, c2, b2, n2, k2, o2, out2⟩ := getSwizzleRenderTarget_writes source.2.2
      level
    generalize hdst : getSwizzleRenderTarget source.2.2 level = dest at h2 out2 ⊢
    rw [h1] at h2 c2 b2 n2 k2 o2
    cases he2 : dest.1.isError
    swap
    · simp only [if_true]
      rw [h2]
      exact ⟨_, _, _, _, _, rfl, SameCaps.trans c1 c2, n1, rfl, k1, o1, o2,
        fun _ _ => rfl, fun h => absurd h (by simp [he2])⟩
    simp only [Bool.false_eq_true, if_false]
    rw [swizzleTexture_renderer]
    unfold swizzleTexture
    dsimp only
    rw [h2]
    dsimp only
    cases hf : FAILED r2.nextResult
    · simp only [Bool.false_eq_true, if_false]
      have hok : r2.nextResult = HRESULT.S_OK := eq_S_OK_of_not_FAILED hf
      refine ⟨_, _, _, _, _, rfl, SameCaps.trans (SameCaps.trans c1 c2) (sameCaps_record _ _),
        n1, length_setAt _ _ _, k1, o1, o2,
        fun l hl => swizzleAt_setAt_other _ _ _ _ (Ne.symm hl), fun _ _ => ⟨?_, rfl⟩⟩
      rw [out1 he1, out2 he2, hok]
      simp only [Renderer11.record, List.filter, isSwizzleBlit]
      rw [b2, b1]
      rfl
    · simp only [if_true]
      exact ⟨_, _, _, _, _, rfl, SameCaps.trans (SameCaps.trans c1 c2) (sameCaps_record _ _),
        n1, rfl, k1, o1, o2, fun _ _ => rfl,
        fun h => absurd h (by simp [outOfMemory, Error.isError, GL_OUT_OF_MEMORY,
          GL_NO_ERROR])⟩

/-! ## The loop of generateSwizzles -/

theorem staleLevelsFrom_done (s : TextureStorage11) (red green blue alpha : GLenum)
    (level : Nat) (h : s.getLevelCount ≤ (level : Int)) :
    staleLevelsFrom s red green blue alpha level = [] := by
  unfold staleLevelsFrom
  have : s.getLevelCount.toNat - level = 0 := by omega
  rw [this]
  rfl

theorem staleLevelsFrom_step (s : TextureStorage11) (red green blue alpha : GLenum)
    (level : Nat) (h : (level : Int) < s.getLevelCount) :
    staleLevelsFrom s red green blue alpha level =
      (if (swizzleAt s.mSwizzleCache level).ne
          { swizzleRed := red, swizzleGreen := green, swizzleBlue := blue,
            swizzleAlpha := alpha } = true then [level] else []) ++
        staleLevelsFrom s red green blue alpha (level + 1) := by
  unfold staleLevelsFrom
  have : s.getLevelCount.toNat - level = (s.getLevelCount.toNat - (level + 1)) + 1 := by omega
  rw [this, List.range'_succ, List.filter_cons]
  split_ifs <;> simp

theorem staleLevelsFrom_congr (s1 s2 : TextureStorage11) (red green blue alpha : GLenum)
    (level : Nat) (hcount : s2.getLevelCount = s1.getLevelCount)
    (hcache : ∀ l : Nat, level ≤ l →
      swizzleAt s2.mSwizzleCache l = swizzleAt s1.mSwizzleCache l) :
    staleLevelsFrom s2 red green blue alpha level =
      staleLevelsFrom s1 red green blue alpha level := by
  unfold staleLevelsFrom
  rw [hcount]
  apply List.filter_congr
  intro l hl
  rw [List.mem_range'_1] at hl
  rw [hcache l hl.1]

/-- The loop of `generateSwizzles` from `level` on, with fuel for the remaining levels: when
it succeeds, it has blitted the stale levels from `level` on in increasing order, every
level from `level` on has the target cached, and the levels before `level` are as they
were. -/
theorem generateSwizzlesFrom_spec (red green blue alpha : GLenum) (fuel : Nat) :
    ∀ (level : Nat) (s : TextureStorage11),
      s.getLevelCount ≤ (level : Int) + fuel →
      s.getLevelCount ≤ s.mSwizzleCache.length →
      (generateSwizzlesFrom red green blue alpha fuel level s).1.isError = false →
      swizzleBlits (generateSwizzlesFrom red green blue alpha fuel level s).2 =
        ((staleLevelsFrom s red green blue alpha level).map
          (swizzleBlitOf (generateSwizzlesFrom red green blue alpha fuel level s).2
            red green blue alpha)).reverse ++ swizzleBlits s ∧
      (∀ l : Nat, level ≤ l → (l : Int) < s.getLevelCount →
        swizzleAt (generateSwizzlesFrom red green blue alpha fuel level s).2.mSwizzleCache l =
          { swizzleRed := red, swizzleGreen := green, swizzleBlue := blue,
            swizzleAlpha := alpha }) ∧
      (∀ l : Nat, l < level →
        swizzleAt (generateSwizzlesFrom red green blue alpha fuel level s).2.mSwizzleCache l =
          swizzleAt s.mSwizzleCache l ∧
        ptrAt (generateSwizzlesFrom red green blue alpha fuel level s).2.mLevelSRVs l =
          ptrAt s.mLevelSRVs l ∧
        ptrAt (generateSwizzlesFrom red green blue alpha fuel level s).2.mSwizzleRenderTargets l =
          ptrAt s.mSwizzleRenderTargets l) ∧
      (generateSwizzlesFrom red green blue alpha fuel level s).2.mTopLevel = s.mTopLevel ∧
      (generateSwizzlesFrom red green blue alpha fuel level s).2.mMipLevels = s.mMipLevels ∧
      (generateSwizzlesFrom red green blue alpha fuel level s).2.mTextureWidth
        = s.mTextureWidth ∧
      (generateSwizzlesFrom red green blue alpha fuel level s).2.mTextureHeight
        = s.mTextureHeight ∧
      (generateSwizzlesFrom red green blue alpha fuel level s).2.mTextureDepth
        = s.mTextureDepth ∧
      (generateSwizzlesFrom red green blue alpha fuel level s).2.mSwizzleCache.length
        = s.mSwizzleCache.length := by
  induction fuel with
  | zero =>
    intro level s hfuel _ _
    unfold generateSwizzlesFrom
    rw [staleLevelsFrom_done s red green blue alpha level (by simpa using hfuel)]
    exact ⟨rfl, fun l h1 h2 => absurd h2 (by omega), fun _ _ => ⟨rfl, rfl, rfl⟩,
      rfl, rfl, rfl, rfl, rfl, rfl⟩
  | succ fuel ih =>
    intro level s hfuel hfit hok
    unfold generateSwizzlesFrom at hok ⊢
    by_cases hlevel : (level : Int) < s.getLevelCount
    swap
    · rw [if_neg hlevel]
      rw [staleLevelsFrom_done s red green blue alpha level (by omega)]
      exact ⟨rfl, fun l h1 h2 => absurd h2 (by omega), fun _ _ => ⟨rfl, rfl, rfl⟩,
        rfl, rfl, rfl, rfl, rfl, rfl⟩
    rw [if_pos hlevel] at hok ⊢
    dsimp only at hok ⊢
    obtain ⟨r, ls, st, rts, cache, hmid, _, _, hlen, _, ols, orts, ocache, hstep⟩ :=
      generateSwizzlesLevel_writes s red green blue alpha level
    generalize hstepdef : generateSwizzlesLevel s red green blue alpha level = step
      at hok hmid hstep ⊢
    cases herr : step.1.isError
    swap
    · rw [if_pos herr] at hok
      rw [herr] at hok
      exact absurd hok (by simp)
    rw [if_neg (by simp [herr])] at hok ⊢
    have hcount : step.2.getLevelCount = s.getLevelCount := by rw [hmid]; rfl
    have hlen2 : step.2.mSwizzleCache.length = s.mSwizzleCache.length := by rw [hmid]; exact hlen
    obtain ⟨iblits, itarget, ibefore, itop, imip, iw, ih', id, ilen⟩ :=
      ih (level + 1) step.2 (by rw [hcount]; push_cast; omega) (by rw [hcount, hlen2]; exact hfit)
        hok
    generalize generateSwizzlesFrom red green blue alpha fuel (level + 1) step.2 = final
      at iblits itarget ibefore itop imip iw ih' id ilen ⊢
    have hcacheMid : ∀ l : Int, l ≠ level →
        swizzleAt step.2.mSwizzleCache l = swizzleAt s.mSwizzleCache l := by
      intro l hl; rw [hmid]; exact ocache l hl
    have hsrvMid : ∀ l : Int, l ≠ level →
        ptrAt step.2.mLevelSRVs l = ptrAt s.mLevelSRVs l := by
      intro l hl; rw [hmid]; exact ols l hl
    have hrtMid : ∀ l : Int, l ≠ level →
        ptrAt step.2.mSwizzleRenderTargets l = ptrAt s.mSwizzleRenderTargets l := by
      intro l hl; rw [hmid]; exact orts l hl
    have hstale : staleLevelsFrom step.2 red green blue alpha (level + 1) =
        staleLevelsFrom s red green blue alpha (level + 1) :=
      staleLevelsFrom_congr s step.2 red green blue alpha (level + 1) hcount
        (fun l hl => hcacheMid l (by omega))
    refine ⟨?_, ?_, ?_, ?_, ?_, ?_, ?_, ?_, ?_⟩
    · rw [iblits, hstale, staleLevelsFrom_step s red green blue alpha level hlevel]
      cases hs : (swizzleAt s.mSwizzleCache level).ne
          { swizzleRed := red, swizzleGreen := green, swizzleBlue := blue,
            swizzleAlpha := alpha }
      · have hsame : step = (noError, s) := by
          rw [← hstepdef]
          exact generateSwizzlesLevel_fresh s red green blue alpha level hs
        rw [hsame]
        simp
      · obtain ⟨hb, _⟩ := hstep herr hs
        have hblitMid : swizzleBlits step.2 =
            swizzleBlitOf final.2 red green blue alpha level :: swizzleBlits s := by
          unfold swizzleBlits swizzleBlitOf
          rw [hmid]
          dsimp only
          rw [hb]
          rw [(ibefore level (by omega)).2.1, (ibefore level (by omega)).2.2, hmid]
          simp only [getLevelWidth, getLevelHeight, getLevelDepth, iw, ih', id, hmid]
        rw [hblitMid]
        simp
    · intro l hl1 hl2
      rcases Nat.eq_or_lt_of_le hl1 with heq | hlt
      · subst heq
        rw [(ibefore level (by omega)).1]
        cases hs : (swizzleAt s.mSwizzleCache level).ne
            { swizzleRed := red, swizzleGreen := green, swizzleBlue := blue,
              swizzleAlpha := alpha }
        · have hsame : step = (noError, s) := by
            rw [← hstepdef]
            exact generateSwizzlesLevel_fresh s red green blue alpha level hs
          rw [hsame]
          exact (SwizzleCacheValue.ne_eq_false_iff _ _).mp hs
        · obtain ⟨_, hc⟩ := hstep herr hs
          rw [hmid]
          dsimp only
          rw [hc]
          exact swizzleAt_setAt_self _ _ _ (by omega) (by omega)
      · exact itarget l (by omega) (by rw [hcount]; exact hl2)
    · intro l hl
      obtain ⟨h1, h2, h3⟩ := ibefore l (by omega)
      exact ⟨h1.trans (hcacheMid l (by omega)), h2.trans (hsrvMid l (by omega)),
        h3.trans (hrtMid l (by omega))⟩
    · rw [itop, hmid]
    · rw [imip, hmid]
    · rw [iw, hmid]
    · rw [ih', hmid]
    · rw [id, hmid]
    · rw [ilen, hlen2]

/-! ## generateSwizzles as a whole -/

/-- Once every level from `level` on has the target cached, the loop does nothing. -/
theorem generateSwizzlesFrom_fresh (red green blue alpha : GLenum) (fuel : Nat) :
    ∀ (level : Nat) (s : TextureStorage11),
      (∀ l : Nat, level ≤ l → (l : Int) < s.getLevelCount →
        swizzleAt s.mSwizzleCache l =
          { swizzleRed := red, swizzleGreen := green, swizzleBlue := blue,
            swizzleAlpha := alpha }) →
      generateSwizzlesFrom red green blue alpha fuel level s = (noError, s) := by
  induction fuel with
  | zero => intro level s _; rfl
  | succ fuel ih =>
    intro level s hall
    unfold generateSwizzlesFrom
    by_cases hlevel : (level : Int) < s.getLevelCount
    · rw [if_pos hlevel]
      have hfresh := generateSwizzlesLevel_fresh s red green blue alpha level
        ((SwizzleCacheValue.ne_eq_false_iff _ _).mpr (hall level le_rfl hlevel))
      dsimp only
      rw [hfresh]
      have hno : noError.isError = false := by decide
      rw [if_neg (by simp [hno])]
      exact ih (level + 1) s (fun l hl hc => hall l (by omega) hc)
    · rw [if_neg hlevel]

/-- More fuel than the number of levels changes nothing: the loop of `generateSwizzles`
ends by its own test. -/
theorem generateSwizzlesFrom_fuel (red green blue alpha : GLenum) (fuel : Nat) :
    ∀ (level : Nat) (s : TextureStorage11) (extra : Nat),
      s.getLevelCount ≤ (level : Int) + fuel →
      generateSwizzlesFrom red green blue alpha (fuel + extra) level s =
        generateSwizzlesFrom red green blue alpha fuel level s := by
  induction fuel with
  | zero =>
    intro level s extra hfuel
    cases extra with
    | zero => rfl
    | succ extra =>
      rw [Nat.zero_add]
      unfold generateSwizzlesFrom
      rw [if_neg (by simpa using hfuel)]
  | succ fuel ih =>
    intro level s extra hfuel
    rw [Nat.add_right_comm]
    unfold generateSwizzlesFrom
    by_cases hlevel : (level : Int) < s.getLevelCount
    · rw [if_pos hlevel, if_pos hlevel]
      dsimp only
      obtain ⟨_, _, _, _, _, hmid, _⟩ := generateSwizzlesLevel_writes s red green blue alpha level
      have hcount : (generateSwizzlesLevel s red green blue alpha level).2.getLevelCount
          = s.getLevelCount := by rw [hmid]; rfl
      rw [ih (level + 1) _ extra (by rw [hcount]; push_cast; omega)]
    · rw [if_neg hlevel, if_neg hlevel]

theorem mem_staleLevels (s : TextureStorage11) (red green blue alpha : GLenum) (l : Nat) :
    l ∈ staleLevels s red green blue alpha ↔
      (l : Int) < s.getLevelCount ∧
      swizzleAt s.mSwizzleCache l ≠
        { swizzleRed := red, swizzleGreen := green, swizzleBlue := blue,
          swizzleAlpha := alpha } := by
  unfold staleLevels staleLevelsFrom
  rw [List.mem_filter, List.mem_range'_1]
  constructor
  · rintro ⟨⟨_, h1⟩, h2⟩
    refine ⟨by omega, fun heq => ?_⟩
    rw [(SwizzleCacheValue.ne_eq_false_iff _ _).mpr heq] at h2
    exact absurd h2 (by simp)
  · rintro ⟨h1, h2⟩
    refine ⟨⟨Nat.zero_le _, by omega⟩, ?_⟩
    cases h : (swizzleAt s.mSwizzleCache l).ne
        { swizzleRed := red, swizzleGreen := green, swizzleBlue := blue,
          swizzleAlpha := alpha }
    · exact absurd ((SwizzleCacheValue.ne_eq_false_iff _ _).mp h) h2
    · rfl

theorem nodup_staleLevels (s : TextureStorage11) (red green blue alpha : GLenum) :
    (staleLevels s red green blue alpha).Nodup := by
  unfold staleLevels staleLevelsFrom
  exact (List.nodup_range' _ _).filter _

/-- After a successful `generateSwizzles` the storage has as many levels as before and every
one of them has the target cached. -/
theorem generateSwizzles_targets (s : TextureStorage11) (red green blue alpha : GLenum)
    (hfit : s.getLevelCount ≤ s.mSwizzleCache.length)
    (hok : (generateSwizzles s red green blue alpha).1.isError = false) :
    (generateSwizzles s red green blue alpha).2.getLevelCount = s.getLevelCount ∧
    (∀ l : Nat, (l : Int) < s.getLevelCount →
      swizzleAt (generateSwizzles s red green blue alpha).2.mSwizzleCache l =
        { swizzleRed := red, swizzleGreen := green, swizzleBlue := blue,
          swizzleAlpha := alpha }) := by
  unfold generateSwizzles at hok ⊢
  obtain ⟨_, htarget, _, htop, hmip, _⟩ :=
    generateSwizzlesFrom_spec red green blue alpha s.getLevelCount.toNat 0 s (by omega) hfit hok
  refine ⟨?_, fun l hl => htarget l (Nat.zero_le _) hl⟩
  generalize (generateSwizzlesFrom red green blue alpha s.getLevelCount.toNat 0 s).2 = final
    at htop hmip ⊢
  unfold getLevelCount
  rw [htop, hmip]

/-! ## The per-level views are never replaced -/

theorem getSRV_levelSRVs (s : TextureStorage11) (samplerState : SamplerState) :
    (getSRV s samplerState).2.2.mLevelSRVs = s.mLevelSRVs := by
  unfold getSRV
  dsimp only
  have h1 : (if s.mRenderer.zeroMaxLodWorkaround = true then
      s.pickLevelZeroWorkaroundTexture (requestedMipLevels s samplerState == 1)
      else s).mLevelSRVs = s.mLevelSRVs := by
    split_ifs
    · obtain ⟨_, _, _, _, _, h, _⟩ := pickLevelZeroWorkaroundTexture_writes s
        (requestedMipLevels s samplerState == 1)
      rw [h]
    · rfl
  generalize (if s.mRenderer.zeroMaxLodWorkaround = true then
      s.pickLevelZeroWorkaroundTexture (requestedMipLevels s samplerState == 1)
      else s) = s1 at h1 ⊢
  cases s1.mSrvCache.find (getSRVKey s samplerState) with
  | some srv => exact h1
  | none =>
    dsimp only
    have h2 : (if samplerState.swizzleRequired = true then s1.getSwizzleTexture
        else (noError, s1.getResource, s1)).2.2.mLevelSRVs = s.mLevelSRVs := by
      split_ifs
      · obtain ⟨_, _, h, _⟩ := getSwizzleTexture_writes s1
        rw [h]; exact h1
      · exact h1
    generalize (if samplerState.swizzleRequired = true then s1.getSwizzleTexture
        else (noError, s1.getResource, s1)) = picked at h2 ⊢
    by_cases he : picked.1.isError = true
    · rw [if_pos he]; exact h2
    · rw [if_neg he]
      generalize (if samplerState.swizzleRequired = true then
        picked.2.2.mSwizzleShaderResourceFormat else picked.2.2.mShaderResourceFormat) = format
      by_cases hc : (createSRV picked.2.2 samplerState.baseLevel
          (toInt32 (requestedMipLevels s samplerState)) format picked.2.1).1.isError = true
      · rw [if_pos hc]; dsimp only; rw [createSRV_writes]; exact h2
      · rw [if_neg hc]; dsimp only; rw [createSRV_writes]; exact h2

theorem invalidateSwizzleCacheLevel_levelSRVs (s : TextureStorage11) (mipLevel : Int) :
    (invalidateSwizzleCacheLevel s mipLevel).mLevelSRVs = s.mLevelSRVs := by
  unfold invalidateSwizzleCacheLevel
  split_ifs <;> rfl

theorem invalidateSwizzleCache_levelSRVs (s : TextureStorage11) :
    (invalidateSwizzleCache s).mLevelSRVs = s.mLevelSRVs := by
  unfold invalidateSwizzleCache
  generalize List.range s.mSwizzleCache.length = levels
  induction levels generalizing s with
  | nil => rfl
  | cons level rest ih =>
    rw [List.foldl_cons, ih, invalidateSwizzleCacheLevel_levelSRVs]

theorem generateSwizzlesFrom_keeps (red green blue alpha : GLenum) (fuel : Nat) :
    ∀ (level : Nat) (s : TextureStorage11) (l : Int) (view : ShaderResourceView),
      ptrAt s.mLevelSRVs l = some view →
      ptrAt (generateSwizzlesFrom red green blue alpha fuel level s).2.mLevelSRVs l
        = some view := by
  induction fuel with
  | zero => intro level s l view h; exact h
  | succ fuel ih =>
    intro level s l view h
    unfold generateSwizzlesFrom
    obtain ⟨_, _, _, _, _, hmid, _, _, _, hkeep, _⟩ :=
      generateSwizzlesLevel_writes s red green blue alpha level
    have hstep : ptrAt (generateSwizzlesLevel s red green blue alpha level).2.mLevelSRVs l
        = some view := by
      rw [hmid]; exact hkeep l view h
    by_cases hlevel : (level : Int) < s.getLevelCount
    · rw [if_pos hlevel]
      dsimp only
      by_cases herr : (generateSwizzlesLevel s red green blue alpha level).1.isError = true
      · rw [if_pos herr]; exact hstep
      · rw [if_neg herr]; exact ih (level + 1) _ l view hstep
    · rw [if_neg hlevel]; exact h

/-- No cache operation replaces or clears a cached per-level view. -/
theorem apply_keeps (op : CacheOp) (s : TextureStorage11) (l : Int)
    (view : ShaderResourceView) (h : ptrAt s.mLevelSRVs l = some view) :
    ptrAt (op.apply s).mLevelSRVs l = some view := by
  cases op with
  | generateSwizzles red green blue alpha =>
    exact generateSwizzlesFrom_keeps red green blue alpha _ 0 s l view h
  | invalidateSwizzleCacheLevel mipLevel =>
    show ptrAt (invalidateSwizzleCacheLevel s mipLevel).mLevelSRVs l = some view
    rw [invalidateSwizzleCacheLevel_levelSRVs]; exact h
  | invalidateSwizzleCache =>
    show ptrAt (invalidateSwizzleCache s).mLevelSRVs l = some view
    rw [invalidateSwizzleCache_levelSRVs]; exact h
  | getSRVLevel mipLevel =>
    show ptrAt (getSRVLevel s mipLevel).2.2.mLevelSRVs l = some view
    obtain ⟨_, _, hw, _, _, _, hkeep, _⟩ := getSRVLevel_writes s mipLevel
    rw [hw]; exact hkeep l view h
  | getSRV samplerState =>
    show ptrAt (getSRV s samplerState).2.2.mLevelSRVs l = some view
    rw [getSRV_levelSRVs]; exact h

theorem applyOps_keeps (ops : List CacheOp) :
    ∀ (s : TextureStorage11) (l : Int) (view : ShaderResourceView),
      ptrAt s.mLevelSRVs l = some view → ptrAt (applyOps ops s).mLevelSRVs l = some view := by
  induction ops with
  | nil => intro s l view h; exact h
  | cons op rest ih =>
    intro s l view h
    unfold applyOps
    rw [List.foldl_cons]
    exact ih (op.apply s) l view (apply_keeps op s l view h)

/-- A successful `getSRVLevel` on a level inside the per-level array hands out a view and
has it cached for the level. -/
theorem getSRVLevel_success (s : TextureStorage11) (mipLevel : Int) (h0 : 0 ≤ mipLevel)
    (h1 : mipLevel < s.mLevelSRVs.length)
    (hok : (getSRVLevel s mipLevel).1.isError = false) :
    ∃ view, (getSRVLevel s mipLevel).2.1 = some view ∧
      ptrAt (getSRVLevel s mipLevel).2.2.mLevelSRVs mipLevel = some view := by
  cases hcached : ptrAt s.mLevelSRVs mipLevel with
  | some view =>
    rw [getSRVLevel_cached s mipLevel view hcached]
    exact ⟨view, rfl, hcached⟩
  | none =>
    unfold getSRVLevel at hok ⊢
    simp only [hcached, Option.isNone_none, if_true] at hok ⊢
    cases herr : (createSRV s mipLevel 1 s.mShaderResourceFormat s.getResource).1.isError
    · obtain ⟨view, hv, _⟩ := createSRV_success s mipLevel 1 s.mShaderResourceFormat
        s.getResource herr
      simp only [Bool.false_eq_true, if_false]
      rw [createSRV_writes, hv]
      have hset := ptrAt_setAt_self s.mLevelSRVs mipLevel (some view) h0 h1
      exact ⟨view, hset, hset⟩
    · simp [herr] at hok

/-! ## The shader-view cache only grows -/

/-- Whatever its outcome, `getSRV` leaves the cache as it is or, on a miss, adds the pair of
the key and the view handed out. -/
theorem getSRV_srvCache (s : TextureStorage11) (samplerState : SamplerState) :
    (getSRV s samplerState).2.2.mSrvCache = s.mSrvCache ∨
    (s.mSrvCache.find (getSRVKey s samplerState) = none ∧
      (getSRV s samplerState).2.2.mSrvCache =
        s.mSrvCache.insert (getSRVKey s samplerState) (getSRV s samplerState).2.1) := by
  cases hfind : s.mSrvCache.find (getSRVKey s samplerState) with
  | some srv => exact Or.inl (getSRV_hit s samplerState srv hfind).2.2.1
  | none =>
    cases hok : (getSRV s samplerState).1.isError
    · exact Or.inr ⟨rfl, (getSRV_miss s samplerState hfind hok).1⟩
    · left
      unfold getSRV at hok ⊢
      dsimp only at hok ⊢
      rw [(getSRV_pick _ _).1, hfind] at hok ⊢
      dsimp only at hok ⊢
      obtain ⟨hc1, _, _⟩ := getSRV_pick s (requestedMipLevels s samplerState == 1)
      generalize (if s.mRenderer.zeroMaxLodWorkaround = true then
        s.pickLevelZeroWorkaroundTexture (requestedMipLevels s samplerState == 1) else s) = s1
        at hok hc1 ⊢
      have hc2 : (if samplerState.swizzleRequired = true then s1.getSwizzleTexture
          else (noError, s1.getResource, s1)).2.2.mSrvCache = s.mSrvCache := by
        split_ifs
        · obtain ⟨_, _, h, _⟩ := getSwizzleTexture_writes s1
          rw [h]; exact hc1
        · exact hc1
      generalize (if samplerState.swizzleRequired = true then s1.getSwizzleTexture
        else (noError, s1.getResource, s1)) = picked at hok hc2 ⊢
      by_cases he : picked.1.isError = true
      · rw [if_pos he]; exact hc2
      · rw [if_neg he] at hok ⊢
        generalize (if samplerState.swizzleRequired = true then
          picked.2.2.mSwizzleShaderResourceFormat else picked.2.2.mShaderResourceFormat) = format
          at hok ⊢
        by_cases hc : (createSRV picked.2.2 samplerState.baseLevel
            (toInt32 (requestedMipLevels s samplerState)) format picked.2.1).1.isError = true
        · rw [if_pos hc]; dsimp only; rw [createSRV_writes]; exact hc2
        · rw [if_neg hc] at hok
          have hno : noError.isError = false := by decide
          rw [show ∀ (a : Option ShaderResourceView) (b : TextureStorage11),
            (noError, a, b).1 = noError from fun _ _ => rfl, hno] at hok
          exact absurd hok (by simp)

theorem getSRV_keeps_cached (s : TextureStorage11) (samplerState : SamplerState)
    (key : SRVKey) (srv : Option ShaderResourceView) (h : s.mSrvCache.find key = some srv) :
    (getSRV s samplerState).2.2.mSrvCache.find key = some srv := by
  rcases getSRV_srvCache s samplerState with hsame | ⟨hmiss, hins⟩
  · rw [hsame]; exact h
  · have hne : key ≠ getSRVKey s samplerState := by
      rintro rfl
      rw [hmiss] at h
      exact absurd h (by simp)
    rw [hins, SRVCache.find_insert_other _ _ _ _ hne]; exact h

theorem getSRV_srvCreations_le (s : TextureStorage11) (samplerState : SamplerState) :
    (getSRV s samplerState).2.2.mSrvCache.length ≤ s.mSrvCache.length + 1 := by
  rcases getSRV_srvCache s samplerState with hsame | ⟨hmiss, hins⟩
  · rw [hsame]; omega
  · rw [hins, SRVCache.length_insert _ _ _ hmiss]

theorem generateSwizzlesFrom_srvCache (red green blue alpha : GLenum) (fuel : Nat) :
    ∀ (level : Nat) (s : TextureStorage11),
      (generateSwizzlesFrom red green blue alpha fuel level s).2.mSrvCache = s.mSrvCache := by
  induction fuel with
  | zero => intro level s; rfl
  | succ fuel ih =>
    intro level s
    unfold generateSwizzlesFrom
    obtain ⟨_, _, _, _, _, hmid, _⟩ := generateSwizzlesLevel_writes s red green blue alpha level
    have hstep : (generateSwizzlesLevel s red green blue alpha level).2.mSrvCache
        = s.mSrvCache := by rw [hmid]
    by_cases hlevel : (level : Int) < s.getLevelCount
    · rw [if_pos hlevel]
      dsimp only
      by_cases herr : (generateSwizzlesLevel s red green blue alpha level).1.isError = true
      · rw [if_pos herr]; exact hstep
      · rw [if_neg herr, ih]; exact hstep
    · rw [if_neg hlevel]

theorem invalidateSwizzleCacheLevel_srvCache (s : TextureStorage11) (mipLevel : Int) :
    (invalidateSwizzleCacheLevel s mipLevel).mSrvCache = s.mSrvCache := by
  unfold invalidateSwizzleCacheLevel
  split_ifs <;> rfl

theorem invalidateSwizzleCache_srvCache (s : TextureStorage11) :
    (invalidateSwizzleCache s).mSrvCache = s.mSrvCache := by
  unfold invalidateSwizzleCache
  generalize List.range s.mSwizzleCache.length = levels
  induction levels generalizing s with
  | nil => rfl
  | cons level rest ih =>
    rw [List.foldl_cons, ih, invalidateSwizzleCacheLevel_srvCache]

/-- No cache operation removes or replaces an entry of the shader-view cache. -/
theorem apply_keeps_cached (op : CacheOp) (s : TextureStorage11) (key : SRVKey)
    (srv : Option ShaderResourceView) (h : s.mSrvCache.find key = some srv) :
    (op.apply s).mSrvCache.find key = some srv := by
  cases op with
  | generateSwizzles red green blue alpha =>
    show (generateSwizzlesFrom red green blue alpha _ 0 s).2.mSrvCache.find key = some srv
    rw [generateSwizzlesFrom_srvCache]; exact h
  | invalidateSwizzleCacheLevel mipLevel =>
    show (s.invalidateSwizzleCacheLevel mipLevel).mSrvCache.find key = some srv
    rw [invalidateSwizzleCacheLevel_srvCache]; exact h
  | invalidateSwizzleCache =>
    show (s.invalidateSwizzleCache).mSrvCache.find key = some srv
    rw [invalidateSwizzleCache_srvCache]; exact h
  | getSRVLevel mipLevel =>
    show (s.getSRVLevel mipLevel).2.2.mSrvCache.find key = some srv
    obtain ⟨_, _, hw, _⟩ := getSRVLevel_writes s mipLevel
    rw [hw]; exact h
  | getSRV samplerState => exact getSRV_keeps_cached s samplerState key srv h

theorem applyOps_keeps_cached (ops : List CacheOp) :
    ∀ (s : TextureStorage11) (key : SRVKey) (srv : Option ShaderResourceView),
      s.mSrvCache.find key = some srv → (applyOps ops s).mSrvCache.find key = some srv := by
  induction ops with
  | nil => intro s key srv h; exact h
  | cons op rest ih =>
    intro s key srv h
    unfold applyOps
    rw [List.foldl_cons]
    exact ih (op.apply s) key srv (apply_keeps_cached op s key srv h)

/-! ## Two-dimensional member arrays -/

theorem rowAt_setAt_self {α : Type} (array : List (List α)) (i : Int) (row : List α)
    (h0 : 0 ≤ i) (hlt : i.toNat < array.length) : rowAt (setAt array i row) i = row := by
  unfold rowAt setAt
  simp [h0, List.getD_eq_getElem?_getD, hlt]

theorem ptrAt2_setAt2_self {α : Type} (array : List (List (Option α))) (i j : Int)
    (v : Option α) (hi : 0 ≤ i) (hilt : i.toNat < array.length) (hj : 0 ≤ j)
    (hjlt : j < (rowAt array i).length) : ptrAt2 (setAt2 array i j v) i j = v := by
  unfold ptrAt2 setAt2
  rw [rowAt_setAt_self _ _ _ hi hilt]
  exact ptrAt_setAt_self _ _ _ hj hjlt

theorem ptrAt_some_range {α : Type} (array : List (Option α)) (i : Int) (a : α)
    (h : ptrAt array i = some a) : 0 ≤ i ∧ i < array.length := by
  unfold ptrAt at h
  by_cases h0 : 0 ≤ i
  · refine ⟨h0, ?_⟩
    by_contra hge
    have hlen : array.length ≤ i.toNat := by omega
    simp [h0, List.getD_eq_getElem?_getD, List.getElem?_eq_none hlen] at h
  · simp [h0] at h

theorem rowAt_length_pos {α : Type} (array : List (List α)) (i : Int)
    (h : 0 < (rowAt array i).length) : 0 ≤ i ∧ i.toNat < array.length := by
  unfold rowAt at h
  by_cases h0 : 0 ≤ i
  · refine ⟨h0, ?_⟩
    by_contra hge
    have hlen : array.length ≤ i.toNat := by omega
    simp [h0, List.getD_eq_getElem?_getD, List.getElem?_eq_none hlen] at h
  · simp [h0] at h

theorem ptrAt2_some_range {α : Type} (array : List (List (Option α))) (i j : Int) (a : α)
    (h : ptrAt2 array i j = some a) :
    0 ≤ i ∧ i.toNat < array.length ∧ 0 ≤ j ∧ j < (rowAt array i).length := by
  unfold ptrAt2 at h
  have hj := ptrAt_some_range _ _ _ h
  have hi := rowAt_length_pos array i (by omega)
  exact ⟨hi.1, hi.2, hj.1, hj.2⟩

theorem rowAt_mem {α : Type} (array : List (List α)) (i : Int) (h0 : 0 ≤ i)
    (hlt : i.toNat < array.length) : rowAt array i ∈ array := by
  unfold rowAt
  simp only [h0, if_true, List.getD_eq_getElem?_getD, List.getElem?_eq_getElem hlt,
    Option.getD_some]
  exact List.getElem_mem hlt

theorem associateImage3D_eq (s : TextureStorage11) (image : Option Image11)
    (index : ImageIndex) : associateImage3D s image index = associateImage2D s image index :=
  rfl

theorem isAssociatedImageValid3D_eq (s : TextureStorage11) (index : ImageIndex)
    (expectedImage : Option Image11) :
    isAssociatedImageValid3D s index expectedImage
      = isAssociatedImageValid2D s index expectedImage :=
  rfl

theorem disassociateImage3D_eq (s : TextureStorage11) (index : ImageIndex)
    (expectedImage : Option Image11) :
    disassociateImage3D s index expectedImage = disassociateImage2D s index expectedImage :=
  rfl

theorem releaseAssociatedImage3D_eq (s : TextureStorage11) (index : ImageIndex)
    (incomingImage : Option Image11) :
    releaseAssociatedImage3D s index incomingImage
      = releaseAssociatedImage2D s index incomingImage :=
  rfl

/-! ### Association followed by validation -/

theorem isAssociatedImageValid2D_associate (s : TextureStorage11)
    (image expected : Option Image11) (index : ImageIndex)
    (hlen : s.mAssociatedImages.length = s.mLevelSRVs.length)
    (hrange : 0 ≤ index.mipIndex ∧ index.mipIndex < s.IMPLEMENTATION_MAX_TEXTURE_LEVELS) :
    isAssociatedImageValid2D (associateImage2D s image index) index expected
      = decide (image = expected) := by
  have hlt : index.mipIndex < (s.mAssociatedImages.length : Int) := by
    have := hrange.2
    unfold IMPLEMENTATION_MAX_TEXTURE_LEVELS at this
    omega
  unfold isAssociatedImageValid2D associateImage2D
  rw [if_pos hrange]
  have hrange2 : 0 ≤ index.mipIndex ∧ index.mipIndex <
      IMPLEMENTATION_MAX_TEXTURE_LEVELS
        { s with mAssociatedImages := setAt s.mAssociatedImages index.mipIndex image } :=
    hrange
  rw [if_pos hrange2]
  simp only [ptrAt_setAt_self _ _ _ hrange.1 hlt]

theorem isAssociatedImageValidCube_associate (s : TextureStorage11)
    (image expected : Option Image11) (index : ImageIndex)
    (hlen : s.mAssociatedImagesCube.length = CUBE_FACE_COUNT)
    (hrows : ∀ row ∈ s.mAssociatedImagesCube, row.length = s.mLevelSRVs.length)
    (hrange : 0 ≤ index.mipIndex ∧ index.mipIndex < s.IMPLEMENTATION_MAX_TEXTURE_LEVELS)
    (hface : 0 ≤ index.layerIndex ∧ index.layerIndex < CUBE_FACE_COUNT) :
    isAssociatedImageValidCube (associateImageCube s image index) index expected
      = decide (image = expected) := by
  have hilt : index.layerIndex.toNat < s.mAssociatedImagesCube.length := by
    rw [hlen]
    have := hface.2
    omega
  have hrow := hrows _ (rowAt_mem s.mAssociatedImagesCube index.layerIndex hface.1 hilt)
  have hlt : index.mipIndex < ((rowAt s.mAssociatedImagesCube index.layerIndex).length : Int) := by
    have := hrange.2
    unfold IMPLEMENTATION_MAX_TEXTURE_LEVELS at this
    omega
  unfold isAssociatedImageValidCube associateImageCube
  rw [if_pos hrange, if_pos hface]
  have hrange2 : 0 ≤ index.mipIndex ∧ index.mipIndex <
      IMPLEMENTATION_MAX_TEXTURE_LEVELS
        { s with mAssociatedImagesCube :=
          (setAt2 s.mAssociatedImagesCube index.layerIndex index.mipIndex image) } :=
    hrange
  rw [if_pos hrange2, if_pos hface]
  simp only [ptrAt2_setAt2_self _ _ _ _ hface.1 hilt hrange.1 hlt]

theorem isAssociatedImageValid2DArray_associate (s : TextureStorage11)
    (image expected : Option Image11) (index : ImageIndex)
    (hrange : 0 ≤ index.mipIndex ∧ index.mipIndex < s.getLevelCount) :
    isAssociatedImageValid2DArray (associateImage2DArray s image index) index expected
      = decide (image = expected) := by
  unfold isAssociatedImageValid2DArray associateImage2DArray
  rw [if_pos hrange]
  simp only [LevelLayerMap.find_assign_self]

/-- After `associateImage(image, index)` on an in-range slot, `isAssociatedImageValid(index,
expected)` tells whether `expected` is `image`. -/
theorem isAssociatedImageValid_associate (s : TextureStorage11)
    (image expected : Option Image11) (index : ImageIndex) (hsized : AssociationsSized s)
    (hrange : SlotInRange s index) :
    isAssociatedImageValid (associateImage s image index) index expected
      = decide (image = expected) := by
  obtain ⟨hlen, hcube, hrows⟩ := hsized
  unfold SlotInRange at hrange
  cases hs : s.shape
  · have h1 : associateImage s image index = associateImage2D s image index := by
      unfold associateImage; rw [hs]
    have h2 : (associateImage2D s image index).shape = Shape.Texture2D := by
      unfold associateImage2D; dsimp only; split_ifs <;> exact hs
    rw [hs] at hrange
    simp only [reduceCtorEq, if_false] at hrange
    rw [h1]
    unfold isAssociatedImageValid
    rw [h2]
    exact isAssociatedImageValid2D_associate s image expected index hlen hrange
  · have h1 : associateImage s image index = associateImageCube s image index := by
      unfold associateImage; rw [hs]
    have h2 : (associateImageCube s image index).shape = Shape.Cube := by
      unfold associateImageCube; dsimp only; split_ifs <;> exact hs
    rw [hs] at hrange
    simp only [reduceCtorEq, if_false, if_true] at hrange
    rw [h1]
    unfold isAssociatedImageValid
    rw [h2]
    exact isAssociatedImageValidCube_associate s image expected index hcube hrows
      hrange.1 hrange.2
  · have h1 : associateImage s image index = associateImage3D s image index := by
      unfold associateImage; rw [hs]
    have h2 : (associateImage3D s image index).shape = Shape.Texture3D := by
      unfold associateImage3D; dsimp only; split_ifs <;> exact hs
    rw [hs] at hrange
    simp only [reduceCtorEq, if_false] at hrange
    rw [h1]
    unfold isAssociatedImageValid
    rw [h2]
    exact isAssociatedImageValid2D_associate s image expected index hlen hrange
  · have h1 : associateImage s image index = associateImage2DArray s image index := by
      unfold associateImage; rw [hs]
    have h2 : (associateImage2DArray s image index).shape = Shape.Texture2DArray := by
      unfold associateImage2DArray; dsimp only; split_ifs <;> exact hs
    rw [hs] at hrange
    simp only [if_true] at hrange
    rw [h1]
    unfold isAssociatedImageValid
    rw [h2]
    exact isAssociatedImageValid2DArray_associate s image expected index hrange

/-! ### Validation, disassociation and release -/

theorem isAssociatedImageValid_true (t : TextureStorage11) (index : ImageIndex)
    (expected : Option Image11) (h : isAssociatedImageValid t index expected = true) :
    associatedImage t index = expected := by
  unfold isAssociatedImageValid at h
  unfold associatedImage
  cases hs : t.shape <;> rw [hs] at h <;> dsimp only at h ⊢
  · unfold isAssociatedImageValid2D at h
    unfold associatedImageLevel
    dsimp only at h
    split_ifs at h ⊢
    simpa using h
  · unfold isAssociatedImageValidCube at h
    unfold associatedImageCube
    dsimp only at h
    split_ifs at h ⊢
    simpa using h
  · unfold isAssociatedImageValid3D at h
    unfold associatedImageLevel
    dsimp only at h
    split_ifs at h ⊢
    simpa using h
  · unfold isAssociatedImageValid2DArray at h
    unfold associatedImageMap
    dsimp only at h
    cases hf : LevelLayerMap.find t.mAssociatedImagesMap
        { first := index.mipIndex, second := index.layerIndex } with
    | none => rw [hf] at h; simp at h
    | some image => rw [hf] at h; simpa using h

theorem disassociateImage2D_associated (t : TextureStorage11) (index : ImageIndex)
    (image : Image11) (h : associatedImageLevel t index = some image) :
    associatedImageLevel (disassociateImage2D t index (some image)) index = none := by
  unfold associatedImageLevel at h
  by_cases hr : 0 ≤ index.mipIndex ∧ index.mipIndex < t.IMPLEMENTATION_MAX_TEXTURE_LEVELS
  · rw [if_pos hr] at h
    have hlt := ptrAt_some_range _ _ _ h
    unfold disassociateImage2D
    dsimp only
    rw [if_pos hr, if_pos h]
    unfold associatedImageLevel
    have hr2 : 0 ≤ index.mipIndex ∧ index.mipIndex < IMPLEMENTATION_MAX_TEXTURE_LEVELS
        { t with mAssociatedImages := setAt t.mAssociatedImages index.mipIndex none } := hr
    rw [if_pos hr2]
    exact ptrAt_setAt_self _ _ _ hlt.1 hlt.2
  · rw [if_neg hr] at h
    exact absurd h (by simp)

theorem disassociateImageCube_associated (t : TextureStorage11) (index : ImageIndex)
    (image : Image11) (h : associatedImageCube t index = some image) :
    associatedImageCube (disassociateImageCube t index (some image)) index = none := by
  unfold associatedImageCube at h
  by_cases hr : 0 ≤ index.mipIndex ∧ index.mipIndex < t.IMPLEMENTATION_MAX_TEXTURE_LEVELS
  · rw [if_pos hr] at h
    by_cases hf : 0 ≤ index.layerIndex ∧ index.layerIndex < CUBE_FACE_COUNT
    · rw [if_pos hf] at h
      have hlt := ptrAt2_some_range _ _ _ _ h
      unfold disassociateImageCube
      dsimp only
      rw [if_pos hr, if_pos hf, if_pos h]
      unfold associatedImageCube
      have hr2 : 0 ≤ index.mipIndex ∧ index.mipIndex < IMPLEMENTATION_MAX_TEXTURE_LEVELS
          { t with mAssociatedImagesCube :=
            (setAt2 t.mAssociatedImagesCube index.layerIndex index.mipIndex none) } := hr
      rw [if_pos hr2, if_pos hf]
      exact ptrAt2_setAt2_self _ _ _ _ hlt.1 hlt.2.1 hlt.2.2.1 hlt.2.2.2
    · rw [if_neg hf] at h
      exact absurd h (by simp)
  · rw [if_neg hr] at h
    exact absurd h (by simp)

theorem disassociateImage2DArray_associated (t : TextureStorage11) (index : ImageIndex)
    (image : Image11) (h : associatedImageMap t index = some image) :
    associatedImageMap (disassociateImage2DArray t index (some image)) index = none := by
  unfold associatedImageMap at h
  cases hf : LevelLayerMap.find t.mAssociatedImagesMap
      { first := index.mipIndex, second := index.layerIndex } with
  | none => rw [hf] at h; simp at h
  | some found =>
    rw [hf] at h
    have hfound : found = some image := by simpa using h
    unfold disassociateImage2DArray
    dsimp only
    rw [hf]
    simp only [hfound, decide_True, if_true]
    unfold associatedImageMap
    simp [LevelLayerMap.find_assign_self]

theorem disassociateImage_shape (t : TextureStorage11) (index : ImageIndex)
    (expected : Option Image11) : (disassociateImage t index expected).shape = t.shape := by
  unfold disassociateImage
  cases hs : t.shape <;> dsimp only
  · unfold disassociateImage2D; dsimp only; split_ifs <;> exact hs
  · unfold disassociateImageCube; dsimp only; split_ifs <;> exact hs
  · unfold disassociateImage3D; dsimp only; split_ifs <;> exact hs
  · unfold disassociateImage2DArray; dsimp only; split_ifs <;> exact hs

theorem disassociateImage_renderer (t : TextureStorage11) (index : ImageIndex)
    (expected : Option Image11) :
    (disassociateImage t index expected).mRenderer = t.mRenderer := by
  unfold disassociateImage
  cases t.shape <;> dsimp only
  · unfold disassociateImage2D; dsimp only; split_ifs <;> rfl
  · unfold disassociateImageCube; dsimp only; split_ifs <;> rfl
  · unfold disassociateImage3D; dsimp only; split_ifs <;> rfl
  · unfold disassociateImage2DArray; dsimp only; split_ifs <;> rfl

/-- Ending the association of the image a slot holds leaves the slot unassociated. -/
theorem disassociateImage_associated (t : TextureStorage11) (index : ImageIndex)
    (image : Image11) (h : associatedImage t index = some image) :
    associatedImage (disassociateImage t index (some image)) index = none := by
  have hshape := disassociateImage_shape t index (some image)
  unfold associatedImage at h ⊢
  rw [hshape]
  unfold disassociateImage
  cases hs : t.shape <;> rw [hs] at h <;> dsimp only at h ⊢
  · exact disassociateImage2D_associated t index image h
  · exact disassociateImageCube_associated t index image h
  · exact disassociateImage2D_associated t index image h
  · exact disassociateImage2DArray_associated t index image h

/-- A `disassociateImage` whose expected image is not the one the slot holds changes
nothing. -/
theorem disassociateImage_mismatch (t : TextureStorage11) (index : ImageIndex)
    (expected : Option Image11) (h : associatedImage t index ≠ expected) :
    disassociateImage t index expected = t := by
  unfold associatedImage at h
  unfold disassociateImage
  cases hs : t.shape <;> rw [hs] at h <;> dsimp only at h ⊢
  · unfold associatedImageLevel at h
    unfold disassociateImage2D
    dsimp only
    split_ifs at h ⊢ <;> first | rfl | contradiction
  · unfold associatedImageCube at h
    unfold disassociateImageCube
    dsimp only
    split_ifs at h ⊢ <;> first | rfl | contradiction
  · unfold associatedImageLevel at h
    unfold disassociateImage3D
    dsimp only
    split_ifs at h ⊢ <;> first | rfl | contradiction
  · unfold associatedImageMap at h
    unfold disassociateImage2DArray
    dsimp only
    cases hf : LevelLayerMap.find t.mAssociatedImagesMap
        { first := index.mipIndex, second := index.layerIndex } with
    | none => simp
    | some found =>
      rw [hf] at h
      have hne : found ≠ expected := by simpa using h
      simp [hne]

/-- The reconciliation of an image whose back-reference is valid: the two calls on the image
are logged, and the association ends unless the reconciliation fails. -/
theorem recoverIfAssociationCorrect_valid (s : TextureStorage11) (image : Image11)
    (index : ImageIndex) (hvalid : image.storageValid = true) :
    recoverIfAssociationCorrect s (some image) index =
      if FAILED s.mRenderer.nextResult then
        (outOfMemory, { s with mRenderer :=
          ((s.mRenderer.note (NativeCall.isAssociatedStorageValid (some image))).record
            (NativeCall.recoverFromAssociatedStorage (some image) s.mRenderer.nextResult)) })
      else
        (noError, disassociateImage { s with mRenderer :=
          ((s.mRenderer.note (NativeCall.isAssociatedStorageValid (some image))).record
            (NativeCall.recoverFromAssociatedStorage (some image) s.mRenderer.nextResult)) }
          index (some image)) := by
  unfold recoverIfAssociationCorrect isAssociatedStorageValid recoverFromAssociatedStorage
  simp only [hvalid, if_true]
  rfl

/-- The reconciliation of an image whose back-reference is not valid: only the check is
logged. -/
theorem recoverIfAssociationCorrect_stale (s : TextureStorage11) (image : Image11)
    (index : ImageIndex) (hstale : image.storageValid = false) :
    recoverIfAssociationCorrect s (some image) index =
      (noError, { s with mRenderer :=
        (s.mRenderer.note (NativeCall.isAssociatedStorageValid (some image))) }) := by
  unfold recoverIfAssociationCorrect isAssociatedStorageValid
  simp [hstale]

/-- When the slot holds an image other than the incoming one, `releaseAssociatedImage` is
the reconciliation of that image. -/
theorem releaseAssociatedImage_associated (s : TextureStorage11) (index : ImageIndex)
    (image : Image11) (incoming : Option Image11) (h : associatedImage s index = some image)
    (hne : incoming ≠ some image) :
    releaseAssociatedImage s index incoming =
      ((recoverIfAssociationCorrect s (some image) index).1,
        (recoverIfAssociationCorrect s (some image) index).2) ∨
    ((recoverIfAssociationCorrect s (some image) index).1.isError = false ∧
      releaseAssociatedImage s index incoming =
        (noError, (recoverIfAssociationCorrect s (some image) index).2)) := by
  have hne2 : some image ≠ incoming := fun h => hne h.symm
  unfold associatedImage at h
  unfold releaseAssociatedImage
  cases hs : s.shape <;> rw [hs] at h <;> dsimp only at h ⊢
  · unfold associatedImageLevel at h
    unfold releaseAssociatedImage2D
    dsimp only
    split_ifs at h with hr
    rw [if_pos hr, h]
    simp only [Option.isSome_some, ne_eq, hne2, not_false_eq_true, and_self, if_true]
    split_ifs with herr
    · left; rfl
    · right; exact ⟨by simpa using herr, rfl⟩
  · unfold associatedImageCube at h
    unfold releaseAssociatedImageCube
    dsimp only
    split_ifs at h with hr hf
    rw [if_pos hr, if_pos hf, h]
    simp only [Option.isSome_some, ne_eq, hne2, not_false_eq_true, and_self, if_true]
    split_ifs with herr
    · left; rfl
    · right; exact ⟨by simpa using herr, rfl⟩
  · unfold associatedImageLevel at h
    unfold releaseAssociatedImage3D
    dsimp only
    split_ifs at h with hr
    rw [if_pos hr, h]
    simp only [Option.isSome_some, ne_eq, hne2, not_false_eq_true, and_self, if_true]
    split_ifs with herr
    · left; rfl
    · right; exact ⟨by simpa using herr, rfl⟩
  · unfold associatedImageMap at h
    unfold releaseAssociatedImage2DArray
    dsimp only
    cases hf : LevelLayerMap.find s.mAssociatedImagesMap
        { first := index.mipIndex, second := index.layerIndex } with
    | none => rw [hf] at h; simp at h
    | some found =>
      rw [hf] at h
      have hfound : found = some image := by simpa using h
      subst hfound
      simp only [Option.isSome_some, ne_eq, hne2, not_false_eq_true, and_self, if_true]
      split_ifs with herr
      · left; rfl
      · right; exact ⟨by simpa using herr, rfl⟩

/-- When the slot is unassociated or holds the incoming image, `releaseAssociatedImage`
changes nothing and reports no error. -/
theorem releaseAssociatedImage_idle (s : TextureStorage11) (index : ImageIndex)
    (incoming : Option Image11)
    (h : associatedImage s index = none ∨ associatedImage s index = incoming) :
    releaseAssociatedImage s index incoming = (noError, s) := by
  unfold associatedImage at h
  unfold releaseAssociatedImage
  cases hs : s.shape <;> rw [hs] at h <;> dsimp only at h ⊢
  · unfold associatedImageLevel at h
    unfold releaseAssociatedImage2D
    dsimp only
    by_cases hr : 0 ≤ index.mipIndex ∧ index.mipIndex < s.IMPLEMENTATION_MAX_TEXTURE_LEVELS
    · rw [if_pos hr] at h
      rw [if_pos hr]
      rcases h with h | h
      · rw [h]; simp
      · rw [h]; simp
    · rw [if_neg hr]
  · unfold associatedImageCube at h
    unfold releaseAssociatedImageCube
    dsimp only
    by_cases hr : 0 ≤ index.mipIndex ∧ index.mipIndex < s.IMPLEMENTATION_MAX_TEXTURE_LEVELS
    · by_cases hf : 0 ≤ index.layerIndex ∧ index.layerIndex < CUBE_FACE_COUNT
      · rw [if_pos hr, if_pos hf] at h
        rw [if_pos hr, if_pos hf]
        rcases h with h | h
        · rw [h]; simp
        · rw [h]; simp
      · rw [if_pos hr, if_neg hf]
    · rw [if_neg hr]
  · unfold associatedImageLevel at h
    unfold releaseAssociatedImage3D
    dsimp only
    by_cases hr : 0 ≤ index.mipIndex ∧ index.mipIndex < s.IMPLEMENTATION_MAX_TEXTURE_LEVELS
    · rw [if_pos hr] at h
      rw [if_pos hr]
      rcases h with h | h
      · rw [h]; simp
      · rw [h]; simp
    · rw [if_neg hr]
  · unfold associatedImageMap at h
    unfold releaseAssociatedImage2DArray
    dsimp only
    cases hf : LevelLayerMap.find s.mAssociatedImagesMap
        { first := index.mipIndex, second := index.layerIndex } with
    | none => rfl
    | some found =>
      rw [hf] at h
      simp only [Option.getD_some] at h
      rcases h with h | h
      · rw [h]; simp
      · rw [h]; simp

/-! ### Copies into the storage -/

theorem invalidateSwizzleCacheLevel_writes (s : TextureStorage11) (mipLevel : Int) :
    invalidateSwizzleCacheLevel s mipLevel =
      { s with mSwizzleCache := (invalidateSwizzleCacheLevel s mipLevel).mSwizzleCache } := by
  unfold invalidateSwizzleCacheLevel
  split_ifs <;> rfl

/-- The members and tables `createTexture2DHelper` leaves, and the copies logged. -/
theorem createTexture2DHelper_frame (s : TextureStorage11) (width height levels : Int)
    (levelZero : Bool) :
    (createTexture2DHelper s width height levels levelZero).2.mTextureFormat = s.mTextureFormat ∧
    (createTexture2DHelper s width height levels levelZero).2.mRenderer.depthBits
      = s.mRenderer.depthBits ∧
    (createTexture2DHelper s width height levels levelZero).2.mRenderer.stencilBits
      = s.mRenderer.stencilBits ∧
    (createTexture2DHelper s width height levels levelZero).2.mRenderer.calls.filter isCopyCall
      = s.mRenderer.calls.filter isCopyCall := by
  unfold createTexture2DHelper
  dsimp only
  split_ifs <;>
    first
      | exact ⟨rfl, rfl, rfl, rfl⟩
      | (rw [CreateTexture2D_renderer]; exact ⟨rfl, rfl, rfl, rfl⟩)

theorem getResourceLevel_frame (s : TextureStorage11) (includeLevel : Int) :
    (getResourceLevel s includeLevel).2.mTextureFormat = s.mTextureFormat ∧
    (getResourceLevel s includeLevel).2.mRenderer.depthBits = s.mRenderer.depthBits ∧
    (getResourceLevel s includeLevel).2.mRenderer.stencilBits = s.mRenderer.stencilBits ∧
    (getResourceLevel s includeLevel).2.mRenderer.calls.filter isCopyCall
      = s.mRenderer.calls.filter isCopyCall := by
  unfold getResourceLevel
  split
  · unfold getResourceLevel2D
    dsimp only
    split_ifs
    · exact createTexture2DHelper_frame s _ _ _ false
    · exact ⟨rfl, rfl, rfl, rfl⟩
    · exact ⟨rfl, rfl, rfl, rfl⟩
  · exact ⟨rfl, rfl, rfl, rfl⟩

/-- Creating the level-zero-only texture leaves the full-chain texture and the choice of the
resource in use. -/
theorem createTexture2DHelper_levelZero_keeps (s : TextureStorage11) (width height levels : Int) :
    (createTexture2DHelper s width height levels true).2.mTexture = s.mTexture ∧
    (createTexture2DHelper s width height levels true).2.mUseLevelZeroTexture
      = s.mUseLevelZeroTexture := by
  unfold createTexture2DHelper
  simp only [if_true]
  split_ifs <;> exact ⟨rfl, rfl⟩

/-! ### Render targets: what `getRenderTarget` writes and logs -/

theorem ViewCallsOnly.same (r : Renderer11) : ViewCallsOnly r r :=
  ⟨[], rfl, fun _ h => absurd h (by simp)⟩

theorem ViewCallsOnly.chain {r1 r2 r3 : Renderer11} (h12 : ViewCallsOnly r1 r2)
    (h23 : ViewCallsOnly r2 r3) : ViewCallsOnly r1 r3 := by
  obtain ⟨a, ha, hva⟩ := h12
  obtain ⟨b, hb, hvb⟩ := h23
  refine ⟨b ++ a, by rw [hb, ha, List.append_assoc], fun call hmem => ?_⟩
  rcases List.mem_append.mp hmem with h | h
  · exact hvb call h
  · exact hva call h

theorem ViewCallsOnly.record (r : Renderer11) (call : NativeCall)
    (h : isViewCreation call = true) : ViewCallsOnly r (r.record call) :=
  ⟨[call], rfl, fun c hc => by
    rw [List.mem_singleton] at hc
    subst hc
    exact Or.inl h⟩

theorem ViewCallsOnly.unreachable (r : Renderer11) :
    ViewCallsOnly r (r.note NativeCall.UNREACHABLE) :=
  ⟨[NativeCall.UNREACHABLE], rfl, fun c hc => by
    rw [List.mem_singleton] at hc
    exact Or.inr hc⟩

/-- A filter that lets no view creation and no trace report through sees the same calls. -/
theorem ViewCallsOnly.filter {r1 r2 : Renderer11} (h : ViewCallsOnly r1 r2)
    (p : NativeCall → Bool) (hview : ∀ call, isViewCreation call = true → p call = false)
    (htrace : p NativeCall.UNREACHABLE = false) :
    r2.calls.filter p = r1.calls.filter p := by
  obtain ⟨added, hcalls, hadded⟩ := h
  rw [hcalls, List.filter_append]
  have hnil : added.filter p = [] := by
    rw [List.filter_eq_nil_iff]
    intro call hmem
    rcases hadded call hmem with hv | ht
    · simp [hview call hv]
    · subst ht
      simp [htrace]
  rw [hnil, List.nil_append]

theorem CreateDepthStencilView_renderer (r : Renderer11) (texture : Option Texture)
    (desc : DEPTH_STENCIL_VIEW_DESC) :
    (CreateDepthStencilView r texture desc).2.2 =
      r.record (NativeCall.CreateDepthStencilView texture desc r.nextResult) := by
  unfold CreateDepthStencilView
  dsimp only
  split_ifs <;> rfl

theorem ViewCallsOnly.srv (r : Renderer11) (texture : Option Texture)
    (desc : SHADER_RESOURCE_VIEW_DESC) :
    ViewCallsOnly r (CreateShaderResourceView r texture desc).2.2 := by
  rw [CreateShaderResourceView_renderer]
  exact ViewCallsOnly.record _ _ rfl

theorem ViewCallsOnly.rtv (r : Renderer11) (texture : Option Texture)
    (desc : RENDER_TARGET_VIEW_DESC) :
    ViewCallsOnly r (CreateRenderTargetView r texture desc).2.2 := by
  rw [CreateRenderTargetView_renderer]
  exact ViewCallsOnly.record _ _ rfl

theorem ViewCallsOnly.dsv (r : Renderer11) (texture : Option Texture)
    (desc : DEPTH_STENCIL_VIEW_DESC) :
    ViewCallsOnly r (CreateDepthStencilView r texture desc).2.2 := by
  rw [CreateDepthStencilView_renderer]
  exact ViewCallsOnly.record _ _ rfl

/-- What `getSRVLevel` writes, with the calls it logs. -/
theorem getSRVLevel_viewCalls (s : TextureStorage11) (mipLevel : Int) :
    ∃ renderer levelSRVs,
      (getSRVLevel s mipLevel).2.2 = { s with mRenderer := renderer, mLevelSRVs := levelSRVs } ∧
      ViewCallsOnly s.mRenderer renderer := by
  unfold getSRVLevel
  cases hcached : ptrAt s.mLevelSRVs mipLevel with
  | some view =>
    simp only [Option.isNone_some, Bool.false_eq_true, if_false]
    exact ⟨_, _, rfl, ViewCallsOnly.same _⟩
  | none =>
    simp only [Option.isNone_none, if_true]
    have hw := createSRV_writes s mipLevel 1 s.mShaderResourceFormat s.getResource
    cases herr : (createSRV s mipLevel 1 s.mShaderResourceFormat s.getResource).1.isError
    · simp only [Bool.false_eq_true, if_false]
      rw [hw]
      exact ⟨_, _, rfl, ViewCallsOnly.record _ _ rfl⟩
    · simp only [if_true]
      rw [hw]
      exact ⟨_, _, rfl, ViewCallsOnly.record _ _ rfl⟩

theorem outOfMemory_isError : outOfMemory.isError = true := by decide

theorem getRenderTarget2D_writes (s : TextureStorage11) (index : ImageIndex) :
    ∃ renderer levelSRVs renderTarget levelZeroRenderTarget,
      (getRenderTarget2D s index).2.2 =
        { s with mRenderer := renderer, mLevelSRVs := levelSRVs, mRenderTarget := renderTarget,
                 mLevelZeroRenderTarget := levelZeroRenderTarget } ∧
      ViewCallsOnly s.mRenderer renderer ∧
      ((getRenderTarget2D s index).1.isError = false →
        (getRenderTarget2D s index).2.1 =
          if s.mUseLevelZeroTexture then levelZeroRenderTarget
          else ptrAt renderTarget index.mipIndex) := by
  unfold getRenderTarget2D
  dsimp only
  by_cases huse : s.mUseLevelZeroTexture = true
  · rw [if_pos huse]
    split_ifs
    · exact ⟨_, _, _, _, rfl, ViewCallsOnly.rtv _ _ _,
        fun h => absurd h (by rw [outOfMemory_isError]; simp)⟩
    · exact ⟨_, _, _, _, rfl, ViewCallsOnly.rtv _ _ _, fun _ => rfl⟩
    · exact ⟨_, _, _, _, rfl, ViewCallsOnly.same _, fun _ => rfl⟩
  · rw [if_neg huse]
    have hviewed : ∃ renderer levelSRVs,
        (if (!decide (s.mRenderer.featureLevel ≤ D3D_FEATURE_LEVEL_9_3)) = true then
            getSRVLevel s index.mipIndex
          else (noError, none, s)).2.2
          = { s with mRenderer := renderer, mLevelSRVs := levelSRVs } ∧
        ViewCallsOnly s.mRenderer renderer := by
      split_ifs
      · exact getSRVLevel_viewCalls s index.mipIndex
      · exact ⟨_, _, rfl, ViewCallsOnly.same _⟩
    generalize (if (!decide (s.mRenderer.featureLevel ≤ D3D_FEATURE_LEVEL_9_3)) = true then
        getSRVLevel s index.mipIndex else (noError, none, s)) = viewed at hviewed ⊢
    obtain ⟨err, srv, s1⟩ := viewed
    obtain ⟨renderer, levelSRVs, hs1, hlog⟩ := hviewed
    simp only at hs1
    subst hs1
    dsimp only
    split_ifs with hcached herr hformat hfail hdepth hfail2
    · exact ⟨_, _, _, _, rfl, hlog, fun h => absurd h (by simp [herr])⟩
    · exact ⟨_, _, _, _, rfl, hlog.chain (ViewCallsOnly.rtv _ _ _),
        fun h => absurd h (by rw [outOfMemory_isError]; simp)⟩
    · exact ⟨_, _, _, _, rfl, hlog.chain (ViewCallsOnly.rtv _ _ _),
        fun _ => rfl⟩
    · exact ⟨_, _, _, _, rfl, hlog.chain (ViewCallsOnly.dsv _ _ _),
        fun h => absurd h (by rw [outOfMemory_isError]; simp)⟩
    · exact ⟨_, _, _, _, rfl, hlog.chain (ViewCallsOnly.dsv _ _ _),
        fun _ => rfl⟩
    · exact ⟨_, _, _, _, rfl, hlog.chain (ViewCallsOnly.unreachable _),
        fun _ => rfl⟩
    · exact ⟨_, _, _, _, rfl, ViewCallsOnly.same _, fun _ => rfl⟩

theorem getRenderTargetCube_writes (s : TextureStorage11) (index : ImageIndex) :
    ∃ renderer renderTargetCube,
      (getRenderTargetCube s index).2.2 =
        { s with mRenderer := renderer, mRenderTargetCube := renderTargetCube } ∧
      ViewCallsOnly s.mRenderer renderer ∧
      ((getRenderTargetCube s index).1.isError = false →
        (getRenderTargetCube s index).2.1 =
          ptrAt2 renderTargetCube index.layerIndex index.mipIndex) := by
  unfold getRenderTargetCube
  dsimp only
  have hsrv := ViewCallsOnly.srv s.mRenderer s.mTexture
    { Format := s.mShaderResourceFormat, ViewDimension := ViewDimension.TEXTURE2DARRAY,
      MostDetailedMip := toUINT (s.mTopLevel + index.mipIndex), MipLevels := 1,
      FirstArraySlice := toUINT index.layerIndex, ArraySize := 1 }
  split_ifs
  · exact ⟨_, _, rfl, hsrv, fun h => absurd h (by rw [outOfMemory_isError]; simp)⟩
  · exact ⟨_, _, rfl, hsrv.chain (ViewCallsOnly.rtv _ _ _),
      fun h => absurd h (by rw [outOfMemory_isError]; simp)⟩
  · exact ⟨_, _, rfl, hsrv.chain (ViewCallsOnly.rtv _ _ _), fun _ => rfl⟩
  · exact ⟨_, _, rfl, hsrv.chain (ViewCallsOnly.dsv _ _ _),
      fun h => absurd h (by rw [outOfMemory_isError]; simp)⟩
  · exact ⟨_, _, rfl, hsrv.chain (ViewCallsOnly.dsv _ _ _), fun _ => rfl⟩
  · exact ⟨_, _, rfl, hsrv.chain (ViewCallsOnly.unreachable _), fun _ => rfl⟩
  · exact ⟨_, _, rfl, ViewCallsOnly.same _, fun _ => rfl⟩

theorem getRenderTarget3D_writes (s : TextureStorage11) (index : ImageIndex) :
    ∃ renderer levelSRVs levelRenderTargets levelLayerRenderTargets,
      (getRenderTarget3D s index).2.2 =
        { s with mRenderer := renderer, mLevelSRVs := levelSRVs,
                 mLevelRenderTargets := levelRenderTargets,
                 mLevelLayerRenderTargets := levelLayerRenderTargets } ∧
      ViewCallsOnly s.mRenderer renderer ∧
      ((getRenderTarget3D s index).1.isError = false →
        (getRenderTarget3D s index).2.1 =
          if !index.hasLayer then ptrAt levelRenderTargets index.mipIndex
          else (LevelLayerMap.find levelLayerRenderTargets
            { first := index.mipIndex, second := index.layerIndex }).getD none) := by
  unfold getRenderTarget3D
  dsimp only
  by_cases hlayer : (!index.hasLayer) = true
  · rw [if_pos hlayer]
    obtain ⟨renderer, levelSRVs, hs1, hlog⟩ := getSRVLevel_viewCalls s index.mipIndex
    generalize getSRVLevel s index.mipIndex = viewed at hs1 ⊢
    obtain ⟨err, srv, s1⟩ := viewed
    simp only at hs1
    subst hs1
    dsimp only
    split_ifs with hcached herr hfail
    · exact ⟨_, _, _, _, rfl, hlog, fun h => absurd h (by simp [herr])⟩
    · exact ⟨_, _, _, _, rfl, hlog.chain (ViewCallsOnly.rtv _ _ _),
        fun h => absurd h (by rw [outOfMemory_isError]; simp)⟩
    · exact ⟨_, _, _, _, rfl, hlog.chain (ViewCallsOnly.rtv _ _ _), fun _ => rfl⟩
    · exact ⟨_, _, _, _, rfl, ViewCallsOnly.same _, fun _ => rfl⟩
  · rw [if_neg hlayer]
    split_ifs with hmiss hfail
    · exact ⟨_, _, _, _, rfl, ViewCallsOnly.rtv _ _ _,
        fun h => absurd h (by rw [outOfMemory_isError]; simp)⟩
    · exact ⟨_, _, _, _, rfl, ViewCallsOnly.rtv _ _ _,
        fun _ => (LevelLayerMap.read_fst _ _).symm⟩
    · exact ⟨_, _, _, _, rfl, ViewCallsOnly.same _,
        fun _ => (LevelLayerMap.read_fst _ _).symm⟩

theorem getRenderTarget2DArray_writes (s : TextureStorage11) (index : ImageIndex) :
    ∃ renderer renderTargets,
      (getRenderTarget2DArray s index).2.2 =
        { s with mRenderer := renderer, mRenderTargets := renderTargets } ∧
      ViewCallsOnly s.mRenderer renderer ∧
      ((getRenderTarget2DArray s index).1.isError = false →
        (getRenderTarget2DArray s index).2.1 =
          (LevelLayerMap.find renderTargets
            { first := index.mipIndex, second := index.layerIndex }).getD none) := by
  unfold getRenderTarget2DArray
  dsimp only
  have hsrv := ViewCallsOnly.srv s.mRenderer s.mTexture
    { Format := s.mShaderResourceFormat, ViewDimension := ViewDimension.TEXTURE2DARRAY,
      MostDetailedMip := toUINT (s.mTopLevel + index.mipIndex), MipLevels := 1,
      FirstArraySlice := toUINT index.layerIndex, ArraySize := 1 }
  split_ifs
  · exact ⟨_, _, rfl, hsrv, fun h => absurd h (by rw [outOfMemory_isError]; simp)⟩
  · exact ⟨_, _, rfl, hsrv.chain (ViewCallsOnly.rtv _ _ _),
      fun h => absurd h (by rw [outOfMemory_isError]; simp)⟩
  · exact ⟨_, _, rfl, hsrv.chain (ViewCallsOnly.rtv _ _ _),
      fun _ => (LevelLayerMap.read_fst _ _).symm⟩
  · exact ⟨_, _, rfl, hsrv.chain (ViewCallsOnly.unreachable _),
      fun _ => (LevelLayerMap.read_fst _ _).symm⟩
  · exact ⟨_, _, rfl, ViewCallsOnly.same _, fun _ => (LevelLayerMap.read_fst _ _).symm⟩

/-! ### Render targets: the cache -/

/-- What `getRenderTarget` writes and logs, for every shape. -/
theorem getRenderTarget_writes (s : TextureStorage11) (index : ImageIndex) :
    ∃ renderer levelSRVs renderTarget levelZeroRenderTarget renderTargetCube
        levelRenderTargets levelLayerRenderTargets renderTargets,
      (getRenderTarget s index).2.2 =
        { s with mRenderer := renderer, mLevelSRVs := levelSRVs, mRenderTarget := renderTarget,
                 mLevelZeroRenderTarget := levelZeroRenderTarget,
                 mRenderTargetCube := renderTargetCube,
                 mLevelRenderTargets := levelRenderTargets,
                 mLevelLayerRenderTargets := levelLayerRenderTargets,
                 mRenderTargets := renderTargets } ∧
      ViewCallsOnly s.mRenderer renderer := by
  unfold getRenderTarget
  split
  · obtain ⟨r, l, t, z, h, hlog, _⟩ := getRenderTarget2D_writes s index
    exact ⟨r, l, t, z, _, _, _, _, h, hlog⟩
  · obtain ⟨r, c, h, hlog, _⟩ := getRenderTargetCube_writes s index
    exact ⟨r, _, _, _, c, _, _, _, h, hlog⟩
  · obtain ⟨r, l, t, m, h, hlog, _⟩ := getRenderTarget3D_writes s index
    exact ⟨r, l, _, _, _, t, m, _, h, hlog⟩
  · obtain ⟨r, m, h, hlog, _⟩ := getRenderTarget2DArray_writes s index
    exact ⟨r, _, _, _, _, _, _, m, h, hlog⟩

/-- A `getRenderTarget` that reports no error hands out what the cache holds for the slot
afterwards. -/
theorem getRenderTarget_caches (s : TextureStorage11) (index : ImageIndex)
    (hok : (getRenderTarget s index).1.isError = false) :
    cachedRenderTarget (getRenderTarget s index).2.2 index = (getRenderTarget s index).2.1 := by
  cases hs : s.shape
  · have hd : getRenderTarget s index = getRenderTarget2D s index := by
      unfold getRenderTarget; rw [hs]
    rw [hd] at hok ⊢
    obtain ⟨r, l, t, z, h, _, hout⟩ := getRenderTarget2D_writes s index
    rw [hout hok, h]
    unfold cachedRenderTarget
    dsimp only
    rw [hs]
  · have hd : getRenderTarget s index = getRenderTargetCube s index := by
      unfold getRenderTarget; rw [hs]
    rw [hd] at hok ⊢
    obtain ⟨r, c, h, _, hout⟩ := getRenderTargetCube_writes s index
    rw [hout hok, h]
    unfold cachedRenderTarget
    dsimp only
    rw [hs]
  · have hd : getRenderTarget s index = getRenderTarget3D s index := by
      unfold getRenderTarget; rw [hs]
    rw [hd] at hok ⊢
    obtain ⟨r, l, t, m, h, _, hout⟩ := getRenderTarget3D_writes s index
    rw [hout hok, h]
    unfold cachedRenderTarget
    dsimp only
    rw [hs]
  · have hd : getRenderTarget s index = getRenderTarget2DArray s index := by
      unfold getRenderTarget; rw [hs]
    rw [hd] at hok ⊢
    obtain ⟨r, m, h, _, hout⟩ := getRenderTarget2DArray_writes s index
    rw [hout hok, h]
    unfold cachedRenderTarget
    dsimp only
    rw [hs]

theorem LevelLayerMap.find_of_getD {α : Type} (map : LevelLayerMap α) (key : LevelLayerKey)
    (value : α) (h : (LevelLayerMap.find map key).getD none = some value) :
    LevelLayerMap.find map key = some (some value) := by
  cases hf : LevelLayerMap.find map key with
  | none => rw [hf] at h; simp at h
  | some found =>
    rw [hf] at h
    simp only [Option.getD_some] at h
    rw [h]

/-- When the cache holds a render target for the slot, `getRenderTarget` hands it out,
reports no error and changes nothing. -/
theorem getRenderTarget_cached (t : TextureStorage11) (index : ImageIndex)
    (target : RenderTarget11) (h : cachedRenderTarget t index = some target) :
    getRenderTarget t index = (noError, some target, t) := by
  unfold cachedRenderTarget at h
  unfold getRenderTarget
  cases hs : t.shape <;> rw [hs] at h <;> dsimp only at h ⊢
  · unfold getRenderTarget2D
    dsimp only
    by_cases huse : t.mUseLevelZeroTexture = true
    · rw [if_pos huse] at h
      rw [if_pos huse, h]
      simp
    · rw [if_neg huse] at h
      rw [if_neg huse, h]
      simp
  · unfold getRenderTargetCube
    dsimp only
    rw [h]
    simp
  · unfold getRenderTarget3D
    dsimp only
    by_cases hlayer : (!index.hasLayer) = true
    · rw [if_pos hlayer] at h
      rw [if_pos hlayer, h]
      simp
    · rw [if_neg hlayer] at h
      rw [if_neg hlayer]
      have hf := LevelLayerMap.find_of_getD _ _ _ h
      rw [hf, LevelLayerMap.read_of_find _ _ _ hf]
      simp
  · unfold getRenderTarget2DArray
    dsimp only
    have hf := LevelLayerMap.find_of_getD _ _ _ h
    rw [hf, LevelLayerMap.read_of_find _ _ _ hf]
    simp

theorem swizzleAt_beyond (array : List SwizzleCacheValue) (i : Int)
    (h : (array.length : Int) ≤ i) : swizzleAt array i = SwizzleCacheValue.default := by
  unfold swizzleAt
  split_ifs with h0
  · have hlen : array.length ≤ i.toNat := by omega
    simp [List.getD_eq_getElem?_getD, List.getElem?_eq_none hlen]
  · rfl

theorem swizzleAt_invalidateSwizzleCacheLevel_self (s : TextureStorage11) (mipLevel : Int) :
    swizzleAt (invalidateSwizzleCacheLevel s mipLevel).mSwizzleCache mipLevel
      = SwizzleCacheValue.default := by
  unfold invalidateSwizzleCacheLevel
  split_ifs with h
  · show swizzleAt (setAt s.mSwizzleCache mipLevel SwizzleCacheValue.default) mipLevel = _
    by_cases hlt : mipLevel < s.mSwizzleCache.length
    · exact swizzleAt_setAt_self _ _ _ h.1 hlt
    · apply swizzleAt_beyond
      rw [length_setAt]
      omega
  · by_cases h0 : 0 ≤ mipLevel
    · apply swizzleAt_beyond
      have hcast := toUINT_cast mipLevel
      have hmod : mipLevel % 4294967296 ≤ mipLevel := by omega
      have hge : ¬ toUINT mipLevel < s.mSwizzleCache.length := fun hlt => h ⟨h0, hlt⟩
      omega
    · unfold swizzleAt
      rw [if_neg h0]

theorem swizzleAt_invalidateSwizzleCacheLevel_other (s : TextureStorage11)
    (mipLevel level : Int) (hne : level ≠ mipLevel) :
    swizzleAt (invalidateSwizzleCacheLevel s mipLevel).mSwizzleCache level
      = swizzleAt s.mSwizzleCache level := by
  unfold invalidateSwizzleCacheLevel
  split_ifs
  · exact swizzleAt_setAt_other _ _ _ _ (Ne.symm hne)
  · rfl

theorem invalidateSwizzleCacheLevel_renderer (s : TextureStorage11) (mipLevel : Int) :
    (invalidateSwizzleCacheLevel s mipLevel).mRenderer = s.mRenderer := by
  unfold invalidateSwizzleCacheLevel
  split_ifs <;> rfl

theorem getRenderTarget_swizzleCache (s : TextureStorage11) (index : ImageIndex) :
    (getRenderTarget s index).2.2.mSwizzleCache = s.mSwizzleCache := by
  obtain ⟨_, _, _, _, _, _, _, _, h, _⟩ := getRenderTarget_writes s index
  rw [h]

theorem getRenderTarget_copyTexture (s : TextureStorage11) (index : ImageIndex) :
    (getRenderTarget s index).2.2.mRenderer.calls.filter isCopyTexture
      = s.mRenderer.calls.filter isCopyTexture := by
  obtain ⟨_, _, _, _, _, _, _, _, h, hlog⟩ := getRenderTarget_writes s index
  rw [h]
  exact hlog.filter isCopyTexture
    (fun call hc => by cases call <;> simp_all [isViewCreation, isCopyTexture]) rfl

/-! ### The cache operations leave the render-target caches -/

theorem ptrAt_setAt_cases {α : Type} (array : List (Option α)) (i j : Int) (v : Option α) :
    (ptrAt (setAt array i v) j = v ∧ j = i) ∨
      ptrAt (setAt array i v) j = ptrAt array j := by
  by_cases hji : i = j
  · subst hji
    by_cases hr : 0 ≤ i ∧ i < array.length
    · exact Or.inl ⟨ptrAt_setAt_self _ _ _ hr.1 hr.2, rfl⟩
    · right
      unfold setAt
      by_cases h0 : 0 ≤ i
      · have hlen : array.length ≤ i.toNat := by omega
        rw [if_pos h0, List.set_eq_of_length_le hlen]
      · rw [if_neg h0]
  · exact Or.inr (ptrAt_setAt_other _ _ _ _ hji)

/-- The check `renderTargetsSized` says that every cached per-level target has the extents
of its level. -/
theorem renderTargetsSized_iff (s : TextureStorage11) :
    renderTargetsSized s = true ↔
      ∀ (level : Int) (target : RenderTarget11), ptrAt s.mRenderTarget level = some target →
        target.width = s.getLevelWidth level ∧ target.height = s.getLevelHeight level := by
  unfold renderTargetsSized
  rw [List.all_eq_true]
  constructor
  · intro h level target hget
    obtain ⟨h0, h1⟩ := ptrAt_some_range _ _ _ hget
    have hmem := h level.toNat (List.mem_range.mpr (by omega))
    unfold ptrAt at hget
    rw [if_pos h0] at hget
    rw [hget] at hmem
    have hl : ((level.toNat : Nat) : Int) = level := Int.toNat_of_nonneg h0
    rw [hl] at hmem
    simpa using hmem
  · intro h level _
    cases hget : s.mRenderTarget.getD level none with
    | none => rfl
    | some target =>
      have hptr : ptrAt s.mRenderTarget (level : Int) = some target := by
        unfold ptrAt
        rw [if_pos (by omega), Int.toNat_ofNat]
        exact hget
      have hext := h (level : Int) target hptr
      simp [hext.1, hext.2]

/-- On the full-chain texture, `getRenderTarget` of the 2D class writes the device, the
per-level views and the per-level targets; the targets keep the extents of their levels, and
the target handed out has the extents of the requested level. -/
theorem getRenderTarget2D_sized (s : TextureStorage11) (index : ImageIndex)
    (hfull : s.mUseLevelZeroTexture = false)
    (hsized : ∀ (level : Int) (target : RenderTarget11),
      ptrAt s.mRenderTarget level = some target →
        target.width = s.getLevelWidth level ∧ target.height = s.getLevelHeight level) :
    ∃ renderer levelSRVs renderTarget,
      (getRenderTarget2D s index).2.2 =
        { s with mRenderer := renderer, mLevelSRVs := levelSRVs,
                 mRenderTarget := renderTarget } ∧
      (∀ (level : Int) (target : RenderTarget11), ptrAt renderTarget level = some target →
        target.width = s.getLevelWidth level ∧ target.height = s.getLevelHeight level) ∧
      (∀ target : RenderTarget11, (getRenderTarget2D s index).2.1 = some target →
        target.width = s.getLevelWidth index.mipIndex ∧
          target.height = s.getLevelHeight index.mipIndex) := by
  unfold getRenderTarget2D
  dsimp only
  rw [if_neg (by simp [hfull])]
  have hviewed : ∃ renderer levelSRVs,
      (if (!decide (s.mRenderer.featureLevel ≤ D3D_FEATURE_LEVEL_9_3)) = true then
          getSRVLevel s index.mipIndex
        else (noError, none, s)).2.2
        = { s with mRenderer := renderer, mLevelSRVs := levelSRVs } := by
    split_ifs
    · obtain ⟨r, l, h, _⟩ := getSRVLevel_viewCalls s index.mipIndex
      exact ⟨r, l, h⟩
    · exact ⟨_, _, rfl⟩
  generalize (if (!decide (s.mRenderer.featureLevel ≤ D3D_FEATURE_LEVEL_9_3)) = true then
      getSRVLevel s index.mipIndex else (noError, none, s)) = viewed at hviewed ⊢
  obtain ⟨err, srv, s1⟩ := viewed
  obtain ⟨renderer, levelSRVs, hs1⟩ := hviewed
  simp only at hs1
  subst hs1
  dsimp only
  have hset : ∀ (made : RenderTarget11),
      made.width = s.getLevelWidth index.mipIndex →
      made.height = s.getLevelHeight index.mipIndex →
      ∀ (level : Int) (target : RenderTarget11),
        ptrAt (setAt s.mRenderTarget index.mipIndex (some made)) level = some target →
        target.width = s.getLevelWidth level ∧ target.height = s.getLevelHeight level := by
    intro made hw hh level target hget
    rcases ptrAt_setAt_cases s.mRenderTarget index.mipIndex level (some made) with h | h
    · rw [h.1] at hget
      have hmade : made = target := Option.some.inj hget
      rw [← hmade, h.2]
      exact ⟨hw, hh⟩
    · rw [h] at hget
      exact hsized level target hget
  split_ifs with hcached herr hformat hfail hdepth hfail2
  · exact ⟨_, _, _, rfl, hsized, fun target h => by simp at h⟩
  · exact ⟨_, _, _, rfl, hsized, fun target h => by simp at h⟩
  · exact ⟨_, _, _, rfl, hset _ rfl rfl, fun target h => hset _ rfl rfl _ target h⟩
  · exact ⟨_, _, _, rfl, hsized, fun target h => by simp at h⟩
  · exact ⟨_, _, _, rfl, hset _ rfl rfl, fun target h => hset _ rfl rfl _ target h⟩
  · exact ⟨_, _, _, rfl, hsized, fun target h => hsized _ target h⟩
  · exact ⟨_, _, _, rfl, hsized, fun target h => hsized _ target h⟩

/-- On the level-zero-only texture, `getRenderTarget` of the 2D class hands out the one
target it holds, whatever the level; it creates it, with the extents of the requested level,
when it holds none. -/
theorem getRenderTarget2D_levelZero (s : TextureStorage11) (index : ImageIndex)
    (hzero : s.mUseLevelZeroTexture = true) :
    (∀ held : RenderTarget11, s.mLevelZeroRenderTarget = some held →
      getRenderTarget2D s index = (noError, some held, s)) ∧
    (s.mLevelZeroRenderTarget = none → (getRenderTarget2D s index).1 = noError →
      ∃ target : RenderTarget11,
        (getRenderTarget2D s index).2.1 = some target ∧
        (getRenderTarget2D s index).2.2.mLevelZeroRenderTarget = some target ∧
        (getRenderTarget2D s index).2.2.mUseLevelZeroTexture = true ∧
        target.width = s.getLevelWidth index.mipIndex ∧
        target.height = s.getLevelHeight index.mipIndex) := by
  constructor
  · intro held hheld
    unfold getRenderTarget2D
    dsimp only
    rw [if_pos hzero, hheld]
    simp
  · intro hnone
    unfold getRenderTarget2D
    dsimp only
    rw [if_pos hzero, hnone]
    simp only [Option.isNone_none, if_true]
    split_ifs with hfail
    · intro h
      have h2 : outOfMemory = noError := h
      exact absurd h2 (by decide)
    · intro _
      exact ⟨_, rfl, rfl, hzero, rfl, rfl⟩

/-! ## Constructors and uploads -/

/-- A freshly constructed 2D storage caches no per-level render target. -/
theorem TextureStorage11_2D_renderTarget (renderer : Renderer11) (formatInfo : TextureFormat)
    (renderTarget : Bool) (width height levels : Int) (hint : Bool) (maxLevels : Nat) :
    (TextureStorage11_2D renderer formatInfo renderTarget width height levels hint
      maxLevels).mRenderTarget = List.replicate maxLevels none := by
  unfold TextureStorage11_2D
  dsimp only
  obtain ⟨t1, r1, x1, z1, h1, -, -⟩ := createTexture2DHelper_writes
    (withFormats renderer formatInfo renderTarget Shape.Texture2D maxLevels) width height 1 true
  obtain ⟨t2, r2, x2, z2, h2, -, -⟩ := createTexture2DHelper_writes
    (withFormats renderer formatInfo renderTarget Shape.Texture2D maxLevels) width height
    levels false
  split_ifs <;> first | (rw [h1]; rfl) | (rw [h2]; rfl)

theorem ptrAt_replicate_none {α : Type} (n : Nat) (i : Int) :
    ptrAt (List.replicate n (none : Option α)) i = none := by
  unfold ptrAt
  split_ifs
  · rw [List.getD_eq_getElem?_getD, List.getElem?_replicate]
    split_ifs <;> rfl
  · rfl

/-- What `setData` writes: the device part of the renderer, nothing else. -/
theorem setData_writes (s : TextureStorage11) (index : ImageIndex) (image : Image)
    (destBox : Option Box) :
    ∃ renderer, (setData s index image destBox).2 = { s with mRenderer := renderer } := by
  unfold setData
  dsimp only
  split_ifs <;> exact ⟨_, rfl⟩

/-- The box of the upload `setData` issues when the conversion buffer is allocated. -/
theorem setData_box (s : TextureStorage11) (index : ImageIndex) (image : Image)
    (destBox : Option Box) (hok : FAILED s.mRenderer.nextResult = false) :
    (setData s index image destBox).1 = noError ∧
    lastUploadBox (setData s index image destBox).2.mRenderer.calls =
      some (if fullUpdate s destBox then none else destBox.map updateDestBox) := by
  unfold setData
  dsimp only
  rw [if_neg (by simp [hok])]
  exact ⟨rfl, rfl⟩

/-! ## The copies of the level-zero workaround -/

theorem createTexture2DHelper_flag (s : TextureStorage11) (width height levels : Int)
    (levelZero : Bool) :
    (createTexture2DHelper s width height levels levelZero).2.mUseLevelZeroTexture
      = s.mUseLevelZeroTexture := by
  obtain ⟨_, _, _, _, h, _, _⟩ := createTexture2DHelper_writes s width height levels levelZero
  rw [h]

/-- The copies `pickLevelZeroWorkaroundTexture` of the 2D class issues: one, from the
resource in use before to the resource in use after, when the call switches the resource;
none when it does not. -/
theorem pickLevelZeroWorkaroundTexture2D_copies (s : TextureStorage11) (want : Bool) :
    (pickLevelZeroWorkaroundTexture2D s want).mUseLevelZeroTexture = want ∧
    (s.mUseLevelZeroTexture ≠ want →
      (pickLevelZeroWorkaroundTexture2D s want).mRenderer.calls.head? =
        some (NativeCall.CopySubresourceRegion
          (if want then (pickLevelZeroWorkaroundTexture2D s want).mLevelZeroTexture
            else (pickLevelZeroWorkaroundTexture2D s want).mTexture) 0 0 0 0
          (if want then (pickLevelZeroWorkaroundTexture2D s want).mTexture
            else (pickLevelZeroWorkaroundTexture2D s want).mLevelZeroTexture) 0 none) ∧
      ((pickLevelZeroWorkaroundTexture2D s want).mRenderer.calls.filter isCopyCall).length =
        (s.mRenderer.calls.filter isCopyCall).length + 1) ∧
    (s.mUseLevelZeroTexture = want →
      (pickLevelZeroWorkaroundTexture2D s want).mRenderer.calls.filter isCopyCall =
        s.mRenderer.calls.filter isCopyCall) := by
  cases want with
  | true =>
    obtain ⟨s1, hs1, hflag, hlog⟩ : ∃ s1 : TextureStorage11,
        s1 = (if s.mLevelZeroTexture.isNone then
          (createTexture2DHelper s (toInt32 s.mTextureWidth) (toInt32 s.mTextureHeight) 1
            true).2 else s) ∧
        s1.mUseLevelZeroTexture = s.mUseLevelZeroTexture ∧
        s1.mRenderer.calls.filter isCopyCall = s.mRenderer.calls.filter isCopyCall := by
      refine ⟨_, rfl, ?_, ?_⟩
      · split_ifs
        · exact createTexture2DHelper_flag _ _ _ _ _
        · rfl
      · split_ifs
        · exact (createTexture2DHelper_frame _ _ _ _ _).2.2.2
        · rfl
    unfold pickLevelZeroWorkaroundTexture2D
    simp only [if_true]
    rw [← hs1]
    refine ⟨trivial, ?_, ?_⟩
    · intro hne
      have hoff : s1.mUseLevelZeroTexture = false := by
        rw [hflag]
        cases h : s.mUseLevelZeroTexture
        · rfl
        · exact absurd h hne
      simp only [hoff, Bool.not_false, if_true]
      refine ⟨rfl, ?_⟩
      simp [Renderer11.note, List.filter, isCopyCall, hlog]
    · intro heq
      have hon : s1.mUseLevelZeroTexture = true := hflag.trans heq
      simp only [hon, Bool.not_true, Bool.false_eq_true, if_false]
      exact hlog
  | false =>
    obtain ⟨s1, hs1, hflag, hlog⟩ : ∃ s1 : TextureStorage11,
        s1 = (if s.mTexture.isNone then
          (createTexture2DHelper s (toInt32 s.mTextureWidth) (toInt32 s.mTextureHeight)
            (toInt32 s.mMipLevels) false).2 else s) ∧
        s1.mUseLevelZeroTexture = s.mUseLevelZeroTexture ∧
        s1.mRenderer.calls.filter isCopyCall = s.mRenderer.calls.filter isCopyCall := by
      refine ⟨_, rfl, ?_, ?_⟩
      · split_ifs
        · exact createTexture2DHelper_flag _ _ _ _ _
        · rfl
      · split_ifs
        · exact (createTexture2DHelper_frame _ _ _ _ _).2.2.2
        · rfl
    unfold pickLevelZeroWorkaroundTexture2D
    simp only [Bool.false_eq_true, if_false]
    rw [← hs1]
    refine ⟨trivial, ?_, ?_⟩
    · intro hne
      have hon : s1.mUseLevelZeroTexture = true := by
        rw [hflag]
        cases h : s.mUseLevelZeroTexture
        · exact absurd h hne
        · rfl
      simp only [hon, if_true]
      refine ⟨rfl, ?_⟩
      simp [Renderer11.note, List.filter, isCopyCall, hlog]
    · intro heq
      have hoff : s1.mUseLevelZeroTexture = false := hflag.trans heq
      simp only [hoff, Bool.false_eq_true, if_false]
      exact hlog

/-! ## The level count after construction -/

theorem toInt32_toUINT {x : Int} (h0 : -2147483648 ≤ x) (h1 : x < 2147483648) :
    toInt32 (toUINT x) = x := by
  have hc := toUINT_cast x
  have hl := toUINT_lt x
  unfold toInt32
  rw [Nat.mod_eq_of_lt hl]
  split_ifs <;> omega

theorem TextureStorage11_2D_members (renderer : Renderer11) (formatInfo : TextureFormat)
    (renderTarget : Bool) (width height levels : Int) (maxLevels : Nat)
    (hw : 0 < width) (hh : 0 < height) (hok : renderer.nextResult = HRESULT.S_OK) :
    (TextureStorage11_2D renderer formatInfo renderTarget width height levels false
      maxLevels).mMipLevels = toUINT levels ∧
    (TextureStorage11_2D renderer formatInfo renderTarget width height levels false
      maxLevels).mTopLevel = (renderer.makeValidSize formatInfo.texFormat width height).2.2 ∧
    (TextureStorage11_2D renderer formatInfo renderTarget width height levels false
      maxLevels).mTexture.isSome = true := by
  unfold TextureStorage11_2D createTexture2DHelper CreateTexture2D
  simp [hw, hh, hok, withFormats, init, FAILED, isDeviceLostError]

theorem TextureStorage11_Cube_members (renderer : Renderer11) (formatInfo : TextureFormat)
    (renderTarget : Bool) (size levels : Int) (maxLevels : Nat)
    (hsize : 0 < size) (hlevels : 0 < levels) (hok : renderer.nextResult = HRESULT.S_OK)
    (hsum : toUINT ((renderer.makeValidSize formatInfo.texFormat size size).2.2 + levels) ≠ 0) :
    (TextureStorage11_Cube renderer formatInfo renderTarget size levels maxLevels).mMipLevels
      = toUINT ((renderer.makeValidSize formatInfo.texFormat size size).2.2 + levels) ∧
    (TextureStorage11_Cube renderer formatInfo renderTarget size levels maxLevels).mTopLevel
      = (renderer.makeValidSize formatInfo.texFormat size size).2.2 ∧
    (TextureStorage11_Cube renderer formatInfo renderTarget size levels
      maxLevels).mTexture.isSome = true := by
  unfold TextureStorage11_Cube CreateTexture2D
  simp [hsize, hlevels, hok, hsum, withFormats, init, FAILED, recordDesc]

theorem TextureStorage11_3D_members (renderer : Renderer11) (formatInfo : TextureFormat)
    (renderTarget : Bool) (width height depth levels : Int) (maxLevels : Nat)
    (hw : 0 < width) (hh : 0 < height) (hd : 0 < depth) (hlevels : 0 < levels)
    (hok : renderer.nextResult = HRESULT.S_OK)
    (hsum : toUINT ((renderer.makeValidSize formatInfo.texFormat width height).2.2 + levels)
      ≠ 0) :
    (TextureStorage11_3D renderer formatInfo renderTarget width height depth levels
      maxLevels).mMipLevels
      = toUINT ((renderer.makeValidSize formatInfo.texFormat width height).2.2 + levels) ∧
    (TextureStorage11_3D renderer formatInfo renderTarget width height depth levels
      maxLevels).mTopLevel
      = (renderer.makeValidSize formatInfo.texFormat width height).2.2 ∧
    (TextureStorage11_3D renderer formatInfo renderTarget width height depth levels
      maxLevels).mTexture.isSome = true := by
  unfold TextureStorage11_3D CreateTexture3D
  simp [hw, hh, hd, hlevels, hok, hsum, withFormats, init, FAILED, isDeviceLostError,
    recordDesc]

theorem TextureStorage11_2DArray_members (renderer : Renderer11) (formatInfo : TextureFormat)
    (renderTarget : Bool) (width height depth levels : Int) (maxLevels : Nat)
    (hw : 0 < width) (hh : 0 < height) (hd : 0 < depth) (hlevels : 0 < levels)
    (hok : renderer.nextResult = HRESULT.S_OK)
    (hsum : toUINT ((renderer.makeValidSize formatInfo.texFormat width height).2.2 + levels)
      ≠ 0) :
    (TextureStorage11_2DArray renderer formatInfo renderTarget width height depth levels
      maxLevels).mMipLevels
      = toUINT ((renderer.makeValidSize formatInfo.texFormat width height).2.2 + levels) ∧
    (TextureStorage11_2DArray renderer formatInfo renderTarget width height depth levels
      maxLevels).mTopLevel
      = (renderer.makeValidSize formatInfo.texFormat width height).2.2 ∧
    (TextureStorage11_2DArray renderer formatInfo renderTarget width height depth levels
      maxLevels).mTexture.isSome = true := by
  unfold TextureStorage11_2DArray CreateTexture2D
  simp [hw, hh, hd, hlevels, hok, hsum, withFormats, init, FAILED, isDeviceLostError,
    recordDesc]

/-- The level count of a storage whose members are `mMipLevels = offset + levels` and
`mTopLevel = offset`. -/
theorem getLevelCount_of_members (s : TextureStorage11) (offset levels : Int)
    (hoffset : 0 ≤ offset) (hlevels : 0 < levels) (hfit : offset + levels < 2147483648)
    (hmip : s.mMipLevels = toUINT (offset + levels)) (htop : s.mTopLevel = offset) :
    s.getLevelCount = levels := by
  unfold getLevelCount
  rw [hmip, htop, toUINT_of_range (by omega) (by omega)]
  have hsub : offset + levels - offset = levels := by omega
  rw [hsub]
  exact toInt32_toUINT (by omega) (by omega)

/-- The requested mip count of `getSRV` under the preconditions of a sampler state whose base
level is a level of the storage. -/
theorem requestedMipLevels_cast (s : TextureStorage11) (samplerState : SamplerState)
    (hs : s.Representable) (h0 : 0 ≤ samplerState.baseLevel)
    (hle : samplerState.baseLevel ≤ samplerState.maxLevel)
    (hmax : samplerState.maxLevel < 2147483648)
    (hlt : samplerState.baseLevel < s.getLevelCount) :
    (requestedMipLevels s samplerState : Int) =
      min (if IsMipmapFiltered samplerState then samplerState.maxLevel - samplerState.baseLevel
           else 1)
        (s.getLevelCount - samplerState.baseLevel) := by
  have hcount := getLevelCount_eq_of_pos s hs (by omega)
  have hmip := hs.2.2
  have htop := hs.1
  unfold requestedMipLevels
  dsimp only
  rw [hcount]
  have hright : ((toUINT ((s.mMipLevels : Int) - s.mTopLevel - samplerState.baseLevel) : Nat)
      : Int) = (s.mMipLevels : Int) - s.mTopLevel - samplerState.baseLevel :=
    toUINT_of_range (by omega) (by omega)
  have hleft : ((toUINT (samplerState.maxLevel - samplerState.baseLevel) : Nat) : Int)
      = samplerState.maxLevel - samplerState.baseLevel :=
    toUINT_of_range (by omega) (by omega)
  split_ifs
  · push_cast
    rw [hleft, hright]
  · push_cast
    rw [hright]

/-- For every storage whose level members hold values of their types and every sampler state
with `0 <= baseLevel <= maxLevel` and `baseLevel < getLevelCount()`: the mip count `getSRV`
requests satisfies `baseLevel + mipLevels <= getLevelCount()`; without mip filtering it is
1; with mip filtering it is the smaller of `maxLevel - baseLevel` and
`getLevelCount() - baseLevel`, which is at least 1 exactly when `baseLevel < maxLevel`. -/
theorem requestedMipLevels_range (s : TextureStorage11) (samplerState : SamplerState)
    (hs : s.Representable) (h0 : 0 ≤ samplerState.baseLevel)
    (hle : samplerState.baseLevel ≤ samplerState.maxLevel)
    (hmax : samplerState.maxLevel < 2147483648)
    (hlt : samplerState.baseLevel < s.getLevelCount) :
    samplerState.baseLevel + (requestedMipLevels s samplerState : Int) ≤ s.getLevelCount ∧
    (IsMipmapFiltered samplerState = false → requestedMipLevels s samplerState = 1) ∧
    (IsMipmapFiltered samplerState = true →
      (requestedMipLevels s samplerState : Int) =
        min (samplerState.maxLevel - samplerState.baseLevel)
          (s.getLevelCount - samplerState.baseLevel) ∧
      (1 ≤ requestedMipLevels s samplerState ↔
        samplerState.baseLevel < samplerState.maxLevel)) := by
  have hcast := requestedMipLevels_cast s samplerState hs h0 hle hmax hlt
  refine ⟨?_, ?_, ?_⟩
  · have hmin := min_le_right
      (if IsMipmapFiltered samplerState then samplerState.maxLevel - samplerState.baseLevel
        else 1) (s.getLevelCount - samplerState.baseLevel)
    omega
  · intro hflat
    rw [hflat] at hcast
    simp only [Bool.false_eq_true, if_false] at hcast
    rw [min_eq_left (by omega)] at hcast
    exact_mod_cast hcast
  · intro hmip
    rw [hmip] at hcast
    simp only [if_true] at hcast
    refine ⟨hcast, ?_⟩
    rcases min_cases (samplerState.maxLevel - samplerState.baseLevel)
      (s.getLevelCount - samplerState.baseLevel) with h | h
    · constructor
      · intro hone
        omega
      · intro hbase
        omega
    · constructor
      · intro hone
        omega
      · intro hbase
        omega

/-! ## Successful render-target requests hand out a target -/

theorem find_isSome_of_all {α : Type} (map : LevelLayerMap α) (key : LevelLayerKey)
    (value : Option α) (hall : map.all (fun entry => entry.2.isSome) = true)
    (h : LevelLayerMap.find map key = some value) : value.isSome = true := by
  induction map with
  | nil => simp [LevelLayerMap.find] at h
  | cons head rest ih =>
    obtain ⟨k, v⟩ := head
    simp only [List.all_cons, Bool.and_eq_true] at hall
    unfold LevelLayerMap.find at h
    split_ifs at h
    · have hv : v = value := Option.some.inj h
      rw [← hv]
      exact hall.1
    · exact ih hall.2 h

theorem all_isSome_assign {α : Type} (map : LevelLayerMap α) (key : LevelLayerKey)
    (value : α) (hall : map.all (fun entry => entry.2.isSome) = true) :
    (LevelLayerMap.assign map key (some value)).all (fun entry => entry.2.isSome) = true := by
  induction map with
  | nil => simp [LevelLayerMap.assign]
  | cons head rest ih =>
    obtain ⟨k, v⟩ := head
    simp only [List.all_cons, Bool.and_eq_true] at hall
    unfold LevelLayerMap.assign
    split_ifs
    · simp only [List.all_cons, Bool.and_eq_true]
      exact ⟨rfl, hall.1, hall.2⟩
    · simp only [List.all_cons, Bool.and_eq_true]
      exact ⟨hall.1, ih hall.2⟩
    · simp only [List.all_cons, Bool.and_eq_true]
      exact ⟨rfl, hall.2⟩

/-- A read of a key the map holds a target for returns it and leaves the map. -/
theorem read_of_all {α : Type} (map : LevelLayerMap α) (key : LevelLayerKey)
    (hall : map.all (fun entry => entry.2.isSome) = true)
    (hfound : (LevelLayerMap.find map key).isNone = false) :
    ∃ target : α, LevelLayerMap.read map key = (some target, map) := by
  cases hfind : LevelLayerMap.find map key with
  | none => rw [hfind] at hfound; exact absurd hfound (by simp)
  | some value =>
    have hsome := find_isSome_of_all map key value hall hfind
    cases value with
    | none => exact absurd hsome (by simp)
    | some target => exact ⟨target, LevelLayerMap.read_of_find map key _ hfind⟩

theorem read_assign_self {α : Type} (map : LevelLayerMap α) (key : LevelLayerKey)
    (value : Option α) :
    LevelLayerMap.read (LevelLayerMap.assign map key value) key
      = (value, LevelLayerMap.assign map key value) :=
  LevelLayerMap.read_of_find _ _ _ (LevelLayerMap.find_assign_self map key value)

theorem getRenderTarget2D_target (s : TextureStorage11) (index : ImageIndex)
    (hformat : s.mUseLevelZeroTexture = true ∨ s.mRenderTargetFormat ≠ DXGI_FORMAT_UNKNOWN ∨
      s.mDepthStencilFormat ≠ DXGI_FORMAT_UNKNOWN)
    (hrange : s.mUseLevelZeroTexture = true ∨
      (0 ≤ index.mipIndex ∧ index.mipIndex < s.mRenderTarget.length))
    (hok : (getRenderTarget2D s index).1.isError = false) :
    ∃ target : RenderTarget11, (getRenderTarget2D s index).2.1 = some target := by
  revert hok
  unfold getRenderTarget2D
  dsimp only
  by_cases huse : s.mUseLevelZeroTexture = true
  · rw [if_pos huse]
    cases hheld : s.mLevelZeroRenderTarget with
    | some held =>
      intro _
      exact ⟨held, by simp⟩
    | none =>
      simp only [Option.isNone_none, if_true]
      split_ifs
      · exact fun h => absurd (show outOfMemory.isError = false from h) (by decide)
      · exact fun _ => ⟨_, rfl⟩
  · rw [if_neg huse]
    have hr : 0 ≤ index.mipIndex ∧ index.mipIndex < s.mRenderTarget.length := by
      rcases hrange with h | h
      · exact absurd h huse
      · exact h
    have hfmt : s.mRenderTargetFormat ≠ DXGI_FORMAT_UNKNOWN ∨
        s.mDepthStencilFormat ≠ DXGI_FORMAT_UNKNOWN := by
      rcases hformat with h | h
      · exact absurd h huse
      · exact h
    have hviewed : ∃ renderer levelSRVs,
        (if (!decide (s.mRenderer.featureLevel ≤ D3D_FEATURE_LEVEL_9_3)) = true then
            getSRVLevel s index.mipIndex
          else (noError, none, s)).2.2
          = { s with mRenderer := renderer, mLevelSRVs := levelSRVs } := by
      split_ifs
      · obtain ⟨r, l, h, _⟩ := getSRVLevel_viewCalls s index.mipIndex
        exact ⟨r, l, h⟩
      · exact ⟨_, _, rfl⟩
    generalize (if (!decide (s.mRenderer.featureLevel ≤ D3D_FEATURE_LEVEL_9_3)) = true then
        getSRVLevel s index.mipIndex else (noError, none, s)) = viewed at hviewed ⊢
    obtain ⟨err, srv, s1⟩ := viewed
    obtain ⟨renderer, levelSRVs, hs1⟩ := hviewed
    simp only at hs1
    subst hs1
    dsimp only
    split_ifs with hcached herr hrt hfail hdepth hfail2
    · intro h
      have h2 : err.isError = false := h
      rw [h2] at herr
      exact absurd herr (by decide)
    · exact fun h => absurd (show outOfMemory.isError = false from h) (by decide)
    · exact fun _ => ⟨_, ptrAt_setAt_self _ _ _ hr.1 hr.2⟩
    · exact fun h => absurd (show outOfMemory.isError = false from h) (by decide)
    · exact fun _ => ⟨_, ptrAt_setAt_self _ _ _ hr.1 hr.2⟩
    · rcases hfmt with h | h
      · exact absurd h hrt
      · exact absurd h hdepth
    · intro _
      cases hslot : ptrAt s.mRenderTarget index.mipIndex with
      | none => rw [hslot] at hcached; exact absurd rfl hcached
      | some target => exact ⟨target, rfl⟩

theorem getRenderTargetCube_target (s : TextureStorage11) (index : ImageIndex)
    (hformat : s.mRenderTargetFormat ≠ DXGI_FORMAT_UNKNOWN ∨
      s.mDepthStencilFormat ≠ DXGI_FORMAT_UNKNOWN)
    (hrange : (0 ≤ index.layerIndex ∧ index.layerIndex.toNat < s.mRenderTargetCube.length) ∧
      0 ≤ index.mipIndex ∧
      index.mipIndex < (rowAt s.mRenderTargetCube index.layerIndex).length)
    (hok : (getRenderTargetCube s index).1.isError = false) :
    ∃ target : RenderTarget11, (getRenderTargetCube s index).2.1 = some target := by
  revert hok
  unfold getRenderTargetCube
  dsimp only
  obtain ⟨⟨hf0, hf1⟩, hl0, hl1⟩ := hrange
  split_ifs with hcached hview hrt hfail hdepth hfail2
  · exact fun h => absurd (show outOfMemory.isError = false from h) (by decide)
  · exact fun h => absurd (show outOfMemory.isError = false from h) (by decide)
  · exact fun _ => ⟨_, ptrAt2_setAt2_self _ _ _ _ hf0 hf1 hl0 hl1⟩
  · exact fun h => absurd (show outOfMemory.isError = false from h) (by decide)
  · exact fun _ => ⟨_, ptrAt2_setAt2_self _ _ _ _ hf0 hf1 hl0 hl1⟩
  · rcases hformat with h | h
    · exact absurd h hrt
    · exact absurd h hdepth
  · intro _
    cases hslot : ptrAt2 s.mRenderTargetCube index.layerIndex index.mipIndex with
    | none => rw [hslot] at hcached; exact absurd rfl hcached
    | some target => exact ⟨target, rfl⟩

theorem getRenderTarget3D_target (s : TextureStorage11) (index : ImageIndex)
    (hrange : index.hasLayer = true ∨
      (0 ≤ index.mipIndex ∧ index.mipIndex < s.mLevelRenderTargets.length))
    (hnull : noNullTargets s = true)
    (hok : (getRenderTarget3D s index).1.isError = false) :
    (∃ target : RenderTarget11, (getRenderTarget3D s index).2.1 = some target) ∧
    noNullTargets (getRenderTarget3D s index).2.2 = true := by
  unfold noNullTargets at hnull
  rw [Bool.and_eq_true] at hnull
  revert hok
  unfold getRenderTarget3D
  dsimp only
  by_cases hlayer : index.hasLayer = true
  · rw [if_neg (by simp [hlayer])]
    split_ifs with hfound hfail
    · exact fun h => absurd (show outOfMemory.isError = false from h) (by decide)
    · intro _
      rw [read_assign_self]
      refine ⟨⟨_, rfl⟩, ?_⟩
      unfold noNullTargets
      dsimp only
      rw [Bool.and_eq_true]
      exact ⟨all_isSome_assign _ _ _ hnull.1, hnull.2⟩
    · intro _
      obtain ⟨target, hread⟩ := read_of_all s.mLevelLayerRenderTargets
        { first := index.mipIndex, second := index.layerIndex } hnull.1
        (Bool.eq_false_iff.mpr hfound)
      rw [hread]
      refine ⟨⟨target, rfl⟩, ?_⟩
      unfold noNullTargets
      dsimp only
      rw [Bool.and_eq_true]
      exact hnull
  · rw [if_pos (by simp [hlayer])]
    have hr : 0 ≤ index.mipIndex ∧ index.mipIndex < s.mLevelRenderTargets.length := by
      rcases hrange with h | h
      · exact absurd h hlayer
      · exact h
    obtain ⟨renderer, levelSRVs, hs1, _⟩ := getSRVLevel_viewCalls s index.mipIndex
    generalize getSRVLevel s index.mipIndex = viewed at hs1 ⊢
    obtain ⟨err, srv, s1⟩ := viewed
    simp only at hs1
    subst hs1
    dsimp only
    split_ifs with hcached herr hfail
    · intro h
      have h2 : err.isError = false := h
      rw [h2] at herr
      exact absurd herr (by decide)
    · exact fun h => absurd (show outOfMemory.isError = false from h) (by decide)
    · intro _
      refine ⟨⟨_, ptrAt_setAt_self _ _ _ hr.1 hr.2⟩, ?_⟩
      unfold noNullTargets
      dsimp only
      rw [Bool.and_eq_true]
      exact hnull
    · intro _
      refine ⟨?_, ?_⟩
      · cases hslot : ptrAt s.mLevelRenderTargets index.mipIndex with
        | none => rw [hslot] at hcached; exact absurd rfl hcached
        | some target => exact ⟨target, rfl⟩
      · unfold noNullTargets
        dsimp only
        rw [Bool.and_eq_true]
        exact hnull

theorem getRenderTarget2DArray_target (s : TextureStorage11) (index : ImageIndex)
    (hformat : s.mRenderTargetFormat ≠ DXGI_FORMAT_UNKNOWN)
    (hnull : noNullTargets s = true)
    (hok : (getRenderTarget2DArray s index).1.isError = false) :
    (∃ target : RenderTarget11, (getRenderTarget2DArray s index).2.1 = some target) ∧
    noNullTargets (getRenderTarget2DArray s index).2.2 = true := by
  unfold noNullTargets at hnull
  rw [Bool.and_eq_true] at hnull
  revert hok
  unfold getRenderTarget2DArray
  dsimp only
  split_ifs with hfound hview hfail
  · exact fun h => absurd (show outOfMemory.isError = false from h) (by decide)
  · exact fun h => absurd (show outOfMemory.isError = false from h) (by decide)
  · intro _
    rw [read_assign_self]
    refine ⟨⟨_, rfl⟩, ?_⟩
    unfold noNullTargets
    dsimp only
    rw [Bool.and_eq_true]
    exact ⟨hnull.1, all_isSome_assign _ _ _ hnull.2⟩
  · intro _
    obtain ⟨target, hread⟩ := read_of_all s.mRenderTargets
      { first := index.mipIndex, second := index.layerIndex } hnull.2
      (Bool.eq_false_iff.mpr hfound)
    rw [hread]
    refine ⟨⟨target, rfl⟩, ?_⟩
    unfold noNullTargets
    dsimp only
    rw [Bool.and_eq_true]
    exact hnull

/-! ## The copy of `updateSubresourceLevel` -/

/-- The test `fullCopy` holds exactly when the origin of the area is (0,0,0) and its extents
are the given ones. -/
theorem fullCopy_iff (copyArea : Box) (texSize : Extents) :
    fullCopy copyArea texSize = true ↔
      (copyArea.x = 0 ∧ copyArea.y = 0 ∧ copyArea.z = 0 ∧
        copyArea.width = texSize.width ∧ copyArea.height = texSize.height ∧
        copyArea.depth = texSize.depth) := by
  unfold fullCopy
  simp only [Bool.and_eq_true, beq_iff_eq, and_assoc]

/-- The one copy `updateSubresourceLevel` adds to the log, in terms of its local `fullCopy`. -/
theorem updateSubresourceLevel_copies (s : TextureStorage11) (srcTexture : Option Texture)
    (sourceSubresource : Nat) (index : ImageIndex) (copyArea : Box) :
    (updateSubresourceLevel s srcTexture sourceSubresource index copyArea).2.mRenderer.calls.filter
        isCopyCall =
      (if fullCopy copyArea
            { width := s.getLevelWidth index.mipIndex, height := s.getLevelHeight index.mipIndex,
              depth := s.getLevelDepth index.mipIndex } = false ∧
          (0 < s.mRenderer.depthBits s.mTextureFormat ∨
            0 < s.mRenderer.stencilBits s.mTextureFormat) then
        NativeCall.copyDepthStencil srcTexture sourceSubresource copyArea
          { width := s.getLevelWidth index.mipIndex, height := s.getLevelHeight index.mipIndex,
            depth := s.getLevelDepth index.mipIndex }
          (getResourceLevel (s.invalidateSwizzleCacheLevel index.mipIndex) index.mipIndex).1
          ((getResourceLevel (s.invalidateSwizzleCacheLevel index.mipIndex)
            index.mipIndex).2.getSubresourceIndex index)
          copyArea
          { width := s.getLevelWidth index.mipIndex, height := s.getLevelHeight index.mipIndex,
            depth := s.getLevelDepth index.mipIndex }
          (getResourceLevel (s.invalidateSwizzleCacheLevel index.mipIndex)
            index.mipIndex).2.mRenderer.nextResult
      else
        NativeCall.CopySubresourceRegion
          (getResourceLevel (s.invalidateSwizzleCacheLevel index.mipIndex) index.mipIndex).1
          ((getResourceLevel (s.invalidateSwizzleCacheLevel index.mipIndex)
            index.mipIndex).2.getSubresourceIndex index)
          (toUINT copyArea.x) (toUINT copyArea.y) (toUINT copyArea.z) srcTexture
          sourceSubresource
          (if fullCopy copyArea
              { width := s.getLevelWidth index.mipIndex,
                height := s.getLevelHeight index.mipIndex,
                depth := s.getLevelDepth index.mipIndex } then none
            else some (updateSourceBox
              (getResourceLevel (s.invalidateSwizzleCacheLevel index.mipIndex)
                index.mipIndex).2 copyArea)))
      :: s.mRenderer.calls.filter isCopyCall := by
  have hinv := invalidateSwizzleCacheLevel_writes s index.mipIndex
  generalize (invalidateSwizzleCacheLevel s index.mipIndex).mSwizzleCache = cache at hinv
  obtain ⟨hformat, hdepth, hstencil, hcalls⟩ :=
    getResourceLevel_frame (s.invalidateSwizzleCacheLevel index.mipIndex) index.mipIndex
  unfold updateSubresourceLevel
  dsimp only
  rw [hformat, hdepth, hstencil]
  rw [hinv] at hcalls ⊢
  have hcalls2 : (getResourceLevel { s with mSwizzleCache := cache }
      index.mipIndex).2.mRenderer.calls.filter isCopyCall
        = s.mRenderer.calls.filter isCopyCall := hcalls
  generalize getResourceLevel { s with mSwizzleCache := cache } index.mipIndex = looked
    at hcalls2 ⊢
  have hw : getLevelWidth { s with mSwizzleCache := cache } index.mipIndex
      = s.getLevelWidth index.mipIndex := rfl
  have hh : getLevelHeight { s with mSwizzleCache := cache } index.mipIndex
      = s.getLevelHeight index.mipIndex := rfl
  have hd : getLevelDepth { s with mSwizzleCache := cache } index.mipIndex
      = s.getLevelDepth index.mipIndex := rfl
  rw [hw, hh, hd]
  generalize fullCopy copyArea
    { width := s.getLevelWidth index.mipIndex, height := s.getLevelHeight index.mipIndex,
      depth := s.getLevelDepth index.mipIndex } = full
  by_cases hbits : 0 < s.mRenderer.depthBits s.mTextureFormat ∨
      0 < s.mRenderer.stencilBits s.mTextureFormat
  · have hdec : (decide (s.mRenderer.depthBits s.mTextureFormat > 0) ||
        decide (s.mRenderer.stencilBits s.mTextureFormat > 0)) = true := by
      simpa using hbits
    cases full
    · simp only [hdec, Bool.not_false, Bool.and_self, if_true, hbits, and_self]
      unfold copyDepthStencil
      dsimp only
      split_ifs <;> simp [Renderer11.record, isCopyCall, List.filter, hcalls2]
    · simp only [Bool.not_true, Bool.false_and, Bool.false_eq_true, if_false, false_and,
        if_true]
      simp [Renderer11.note, isCopyCall, List.filter, hcalls2]
  · have hdec : (decide (s.mRenderer.depthBits s.mTextureFormat > 0) ||
        decide (s.mRenderer.stencilBits s.mTextureFormat > 0)) = false := by
      simpa using hbits
    simp only [hdec, Bool.and_false, Bool.false_eq_true, if_false, hbits, and_false]
    simp [Renderer11.note, isCopyCall, List.filter, hcalls2]

/-! ## Requests for distinct slots do not share a cache entry -/

/-- C1. When the storage has a physical resource, `getSubresourceIndex` returns
`(level + topLevel) + arraySlice * totalMipLevels` computed on unsigned 32-bit values (that
is, modulo `2^32`), where `arraySlice` is the layer of the index when it carries one and 0
otherwise. -/
theorem getSubresourceIndex_formula (s : TextureStorage11) (index : ImageIndex)
    (hres : s.getResource.isSome = true) :
    ((s.getSubresourceIndex index : Nat) : Int) =
      ((index.mipIndex + s.mTopLevel) + layerOf index * (s.mMipLevels : Int))
        % 4294967296 :=
  getSubresourceIndex_cast s index hres

theorem getSubresourceIndex_formula_witness :
    cube16.getResource.isSome = true ∧
    ((cube16.getSubresourceIndex { mipIndex := 2, layerIndex := 4, layered := true } : Nat) : Int)
      = ((2 + cube16.mTopLevel) +
          layerOf { mipIndex := 2, layerIndex := 4, layered := true } * (cube16.mMipLevels : Int))
        % 4294967296 :=
  ⟨by decide, getSubresourceIndex_formula cube16 _ (by decide)⟩

/-- C2. On a storage with a physical resource, `getSubresourceIndex` is injective on valid
indices: two indices whose levels are in `[0, getLevelCount())` and whose layers are in
`[0, layers)` (an absent layer counting as 0), `layers` being any layer bound whose
subresources fit a `UINT`, have equal subresource indices only if their levels and their
layers are equal. -/
theorem getSubresourceIndex_injective (s : TextureStorage11) (layers : Nat)
    (i j : ImageIndex) (hres : s.getResource.isSome = true) (hs : s.Representable)
    (hfit : layers * s.mMipLevels ≤ 4294967296)
    (hi : s.ValidIndex layers i) (hj : s.ValidIndex layers j)
    (heq : s.getSubresourceIndex i = s.getSubresourceIndex j) :
    i.mipIndex = j.mipIndex ∧ layerOf i = layerOf j := by
  obtain ⟨ei, li⟩ := getSubresourceIndex_valid s layers i hres hs hfit hi
  obtain ⟨ej, lj⟩ := getSubresourceIndex_valid s layers j hres hs hfit hj
  rw [heq] at ei
  rw [ej] at ei
  have hi0 := hi.1
  have hj0 := hj.1
  have htop := hs.1
  have hlayer : layerOf i = layerOf j := by
    rcases lt_trichotomy (layerOf i) (layerOf j) with h | h | h
    · exfalso
      have : (layerOf i + 1) * (s.mMipLevels : Int) ≤ layerOf j * (s.mMipLevels : Int) :=
        mul_le_mul_of_nonneg_right (by omega) (by omega)
      nlinarith
    · exact h
    · exfalso
      have : (layerOf j + 1) * (s.mMipLevels : Int) ≤ layerOf i * (s.mMipLevels : Int) :=
        mul_le_mul_of_nonneg_right (by omega) (by omega)
      nlinarith
  refine ⟨?_, hlayer⟩
  rw [hlayer] at ei
  omega

theorem getSubresourceIndex_injective_witness :
    cube16.getSubresourceIndex { mipIndex := 1, layerIndex := 0, layered := true }
      = cube16.getSubresourceIndex { mipIndex := 1, layerIndex := 7, layered := false } ∧
    layerOf { mipIndex := 1, layerIndex := 0, layered := true }
      = layerOf { mipIndex := 1, layerIndex := 7, layered := false } :=
  ⟨by decide, (getSubresourceIndex_injective cube16 6
    { mipIndex := 1, layerIndex := 0, layered := true }
    { mipIndex := 1, layerIndex := 7, layered := false }
    (by decide) (by decide) (by decide) (by decide) (by decide) (by decide)).2⟩

/-- C3. After a successful `getSRV`, and after any cache operations in between
(`generateSwizzles`, `invalidateSwizzleCacheLevel`, `invalidateSwizzleCache`, `getSRVLevel`,
other `getSRV` calls), a `getSRV` on the same storage whose sampler state resolves to the
same key `(baseLevel, mipLevels, swizzleRequired)` succeeds, returns the identical view,
asks the device for no shader-view creation, and leaves the shader-view cache unchanged. -/
theorem getSRV_same_key (s : TextureStorage11) (first second : SamplerState)
    (ops : List CacheOp)
    (hok : (getSRV s first).1.isError = false)
    (hkey : getSRVKey (applyOps ops (getSRV s first).2.2) second = getSRVKey s first) :
    (getSRV (applyOps ops (getSRV s first).2.2) second).1 = noError ∧
    (getSRV (applyOps ops (getSRV s first).2.2) second).2.1 = (getSRV s first).2.1 ∧
    srvCreations (getSRV (applyOps ops (getSRV s first).2.2) second).2.2
      = srvCreations (applyOps ops (getSRV s first).2.2) ∧
    (getSRV (applyOps ops (getSRV s first).2.2) second).2.2.mSrvCache
      = (applyOps ops (getSRV s first).2.2).mSrvCache := by
  have hcached := applyOps_keeps_cached ops _ _ _ (getSRV_cached s first hok)
  rw [← hkey] at hcached
  obtain ⟨h1, h2, h3, h4⟩ := getSRV_hit _ second _ hcached
  exact ⟨h1, h2, h4, h3⟩

theorem getSRV_same_key_witness :
    (getSRV storage256 samplerMipmapped).1.isError = false ∧
    getSRVKey (applyOps [CacheOp.getSRV samplerFlat, CacheOp.getSRVLevel 0]
        (getSRV storage256 samplerMipmapped).2.2) samplerMipmapped
      = getSRVKey storage256 samplerMipmapped ∧
    (getSRV (applyOps [CacheOp.getSRV samplerFlat, CacheOp.getSRVLevel 0]
        (getSRV storage256 samplerMipmapped).2.2) samplerMipmapped).2.1
      = (getSRV storage256 samplerMipmapped).2.1 ∧
    srvCreations (getSRV (applyOps [CacheOp.getSRV samplerFlat, CacheOp.getSRVLevel 0]
        (getSRV storage256 samplerMipmapped).2.2) samplerMipmapped).2.2
      = srvCreations (applyOps [CacheOp.getSRV samplerFlat, CacheOp.getSRVLevel 0]
        (getSRV storage256 samplerMipmapped).2.2) :=
  ⟨by decide, by decide,
    (getSRV_same_key storage256 samplerMipmapped samplerMipmapped
      [CacheOp.getSRV samplerFlat, CacheOp.getSRVLevel 0] (by decide) (by decide)).2.1,
    (getSRV_same_key storage256 samplerMipmapped samplerMipmapped
      [CacheOp.getSRV samplerFlat, CacheOp.getSRVLevel 0] (by decide) (by decide)).2.2.1⟩

/-- C4. Two keys that differ in a component are distinct for the cache: `SRVKey::operator<`
is a strict (irreflexive, transitive) order that puts one of them before the other.  When
the first key is cached and a `getSRV` for a second, not yet cached key succeeds, the device
was asked for exactly one more shader view, the cache holds one more entry (the second key
with the new view), the view cached for the first key is still cached for it, and a later
`getSRV` resolving to the first key (after any cache operations in between) returns that
view without a creation. -/
theorem getSRV_distinct_key (s : TextureStorage11) (first : SRVKey)
    (view : Option ShaderResourceView) (second : SamplerState)
    (hfirst : s.mSrvCache.find first = some view)
    (hne : getSRVKey s second ≠ first)
    (hmiss : s.mSrvCache.find (getSRVKey s second) = none)
    (hok : (getSRV s second).1.isError = false) :
    (first.lt (getSRVKey s second) = true ∨ (getSRVKey s second).lt first = true) ∧
    (∀ a : SRVKey, a.lt a = false) ∧
    (∀ a b c : SRVKey, a.lt b = true → b.lt c = true → a.lt c = true) ∧
    srvCreations (getSRV s second).2.2 = srvCreations s + 1 ∧
    (getSRV s second).2.2.mSrvCache.length = s.mSrvCache.length + 1 ∧
    (getSRV s second).2.2.mSrvCache.find (getSRVKey s second) = some (getSRV s second).2.1 ∧
    (getSRV s second).2.2.mSrvCache.find first = some view ∧
    ∀ (ops : List CacheOp) (later : SamplerState),
      getSRVKey (applyOps ops (getSRV s second).2.2) later = first →
      (getSRV (applyOps ops (getSRV s second).2.2) later).1 = noError ∧
      (getSRV (applyOps ops (getSRV s second).2.2) later).2.1 = view ∧
      srvCreations (getSRV (applyOps ops (getSRV s second).2.2) later).2.2
        = srvCreations (applyOps ops (getSRV s second).2.2) := by
  obtain ⟨hcache, hcount, _⟩ := getSRV_miss s second hmiss hok
  have hstay : (getSRV s second).2.2.mSrvCache.find first = some view := by
    rw [hcache, SRVCache.find_insert_other _ _ _ _ (Ne.symm hne), hfirst]
  refine ⟨SRVKey.lt_or_lt_of_ne (Ne.symm hne), SRVKey.lt_irrefl,
    fun a b c hab hbc => SRVKey.lt_trans hab hbc, hcount, ?_, getSRV_cached s second hok,
    hstay, ?_⟩
  · rw [hcache, SRVCache.length_insert _ _ _ hmiss]
  · intro ops later hlater
    have hlate := applyOps_keeps_cached ops _ _ _ hstay
    rw [← hlater] at hlate
    obtain ⟨h1, h2, _, h4⟩ := getSRV_hit _ later _ hlate
    exact ⟨h1, h2, h4⟩

theorem getSRV_distinct_key_witness :
    (getSRV storage256 samplerMipmapped).2.2.mSrvCache.find
        (getSRVKey storage256 samplerMipmapped) = some (getSRV storage256 samplerMipmapped).2.1 ∧
    getSRVKey (getSRV storage256 samplerMipmapped).2.2 samplerFlat
      ≠ getSRVKey storage256 samplerMipmapped ∧
    srvCreations (getSRV (getSRV storage256 samplerMipmapped).2.2 samplerFlat).2.2
      = srvCreations (getSRV storage256 samplerMipmapped).2.2 + 1 ∧
    (getSRV (getSRV storage256 samplerMipmapped).2.2 samplerFlat).2.2.mSrvCache.find
        (getSRVKey storage256 samplerMipmapped) = some (getSRV storage256 samplerMipmapped).2.1 :=
  ⟨by decide, by decide,
    (getSRV_distinct_key (getSRV storage256 samplerMipmapped).2.2
      (getSRVKey storage256 samplerMipmapped) (getSRV storage256 samplerMipmapped).2.1
      samplerFlat (by decide) (by decide) (by decide) (by decide)).2.2.2.1,
    (getSRV_distinct_key (getSRV storage256 samplerMipmapped).2.2
      (getSRVKey storage256 samplerMipmapped) (getSRV storage256 samplerMipmapped).2.1
      samplerFlat (by decide) (by decide) (by decide) (by decide)).2.2.2.2.2.2.1⟩

/-- C5. The mip count `getSRV` uses is `min(r, totalMipLevels - topLevel - baseLevel)` on
unsigned 32-bit values, `r` being `maxLevel - baseLevel` for a mip-filtered sampler and 1
otherwise: after a successful call the cache holds the view handed out under the key with
that count (read as the `int` the key stores), and on a cache miss the view handed out is
the one `createSRV` made for that count, with that many mips (a cube storage with an integer
format gets a single mip from its `createSRV`).  A 5-level 2D storage with `topLevel = 0`
asked for `baseLevel = 0`, `maxLevel = 4` gets a view of 4 mips under the key `(0, 4, false)`
with mip filtering and a view of 1 mip under the key `(0, 1, false)` without. -/
theorem getSRV_mipLevels (s : TextureStorage11) (samplerState : SamplerState)
    (hok : (getSRV s samplerState).1.isError = false) :
    (getSRV s samplerState).2.2.mSrvCache.find
        { baseLevel := samplerState.baseLevel
          mipLevels := toInt32
            (min (if IsMipmapFiltered samplerState = true then
                    toUINT (samplerState.maxLevel - samplerState.baseLevel) else 1)
              (toUINT ((s.mMipLevels : Int) - s.mTopLevel - samplerState.baseLevel)))
          swizzle := samplerState.swizzleRequired }
      = some (getSRV s samplerState).2.1 ∧
    (s.mSrvCache.find (getSRVKey s samplerState) = none →
      (∃ (working : TextureStorage11) (format : DXGI_FORMAT) (texture : Option Texture),
        working.shape = s.shape ∧
        (getSRV s samplerState).2.1 =
          (createSRV working samplerState.baseLevel
            (toInt32
              (min (if IsMipmapFiltered samplerState = true then
                      toUINT (samplerState.maxLevel - samplerState.baseLevel) else 1)
                (toUINT ((s.mMipLevels : Int) - s.mTopLevel - samplerState.baseLevel))))
            format texture).2.1) ∧
      ∃ view, (getSRV s samplerState).2.1 = some view ∧
        view.desc.MipLevels =
          if s.shape = Shape.Cube ∧ s.mRenderer.isIntegerFormat view.desc.Format = true then 1
          else min (if IsMipmapFiltered samplerState = true then
                      toUINT (samplerState.maxLevel - samplerState.baseLevel) else 1)
                (toUINT ((s.mMipLevels : Int) - s.mTopLevel - samplerState.baseLevel))) ∧
    mipRangeOf (getSRV storage256 samplerMipmapped).2.1 = some (0, 4) ∧
    (getSRV storage256 samplerMipmapped).2.2.mSrvCache.map Prod.fst
      = [{ baseLevel := 0, mipLevels := 4, swizzle := false }] ∧
    mipRangeOf (getSRV storage256 samplerFlat).2.1 = some (0, 1) ∧
    (getSRV storage256 samplerFlat).2.2.mSrvCache.map Prod.fst
      = [{ baseLevel := 0, mipLevels := 1, swizzle := false }] := by
  refine ⟨getSRV_cached s samplerState hok, ?_, by decide, by decide, by decide, by decide⟩
  intro hmiss
  obtain ⟨_, _, hview, hcreated⟩ := getSRV_miss s samplerState hmiss hok
  exact ⟨hcreated, hview⟩

theorem getSRV_mipLevels_witness :
    (getSRV storage256 samplerMipmapped).1.isError = false ∧
    (getSRV storage256 samplerMipmapped).2.2.mSrvCache.find
        { baseLevel := 0, mipLevels := 4, swizzle := false }
      = some (getSRV storage256 samplerMipmapped).2.1 :=
  ⟨by decide, (getSRV_mipLevels storage256 samplerMipmapped (by decide)).1⟩

/-- C6, counterexample. On a cube storage with an integer view format, `createSRV` asked
for 3 mips from base level 0 succeeds with a view whose mip range is `(0, 1)`: its mip count
is 1, not the requested 3. -/
theorem createSRV_cube_integer_single_mip :
    (createSRV cubeInteger 0 3 30 cubeInteger.mTexture).1 = noError ∧
    mipRangeOf (createSRV cubeInteger 0 3 30 cubeInteger.mTexture).2.1 = some (0, 1) ∧
    mipRangeOf (createSRV cubeInteger 0 3 30 cubeInteger.mTexture).2.1 ≠
      some (toUINT (cubeInteger.mTopLevel + 0), toUINT 3) := by
  decide

/-- C6, amended. The view a successful `createSRV(baseLevel, mipLevels, ...)` builds has most
detailed mip `topLevel + baseLevel` and mip count `mipLevels` (as `UINT`s) on a 2D storage,
on a 2D-Array storage, on a Cube storage above feature level 9_3 whose view format is not an
integer format, and on a 3D storage above feature level 9_3 whose level offset is 0; on a
Cube storage above feature level 9_3 whose view format is an integer format it has most
detailed mip `topLevel + baseLevel` and mip count 1. -/
theorem createSRV_mip_range (s : TextureStorage11) (baseLevel mipLevels : Int)
    (format : DXGI_FORMAT) (texture : Option Texture)
    (hok : (createSRV s baseLevel mipLevels format texture).1.isError = false) :
    ∃ view, (createSRV s baseLevel mipLevels format texture).2.1 = some view ∧
      ((s.shape = Shape.Texture2D ∨ s.shape = Shape.Texture2DArray ∨
          (s.shape = Shape.Cube ∧ D3D_FEATURE_LEVEL_9_3 < s.mRenderer.featureLevel ∧
            s.mRenderer.isIntegerFormat format = false) ∨
          (s.shape = Shape.Texture3D ∧ D3D_FEATURE_LEVEL_9_3 < s.mRenderer.featureLevel ∧
            s.mTopLevel = 0)) →
        view.desc.MostDetailedMip = toUINT (s.mTopLevel + baseLevel) ∧
        view.desc.MipLevels = toUINT mipLevels) ∧
      (s.shape = Shape.Cube ∧ D3D_FEATURE_LEVEL_9_3 < s.mRenderer.featureLevel ∧
          s.mRenderer.isIntegerFormat format = true →
        view.desc.MostDetailedMip = toUINT (s.mTopLevel + baseLevel) ∧
        view.desc.MipLevels = 1) := by
  obtain ⟨view, hv, hdesc, _⟩ := createSRV_success s baseLevel mipLevels format texture hok
  refine ⟨view, hv, ?_, ?_⟩
  · rintro (h | h | ⟨h, hfl, hint⟩ | ⟨h, hfl, htop⟩)
    · rw [hdesc]; unfold createSRVDesc; rw [h]; exact ⟨rfl, rfl⟩
    · rw [hdesc]; unfold createSRVDesc; rw [h]; exact ⟨rfl, rfl⟩
    · rw [hdesc]; unfold createSRVDesc; rw [h]
      simp [srvDescCube, hint, not_le.mpr hfl]
    · rw [hdesc]; unfold createSRVDesc; rw [h]
      unfold srvDesc3D
      dsimp only
      rw [htop, zero_add]
      cases texture with
      | none => exact ⟨rfl, rfl⟩
      | some t =>
        dsimp only
        rw [if_neg (not_le.mpr hfl)]
        exact ⟨rfl, rfl⟩
  · rintro ⟨h, hfl, hint⟩
    rw [hdesc]; unfold createSRVDesc; rw [h]
    simp [srvDescCube, hint, not_le.mpr hfl]

theorem createSRV_mip_range_witness :
    (createSRV cube16 1 2 28 cube16.mTexture).1.isError = false ∧
    ∃ view, (createSRV cube16 1 2 28 cube16.mTexture).2.1 = some view ∧
      ((cube16.shape = Shape.Texture2D ∨ cube16.shape = Shape.Texture2DArray ∨
          (cube16.shape = Shape.Cube ∧ D3D_FEATURE_LEVEL_9_3 < cube16.mRenderer.featureLevel ∧
            cube16.mRenderer.isIntegerFormat 28 = false) ∨
          (cube16.shape = Shape.Texture3D ∧
            D3D_FEATURE_LEVEL_9_3 < cube16.mRenderer.featureLevel ∧ cube16.mTopLevel = 0)) →
        view.desc.MostDetailedMip = toUINT (cube16.mTopLevel + 1) ∧
        view.desc.MipLevels = toUINT 2) ∧
      (cube16.shape = Shape.Cube ∧ D3D_FEATURE_LEVEL_9_3 < cube16.mRenderer.featureLevel ∧
          cube16.mRenderer.isIntegerFormat 28 = true →
        view.desc.MostDetailedMip = toUINT (cube16.mTopLevel + 1) ∧
        view.desc.MipLevels = 1) :=
  ⟨by decide, createSRV_mip_range cube16 1 2 28 cube16.mTexture (by decide)⟩

/-- C7. Once `getSRVLevel(level)` has succeeded for a level in `[0, getLevelCount())`, every
later `getSRVLevel(level)`, after any sequence of cache operations (`generateSwizzles`,
`invalidateSwizzleCacheLevel`, `invalidateSwizzleCache`, `getSRVLevel`, `getSRV`), succeeds
with the same view and changes nothing (so it creates no view); and no cache operation, the
three swizzle operations among them, replaces or clears a cached per-level view.  The
per-level array is assumed to hold all the levels of the storage. -/
theorem getSRVLevel_stable (s : TextureStorage11) (level : Int) (h0 : 0 ≤ level)
    (h1 : level < s.getLevelCount) (hfit : s.getLevelCount ≤ s.mLevelSRVs.length)
    (hok : (getSRVLevel s level).1.isError = false) (ops : List CacheOp) :
    (∃ view, (getSRVLevel s level).2.1 = some view) ∧
    getSRVLevel (applyOps ops (getSRVLevel s level).2.2) level =
      (noError, (getSRVLevel s level).2.1, applyOps ops (getSRVLevel s level).2.2) ∧
    (∀ (op : CacheOp) (t : TextureStorage11) (l : Int) (view : ShaderResourceView),
      ptrAt t.mLevelSRVs l = some view → ptrAt (op.apply t).mLevelSRVs l = some view) := by
  obtain ⟨view, hv, hcached⟩ := getSRVLevel_success s level h0 (by omega) hok
  refine ⟨⟨view, hv⟩, ?_, fun op t l view h => apply_keeps op t l view h⟩
  rw [hv]
  exact getSRVLevel_cached _ level view (applyOps_keeps ops _ level view hcached)

theorem getSRVLevel_stable_witness :
    (getSRVLevel cube16 1).1.isError = false ∧
    (getSRVLevel (applyOps
        [CacheOp.generateSwizzles GL_RED GL_GREEN GL_BLUE GL_ALPHA,
          CacheOp.invalidateSwizzleCacheLevel 1, CacheOp.invalidateSwizzleCache,
          CacheOp.getSRVLevel 2, CacheOp.getSRV samplerMipmapped]
        (getSRVLevel cube16 1).2.2) 1).2.1 = (getSRVLevel cube16 1).2.1 :=
  ⟨by decide,
    congrArg (fun result => result.2.1)
      (getSRVLevel_stable cube16 1 (by decide) (by decide) (by decide) (by decide)
        [CacheOp.generateSwizzles GL_RED GL_GREEN GL_BLUE GL_ALPHA,
          CacheOp.invalidateSwizzleCacheLevel 1, CacheOp.invalidateSwizzleCache,
          CacheOp.getSRVLevel 2, CacheOp.getSRV samplerMipmapped]).2.1⟩

/-- C8. Swizzle idempotence: when `generateSwizzles(r, g, b, a)` has succeeded, an
immediately following `generateSwizzles(r, g, b, a)` succeeds and leaves the storage as it
is: it performs no blit and the per-level swizzle state is unchanged.  The swizzle cache is
assumed to hold all the levels of the storage. -/
theorem generateSwizzles_idempotent (s : TextureStorage11) (red green blue alpha : GLenum)
    (hfit : s.getLevelCount ≤ s.mSwizzleCache.length)
    (hok : (generateSwizzles s red green blue alpha).1.isError = false) :
    generateSwizzles (generateSwizzles s red green blue alpha).2 red green blue alpha =
      (noError, (generateSwizzles s red green blue alpha).2) ∧
    swizzleBlits
        (generateSwizzles (generateSwizzles s red green blue alpha).2 red green blue alpha).2 =
      swizzleBlits (generateSwizzles s red green blue alpha).2 ∧
    (generateSwizzles (generateSwizzles s red green blue alpha).2
        red green blue alpha).2.mSwizzleCache =
      (generateSwizzles s red green blue alpha).2.mSwizzleCache := by
  obtain ⟨hcount, htarget⟩ := generateSwizzles_targets s red green blue alpha hfit hok
  have hsecond : generateSwizzles (generateSwizzles s red green blue alpha).2
      red green blue alpha = (noError, (generateSwizzles s red green blue alpha).2) := by
    generalize (generateSwizzles s red green blue alpha).2 = s1 at hcount htarget ⊢
    unfold generateSwizzles
    exact generateSwizzlesFrom_fresh red green blue alpha _ 0 s1
      (fun l _ hl => htarget l (by rw [← hcount]; exact hl))
  rw [hsecond]
  exact ⟨rfl, rfl, rfl⟩

theorem generateSwizzles_idempotent_witness :
    (cube16.getLevelCount ≤ (cube16.mSwizzleCache.length : Int)) ∧
    (generateSwizzles cube16 GL_RED GL_GREEN GL_BLUE GL_ALPHA).1.isError = false ∧
    (swizzleBlits (generateSwizzles cube16 GL_RED GL_GREEN GL_BLUE GL_ALPHA).2).length = 3 ∧
    swizzleBlits (generateSwizzles (generateSwizzles cube16 GL_RED GL_GREEN GL_BLUE GL_ALPHA).2
        GL_RED GL_GREEN GL_BLUE GL_ALPHA).2 =
      swizzleBlits (generateSwizzles cube16 GL_RED GL_GREEN GL_BLUE GL_ALPHA).2 :=
  ⟨by decide, by decide, by decide,
    (generateSwizzles_idempotent cube16 GL_RED GL_GREEN GL_BLUE GL_ALPHA
      (by decide) (by decide)).2.1⟩

/-- C9. A successful `generateSwizzles(r, g, b, a)` blits exactly the levels in
`[0, getLevelCount())` whose cached swizzle differed from `(r, g, b, a)` before the call,
each once and in increasing order (the blits added to the log are the blits of those
levels, each from the level's shader view to the level's swizzle render target over the
level's extents), and afterwards every level in `[0, getLevelCount())` has `(r, g, b, a)`
cached.  The per-level caches are assumed to hold all the levels of the storage. -/
theorem generateSwizzles_blits (s : TextureStorage11) (red green blue alpha : GLenum)
    (hfit : s.getLevelCount ≤ s.mSwizzleCache.length)
    (hok : (generateSwizzles s red green blue alpha).1.isError = false) :
    swizzleBlits (generateSwizzles s red green blue alpha).2 =
      ((staleLevels s red green blue alpha).map
        (swizzleBlitOf (generateSwizzles s red green blue alpha).2
          red green blue alpha)).reverse ++ swizzleBlits s ∧
    (staleLevels s red green blue alpha).Nodup ∧
    (∀ l : Nat, l ∈ staleLevels s red green blue alpha ↔
      ((l : Int) < s.getLevelCount ∧
        swizzleAt s.mSwizzleCache l ≠
          { swizzleRed := red, swizzleGreen := green, swizzleBlue := blue,
            swizzleAlpha := alpha })) ∧
    (generateSwizzles s red green blue alpha).2.getLevelCount = s.getLevelCount ∧
    (∀ l : Nat, (l : Int) < s.getLevelCount →
      swizzleAt (generateSwizzles s red green blue alpha).2.mSwizzleCache l =
        { swizzleRed := red, swizzleGreen := green, swizzleBlue := blue,
          swizzleAlpha := alpha }) := by
  obtain ⟨hcount, htarget⟩ := generateSwizzles_targets s red green blue alpha hfit hok
  refine ⟨?_, nodup_staleLevels s red green blue alpha,
    mem_staleLevels s red green blue alpha, hcount, htarget⟩
  unfold generateSwizzles at hok ⊢
  exact (generateSwizzlesFrom_spec red green blue alpha s.getLevelCount.toNat 0 s (by omega)
    hfit hok).1

theorem generateSwizzles_blits_witness :
    (invalidateSwizzleCacheLevel
        (generateSwizzles cube16 GL_RED GL_GREEN GL_BLUE GL_ALPHA).2 1).getLevelCount ≤
      ((invalidateSwizzleCacheLevel
        (generateSwizzles cube16 GL_RED GL_GREEN GL_BLUE GL_ALPHA).2 1).mSwizzleCache.length
          : Int) ∧
    staleLevels (invalidateSwizzleCacheLevel
        (generateSwizzles cube16 GL_RED GL_GREEN GL_BLUE GL_ALPHA).2 1)
      GL_RED GL_GREEN GL_BLUE GL_ALPHA = [1] ∧
    swizzleBlits (generateSwizzles (invalidateSwizzleCacheLevel
        (generateSwizzles cube16 GL_RED GL_GREEN GL_BLUE GL_ALPHA).2 1)
        GL_RED GL_GREEN GL_BLUE GL_ALPHA).2 =
      ((staleLevels (invalidateSwizzleCacheLevel
          (generateSwizzles cube16 GL_RED GL_GREEN GL_BLUE GL_ALPHA).2 1)
          GL_RED GL_GREEN GL_BLUE GL_ALPHA).map
        (swizzleBlitOf (generateSwizzles (invalidateSwizzleCacheLevel
            (generateSwizzles cube16 GL_RED GL_GREEN GL_BLUE GL_ALPHA).2 1)
            GL_RED GL_GREEN GL_BLUE GL_ALPHA).2
          GL_RED GL_GREEN GL_BLUE GL_ALPHA)).reverse ++
        swizzleBlits (invalidateSwizzleCacheLevel
          (generateSwizzles cube16 GL_RED GL_GREEN GL_BLUE GL_ALPHA).2 1) :=
  ⟨by decide, by decide,
    (generateSwizzles_blits (invalidateSwizzleCacheLevel
        (generateSwizzles cube16 GL_RED GL_GREEN GL_BLUE GL_ALPHA).2 1)
      GL_RED GL_GREEN GL_BLUE GL_ALPHA (by decide) (by decide)).1⟩

/-- C10, the failing input. On a cube storage with level offset 1 and 3 native mip levels
(2 requested levels), `generateSwizzles` succeeds and records the swizzle for the levels 0
and 1 of `[0, getLevelCount())`, while the condition `verifySwizzleExists` asserts for the
same swizzle inspects the levels 0, 1 and 2 of `[0, mMipLevels)` and fails on level 2. -/
theorem verifySwizzleExists_fails_with_level_offset :
    (generateSwizzles cubeOffset GL_RED GL_GREEN GL_BLUE GL_ALPHA).1.isError = false ∧
    cubeOffset.getLevelCount = 2 ∧ cubeOffset.mMipLevels = 3 ∧
    swizzleAt (generateSwizzles cubeOffset GL_RED GL_GREEN GL_BLUE GL_ALPHA).2.mSwizzleCache 2
      = SwizzleCacheValue.default ∧
    verifySwizzleExists (generateSwizzles cubeOffset GL_RED GL_GREEN GL_BLUE GL_ALPHA).2
      GL_RED GL_GREEN GL_BLUE GL_ALPHA = false := by
  decide

/-- C11. The one copy `updateSubresourceLevel` issues: it is the depth-stencil copy of the
blitter exactly when the copy area is not the full level (its origin is not (0,0,0) or its
extents are not the width, height and depth of the level) and the texture format of the
storage has depth bits or stencil bits; in every other case it is the region copy
`CopySubresourceRegion`, whose source box is null exactly when the copy area is the full
level (origin (0,0,0) and extents the width, height and depth of the level).  No other copy
is logged. -/
theorem updateSubresourceLevel_copy_choice (s : TextureStorage11) (srcTexture : Option Texture)
    (sourceSubresource : Nat) (index : ImageIndex) (copyArea : Box) :
    (updateSubresourceLevel s srcTexture sourceSubresource index copyArea).2.mRenderer.calls.filter
        isCopyCall =
      (if ¬ (copyArea.x = 0 ∧ copyArea.y = 0 ∧ copyArea.z = 0 ∧
              copyArea.width = s.getLevelWidth index.mipIndex ∧
              copyArea.height = s.getLevelHeight index.mipIndex ∧
              copyArea.depth = s.getLevelDepth index.mipIndex) ∧
          (0 < s.mRenderer.depthBits s.mTextureFormat ∨
            0 < s.mRenderer.stencilBits s.mTextureFormat) then
        NativeCall.copyDepthStencil srcTexture sourceSubresource copyArea
          { width := s.getLevelWidth index.mipIndex, height := s.getLevelHeight index.mipIndex,
            depth := s.getLevelDepth index.mipIndex }
          (getResourceLevel (s.invalidateSwizzleCacheLevel index.mipIndex) index.mipIndex).1
          ((getResourceLevel (s.invalidateSwizzleCacheLevel index.mipIndex)
            index.mipIndex).2.getSubresourceIndex index)
          copyArea
          { width := s.getLevelWidth index.mipIndex, height := s.getLevelHeight index.mipIndex,
            depth := s.getLevelDepth index.mipIndex }
          (getResourceLevel (s.invalidateSwizzleCacheLevel index.mipIndex)
            index.mipIndex).2.mRenderer.nextResult
      else
        NativeCall.CopySubresourceRegion
          (getResourceLevel (s.invalidateSwizzleCacheLevel index.mipIndex) index.mipIndex).1
          ((getResourceLevel (s.invalidateSwizzleCacheLevel index.mipIndex)
            index.mipIndex).2.getSubresourceIndex index)
          (toUINT copyArea.x) (toUINT copyArea.y) (toUINT copyArea.z) srcTexture
          sourceSubresource
          (if copyArea.x = 0 ∧ copyArea.y = 0 ∧ copyArea.z = 0 ∧
              copyArea.width = s.getLevelWidth index.mipIndex ∧
              copyArea.height = s.getLevelHeight index.mipIndex ∧
              copyArea.depth = s.getLevelDepth index.mipIndex then none
            else some (updateSourceBox
              (getResourceLevel (s.invalidateSwizzleCacheLevel index.mipIndex)
                index.mipIndex).2 copyArea)))
      :: s.mRenderer.calls.filter isCopyCall := by
  rw [updateSubresourceLevel_copies]
  have hiff := fullCopy_iff copyArea
    { width := s.getLevelWidth index.mipIndex, height := s.getLevelHeight index.mipIndex,
      depth := s.getLevelDepth index.mipIndex }
  by_cases hfull : copyArea.x = 0 ∧ copyArea.y = 0 ∧ copyArea.z = 0 ∧
      copyArea.width = s.getLevelWidth index.mipIndex ∧
      copyArea.height = s.getLevelHeight index.mipIndex ∧
      copyArea.depth = s.getLevelDepth index.mipIndex
  · have hb := hiff.mpr hfull
    simp [hb, hfull]
  · have hb : fullCopy copyArea
        { width := s.getLevelWidth index.mipIndex, height := s.getLevelHeight index.mipIndex,
          depth := s.getLevelDepth index.mipIndex } = false := by
      cases hc : fullCopy copyArea
        { width := s.getLevelWidth index.mipIndex, height := s.getLevelHeight index.mipIndex,
          depth := s.getLevelDepth index.mipIndex }
      · rfl
      · exact absurd (hiff.mp hc) hfull
    by_cases hbits : 0 < s.mRenderer.depthBits s.mTextureFormat ∨
        0 < s.mRenderer.stencilBits s.mTextureFormat
    · simp [hb, hfull, hbits]
    · simp [hb, hfull, hbits]

/-- C12. For every source and destination index, after `generateMipmap(sourceIndex,
destIndex)` the cached swizzle of the destination level is the default sentinel and the
cached swizzle of every other level is what it was, in every outcome; when the acquisition of
the source or of the destination render target fails the call returns without the blit (no
`copyTexture` is logged), and when both succeed it issues exactly one. -/
theorem generateMipmap_swizzleCache (s : TextureStorage11) (sourceIndex destIndex : ImageIndex) :
    swizzleAt (generateMipmap s sourceIndex destIndex).mSwizzleCache destIndex.mipIndex
      = SwizzleCacheValue.default ∧
    (∀ level : Int, level ≠ destIndex.mipIndex →
      swizzleAt (generateMipmap s sourceIndex destIndex).mSwizzleCache level
        = swizzleAt s.mSwizzleCache level) ∧
    (((getRenderTarget (s.invalidateSwizzleCacheLevel destIndex.mipIndex)
          sourceIndex).1.isError = true ∨
        (getRenderTarget (getRenderTarget (s.invalidateSwizzleCacheLevel destIndex.mipIndex)
          sourceIndex).2.2 destIndex).1.isError = true) →
      (generateMipmap s sourceIndex destIndex).mRenderer.calls.filter isCopyTexture
        = s.mRenderer.calls.filter isCopyTexture) ∧
    ((getRenderTarget (s.invalidateSwizzleCacheLevel destIndex.mipIndex)
          sourceIndex).1.isError = false →
      (getRenderTarget (getRenderTarget (s.invalidateSwizzleCacheLevel destIndex.mipIndex)
          sourceIndex).2.2 destIndex).1.isError = false →
      ((generateMipmap s sourceIndex destIndex).mRenderer.calls.filter isCopyTexture).length
        = (s.mRenderer.calls.filter isCopyTexture).length + 1) := by
  have hcache : (generateMipmap s sourceIndex destIndex).mSwizzleCache
      = (s.invalidateSwizzleCacheLevel destIndex.mipIndex).mSwizzleCache := by
    unfold generateMipmap
    dsimp only
    split_ifs
    · rw [getRenderTarget_swizzleCache]
    · rw [getRenderTarget_swizzleCache, getRenderTarget_swizzleCache]
    · show (getRenderTarget _ destIndex).2.2.mSwizzleCache = _
      rw [getRenderTarget_swizzleCache, getRenderTarget_swizzleCache]
  have hlog : (getRenderTarget (getRenderTarget (s.invalidateSwizzleCacheLevel
      destIndex.mipIndex) sourceIndex).2.2 destIndex).2.2.mRenderer.calls.filter isCopyTexture
      = s.mRenderer.calls.filter isCopyTexture := by
    rw [getRenderTarget_copyTexture, getRenderTarget_copyTexture,
      invalidateSwizzleCacheLevel_renderer]
  have hlog1 : (getRenderTarget (s.invalidateSwizzleCacheLevel destIndex.mipIndex)
      sourceIndex).2.2.mRenderer.calls.filter isCopyTexture
      = s.mRenderer.calls.filter isCopyTexture := by
    rw [getRenderTarget_copyTexture, invalidateSwizzleCacheLevel_renderer]
  refine ⟨?_, fun level hne => ?_, fun hfail => ?_, fun hok1 hok2 => ?_⟩
  · rw [hcache]
    exact swizzleAt_invalidateSwizzleCacheLevel_self s destIndex.mipIndex
  · rw [hcache]
    exact swizzleAt_invalidateSwizzleCacheLevel_other s destIndex.mipIndex level hne
  · unfold generateMipmap
    dsimp only
    split_ifs with h1 h2
    · exact hlog1
    · exact hlog
    · rcases hfail with h | h
      · exact absurd h h1
      · exact absurd h h2
  · unfold generateMipmap
    dsimp only
    rw [if_neg (by simp [hok1]), if_neg (by simp [hok2])]
    unfold copyTexture
    dsimp only
    split_ifs <;> simp [Renderer11.record, isCopyTexture, List.filter, hlog]

/-- C13. On a 2D storage whose full-chain texture exists and is the resource in use, and
whose level-zero-only texture exists after the first switch (it existed before, or its
creation succeeded): `pickLevelZeroWorkaroundTexture(true)` ends with the copy of
subresource 0 of the full-chain texture to the level-zero-only texture, and after the
following `pickLevelZeroWorkaroundTexture(false)` the second call has issued exactly one
call, the copy of subresource 0 of the level-zero-only texture to subresource 0 of the
full-chain texture; the content of subresource 0 of the full-chain texture is the content
subresource 0 of the level-zero-only texture had when the second call began (whatever the
contents were initially); and the full-chain texture is the resource in use. -/
theorem pickLevelZeroWorkaroundTexture_round_trip (s : TextureStorage11)
    (full zero : Texture) (initial : Nat → Nat → Nat)
    (hshape : s.shape = Shape.Texture2D) (hactive : s.mUseLevelZeroTexture = false)
    (hfull : s.mTexture = some full)
    (hzero : (pickLevelZeroWorkaroundTexture s true).mLevelZeroTexture = some zero) :
    (pickLevelZeroWorkaroundTexture s true).mRenderer.calls.head?
      = some (NativeCall.CopySubresourceRegion (some zero) 0 0 0 0 (some full) 0 none) ∧
    (pickLevelZeroWorkaroundTexture (pickLevelZeroWorkaroundTexture s true) false).mRenderer.calls
      = NativeCall.CopySubresourceRegion (some full) 0 0 0 0 (some zero) 0 none ::
          (pickLevelZeroWorkaroundTexture s true).mRenderer.calls ∧
    subresourceContent initial
        (pickLevelZeroWorkaroundTexture (pickLevelZeroWorkaroundTexture s true)
          false).mRenderer.calls full.id 0
      = subresourceContent initial (pickLevelZeroWorkaroundTexture s true).mRenderer.calls
          zero.id 0 ∧
    (pickLevelZeroWorkaroundTexture (pickLevelZeroWorkaroundTexture s true)
      false).mUseLevelZeroTexture = false ∧
    (pickLevelZeroWorkaroundTexture (pickLevelZeroWorkaroundTexture s true) false).getResource
      = some full := by
  have hfirst : pickLevelZeroWorkaroundTexture s true = pickLevelZeroWorkaroundTexture2D s true := by
    unfold pickLevelZeroWorkaroundTexture; rw [hshape]
  rw [hfirst] at hzero ⊢
  have hkeep := createTexture2DHelper_levelZero_keeps s (toInt32 s.mTextureWidth)
    (toInt32 s.mTextureHeight) 1
  have hshape1 : (pickLevelZeroWorkaroundTexture2D s true).shape = Shape.Texture2D := by
    obtain ⟨_, _, _, _, _, h, _⟩ := pickLevelZeroWorkaroundTexture_writes s true
    rw [hfirst] at h
    rw [h]
    exact hshape
  have htex1 : (pickLevelZeroWorkaroundTexture2D s true).mTexture = some full := by
    unfold pickLevelZeroWorkaroundTexture2D
    simp only [if_true]
    split_ifs <;> first | exact hfull | (rw [← hfull]; exact hkeep.1)
  have huse1 : (pickLevelZeroWorkaroundTexture2D s true).mUseLevelZeroTexture = true := by
    unfold pickLevelZeroWorkaroundTexture2D
    simp only [if_true]
  have hcopy1 : (pickLevelZeroWorkaroundTexture2D s true).mRenderer.calls.head?
      = some (NativeCall.CopySubresourceRegion (some zero) 0 0 0 0 (some full) 0 none) := by
    have hform : ∃ s0 : TextureStorage11, s0.mTexture = some full ∧
        pickLevelZeroWorkaroundTexture2D s true =
          { s0 with
            mRenderer := (s0.mRenderer.note
              (NativeCall.CopySubresourceRegion s0.mLevelZeroTexture 0 0 0 0 s0.mTexture 0 none))
            mUseLevelZeroTexture := true } := by
      refine ⟨if s.mLevelZeroTexture.isNone then
          (createTexture2DHelper s (toInt32 s.mTextureWidth) (toInt32 s.mTextureHeight) 1 true).2
        else s, ?_, ?_⟩
      · split_ifs
        · exact hkeep.1.trans hfull
        · exact hfull
      · have huse : (if s.mLevelZeroTexture.isNone then
            (createTexture2DHelper s (toInt32 s.mTextureWidth) (toInt32 s.mTextureHeight) 1
              true).2
          else s).mUseLevelZeroTexture = false := by
          split_ifs
          · exact hkeep.2.trans hactive
          · exact hactive
        unfold pickLevelZeroWorkaroundTexture2D
        simp only [if_true, huse, Bool.not_false]
    obtain ⟨s0, ht0, hform⟩ := hform
    rw [hform] at hzero ⊢
    have hz : s0.mLevelZeroTexture = some zero := hzero
    show some (NativeCall.CopySubresourceRegion s0.mLevelZeroTexture 0 0 0 0 s0.mTexture 0 none)
      = _
    rw [hz, ht0]
  refine ⟨hcopy1, ?_⟩
  clear hcopy1
  generalize pickLevelZeroWorkaroundTexture2D s true = s1 at hzero hshape1 htex1 huse1 ⊢
  have hsecond : pickLevelZeroWorkaroundTexture s1 false =
      { s1 with
        mRenderer := (s1.mRenderer.note
          (NativeCall.CopySubresourceRegion (some full) 0 0 0 0 (some zero) 0 none))
        mUseLevelZeroTexture := false } := by
    have hdispatch : pickLevelZeroWorkaroundTexture s1 false
        = pickLevelZeroWorkaroundTexture2D s1 false := by
      unfold pickLevelZeroWorkaroundTexture; rw [hshape1]
    rw [hdispatch]
    unfold pickLevelZeroWorkaroundTexture2D
    simp only [Bool.false_eq_true, if_false, htex1, Option.isNone_some, huse1, if_true, hzero]
  rw [hsecond]
  refine ⟨rfl, ?_, rfl, ?_⟩
  · show subresourceContent initial
      (NativeCall.CopySubresourceRegion (some full) 0 0 0 0 (some zero) 0 none ::
        s1.mRenderer.calls) full.id 0 = _
    simp [subresourceContent]
  · unfold getResource
    simp only [hshape1, Bool.false_eq_true, if_false]
    exact htex1

theorem pickLevelZeroWorkaroundTexture_round_trip_witness :
    workaround256.shape = Shape.Texture2D ∧ workaround256.mUseLevelZeroTexture = false ∧
    workaround256.mTexture = some (textureOf 1 256 256 1 5 1) ∧
    (pickLevelZeroWorkaroundTexture workaround256 true).mLevelZeroTexture
      = some (textureOf 100 256 256 1 1 1) ∧
    (pickLevelZeroWorkaroundTexture (pickLevelZeroWorkaroundTexture workaround256 true)
      false).getResource = some (textureOf 1 256 256 1 5 1) :=
  ⟨by decide, by decide, by decide, by decide,
    (pickLevelZeroWorkaroundTexture_round_trip workaround256 (textureOf 1 256 256 1 5 1)
      (textureOf 100 256 256 1 1 1) (fun _ _ => 0) (by decide) (by decide) (by decide)
      (by decide)).2.2.2.2⟩

/-- C14. For every storage shape and every in-range slot of a storage whose association
arrays have their declared sizes, whatever the slot held before: after
`associateImage(image, index)` the call `isAssociatedImageValid(index, image)` returns true,
and `isAssociatedImageValid(index, other)` returns false for every `other` that is not
`image`. -/
theorem associateImage_then_valid (s : TextureStorage11) (image : Option Image11)
    (index : ImageIndex) (hsized : AssociationsSized s) (hrange : SlotInRange s index) :
    isAssociatedImageValid (associateImage s image index) index image = true ∧
    ∀ other : Option Image11, other ≠ image →
      isAssociatedImageValid (associateImage s image index) index other = false := by
  refine ⟨?_, fun other hother => ?_⟩
  · rw [isAssociatedImageValid_associate s image image index hsized hrange]
    simp
  · rw [isAssociatedImageValid_associate s image other index hsized hrange]
    simpa using fun h : image = other => hother h.symm

theorem associateImage_then_valid_witness :
    AssociationsSized (associateImage cube16 (some imageB) (slotIndex 1 3)) ∧
    SlotInRange (associateImage cube16 (some imageB) (slotIndex 1 3)) (slotIndex 1 3) ∧
    isAssociatedImageValid
      (associateImage (associateImage cube16 (some imageB) (slotIndex 1 3)) (some imageA)
        (slotIndex 1 3)) (slotIndex 1 3) (some imageA) = true ∧
    isAssociatedImageValid
      (associateImage (associateImage cube16 (some imageB) (slotIndex 1 3)) (some imageA)
        (slotIndex 1 3)) (slotIndex 1 3) (some imageB) = false :=
  ⟨by decide, by decide,
    (associateImage_then_valid (associateImage cube16 (some imageB) (slotIndex 1 3))
      (some imageA) (slotIndex 1 3) (by decide) (by decide)).1,
    (associateImage_then_valid (associateImage cube16 (some imageB) (slotIndex 1 3))
      (some imageA) (slotIndex 1 3) (by decide) (by decide)).2 (some imageB) (by decide)⟩

/-- C15. For every storage shape, every in-range slot of a storage whose association arrays
have their declared sizes and every non-null image: after `associateImage(image, index)`
followed by `disassociateImage(index, image)` the slot is unassociated and
`isAssociatedImageValid(index, image)` returns false; and a `disassociateImage(index,
expected)` whose expected image is not the one the slot holds leaves the storage, hence every
association record, unchanged. -/
theorem disassociateImage_after_associate (s : TextureStorage11) (image : Image11)
    (index : ImageIndex) (hsized : AssociationsSized s) (hrange : SlotInRange s index) :
    associatedImage (disassociateImage (associateImage s (some image) index) index
      (some image)) index = none ∧
    isAssociatedImageValid (disassociateImage (associateImage s (some image) index) index
      (some image)) index (some image) = false ∧
    ∀ (t : TextureStorage11) (slot : ImageIndex) (expected : Option Image11),
      associatedImage t slot ≠ expected → disassociateImage t slot expected = t := by
  have hvalid : isAssociatedImageValid (associateImage s (some image) index) index
      (some image) = true := by
    rw [isAssociatedImageValid_associate s (some image) (some image) index hsized hrange]
    simp
  have hheld := isAssociatedImageValid_true _ _ _ hvalid
  have hnone := disassociateImage_associated _ index image hheld
  refine ⟨hnone, ?_, fun t slot expected h => disassociateImage_mismatch t slot expected h⟩
  by_contra hne
  have htrue : isAssociatedImageValid (disassociateImage (associateImage s (some image) index)
      index (some image)) index (some image) = true := by simpa using hne
  have := isAssociatedImageValid_true _ _ _ htrue
  rw [hnone] at this
  exact absurd this (by simp)

theorem disassociateImage_after_associate_witness :
    AssociationsSized array16 ∧ SlotInRange array16 (slotIndex 2 3) ∧
    associatedImage (disassociateImage (associateImage array16 (some imageA) (slotIndex 2 3))
      (slotIndex 2 3) (some imageA)) (slotIndex 2 3) = none ∧
    isAssociatedImageValid (disassociateImage (associateImage array16 (some imageA)
      (slotIndex 2 3)) (slotIndex 2 3) (some imageA)) (slotIndex 2 3) (some imageA) = false :=
  ⟨by decide, by decide,
    (disassociateImage_after_associate array16 imageA (slotIndex 2 3) (by decide)
      (by decide)).1,
    (disassociateImage_after_associate array16 imageA (slotIndex 2 3) (by decide)
      (by decide)).2.1⟩

/-- C16, as the code has it. For every storage shape, every slot that holds an image `A` and
every incoming image other than `A`: `releaseAssociatedImage(index, incoming)` asks `A` for
its back-reference (`isAssociatedStorageValid`).  When the back-reference is valid it then
invokes the reconciliation `recoverFromAssociatedStorage` of `A` exactly once (the two calls
are all it adds to the log); when the reconciliation succeeds the call reports no error and
the slot is unassociated afterwards, and when it fails the call returns the error of the
reconciliation.  When the back-reference is not valid the call invokes no reconciliation,
reports no error and leaves the association records as they are. -/
theorem releaseAssociatedImage_reconciles (s : TextureStorage11) (index : ImageIndex)
    (image : Image11) (incoming : Option Image11)
    (hheld : associatedImage s index = some image) (hne : incoming ≠ some image) :
    (image.storageValid = true →
      (releaseAssociatedImage s index incoming).2.mRenderer.calls =
        NativeCall.recoverFromAssociatedStorage (some image) s.mRenderer.nextResult ::
          NativeCall.isAssociatedStorageValid (some image) :: s.mRenderer.calls ∧
      (FAILED s.mRenderer.nextResult = false →
        (releaseAssociatedImage s index incoming).1 = noError ∧
        associatedImage (releaseAssociatedImage s index incoming).2 index = none) ∧
      (FAILED s.mRenderer.nextResult = true →
        (releaseAssociatedImage s index incoming).1 = outOfMemory)) ∧
    (image.storageValid = false →
      releaseAssociatedImage s index incoming =
        (noError, { s with mRenderer :=
          (s.mRenderer.note (NativeCall.isAssociatedStorageValid (some image))) })) := by
  have hrel := releaseAssociatedImage_associated s index image incoming hheld hne
  refine ⟨fun hvalid => ?_, fun hstale => ?_⟩
  · have hrec := recoverIfAssociationCorrect_valid s image index hvalid
    cases hfail : FAILED s.mRenderer.nextResult
    · rw [hfail] at hrec
      simp only [Bool.false_eq_true, if_false] at hrec
      have hresult : releaseAssociatedImage s index incoming =
          (noError, (recoverIfAssociationCorrect s (some image) index).2) := by
        rcases hrel with h | ⟨_, h⟩
        · rw [h, hrec]
        · exact h
      rw [hresult, hrec]
      refine ⟨?_, fun _ => ⟨rfl, ?_⟩, fun h => absurd h (by simp)⟩
      · show (disassociateImage _ index (some image)).mRenderer.calls = _
        rw [disassociateImage_renderer]
        rfl
      · show associatedImage (disassociateImage _ index (some image)) index = none
        apply disassociateImage_associated
        unfold associatedImage at hheld ⊢
        exact hheld
    · rw [hfail] at hrec
      simp only [if_true] at hrec
      have hresult : releaseAssociatedImage s index incoming =
          (outOfMemory, (recoverIfAssociationCorrect s (some image) index).2) := by
        rcases hrel with h | ⟨herr, _⟩
        · rw [h, hrec]
        · rw [hrec] at herr
          have herr2 : outOfMemory.isError = false := herr
          exact absurd herr2 (by decide)
      rw [hresult, hrec]
      exact ⟨rfl, fun h => absurd h (by simp), fun _ => rfl⟩
  · have hrec := recoverIfAssociationCorrect_stale s image index hstale
    rcases hrel with h | ⟨_, h⟩
    · rw [h, hrec]
    · rw [h, hrec]

theorem releaseAssociatedImage_reconciles_witness :
    associatedImage (associateImage cube16 (some imageA) (slotIndex 1 3)) (slotIndex 1 3)
      = some imageA ∧
    imageA.storageValid = true ∧ some imageB ≠ some imageA ∧
    FAILED (associateImage cube16 (some imageA) (slotIndex 1 3)).mRenderer.nextResult = false ∧
    ((releaseAssociatedImage (associateImage cube16 (some imageA) (slotIndex 1 3))
        (slotIndex 1 3) (some imageB)).1 = noError ∧
      associatedImage (releaseAssociatedImage (associateImage cube16 (some imageA)
        (slotIndex 1 3)) (slotIndex 1 3) (some imageB)).2 (slotIndex 1 3) = none) :=
  ⟨by decide, by decide, by decide, by decide,
    ((releaseAssociatedImage_reconciles (associateImage cube16 (some imageA) (slotIndex 1 3))
      (slotIndex 1 3) imageA (some imageB) (by decide) (by decide)).1 (by decide)).2.1
      (by decide)⟩

/-- C16, the counterexample. The slot of level 0 of the 2D storage holds the image
`imageStale`, whose back-reference does not name the storage; releasing the slot for the
other image `imageB` invokes no reconciliation, reports no error, and leaves the slot
associated with `imageStale`. -/
theorem releaseAssociatedImage_skips_stale_image :
    associatedImage (associateImage storage256 (some imageStale) (levelIndex 0)) (levelIndex 0)
      = some imageStale ∧
    some imageB ≠ some imageStale ∧
    (releaseAssociatedImage (associateImage storage256 (some imageStale) (levelIndex 0))
      (levelIndex 0) (some imageB)).2.mRenderer.calls.filter isRecovery = [] ∧
    (releaseAssociatedImage (associateImage storage256 (some imageStale) (levelIndex 0))
      (levelIndex 0) (some imageB)).1 = noError ∧
    associatedImage (releaseAssociatedImage (associateImage storage256 (some imageStale)
      (levelIndex 0)) (levelIndex 0) (some imageB)).2 (levelIndex 0) = some imageStale := by
  decide

/-- C17. For every storage shape and every slot: when the slot is unassociated or holds the
incoming image already, `releaseAssociatedImage(index, incoming)` returns success and leaves
the storage as it is — no call is made on any image (the log is unchanged) and every
association record is unchanged. -/
theorem releaseAssociatedImage_noop (s : TextureStorage11) (index : ImageIndex)
    (incoming : Option Image11)
    (hidle : associatedImage s index = none ∨ associatedImage s index = incoming) :
    releaseAssociatedImage s index incoming = (noError, s) :=
  releaseAssociatedImage_idle s index incoming hidle

theorem releaseAssociatedImage_noop_witness :
    (associatedImage (associateImage array16 (some imageA) (slotIndex 1 2)) (slotIndex 1 2)
        = none ∨
      associatedImage (associateImage array16 (some imageA) (slotIndex 1 2)) (slotIndex 1 2)
        = some imageA) ∧
    releaseAssociatedImage (associateImage array16 (some imageA) (slotIndex 1 2))
        (slotIndex 1 2) (some imageA)
      = (noError, associateImage array16 (some imageA) (slotIndex 1 2)) :=
  ⟨by decide, releaseAssociatedImage_noop _ _ _ (by decide)⟩

/-- C18, the failing input. A 2D-array storage associates the image `imageA` with the slot
(level 0, layer 0) and the image ends the association through `disassociateImage`; the slot
is then unassociated, yet destroying the storage calls `isAssociatedStorageValid` through the
null pointer the map entry of the slot holds.  The same sequence on the array-based 2D
storage calls nothing on destruction. -/
theorem destroy2DArray_calls_null_image :
    associatedImage (disassociateImage (associateImage array16 (some imageA) (slotIndex 0 0))
      (slotIndex 0 0) (some imageA)) (slotIndex 0 0) = none ∧
    (destroy (disassociateImage (associateImage array16 (some imageA) (slotIndex 0 0))
      (slotIndex 0 0) (some imageA))).mRenderer.calls
      = [NativeCall.isAssociatedStorageValid none] ∧
    (destroy (disassociateImage (associateImage storage256 (some imageA) (slotIndex 0 0))
      (slotIndex 0 0) (some imageA))).mRenderer.calls = [] := by
  decide

/-- C20, the failing input. On a 2D-array storage whose depth-stencil format is set and whose
render-target format is unset, `getRenderTarget` creates a shader view, reaches the
`UNREACHABLE()` branch, creates no depth-stencil view, and reports no error with a null
render target.  The cube storage of the same formats creates the depth-stencil view. -/
theorem getRenderTarget2DArray_depth_unreachable :
    arrayDepth.mDepthStencilFormat ≠ DXGI_FORMAT_UNKNOWN ∧
    arrayDepth.mRenderTargetFormat = DXGI_FORMAT_UNKNOWN ∧
    (getRenderTarget arrayDepth (slotIndex 0 0)).2.2.mRenderer.calls.head?
      = some NativeCall.UNREACHABLE ∧
    (getRenderTarget arrayDepth (slotIndex 0 0)).2.2.mRenderer.calls.filter
      isDepthStencilViewCreation = [] ∧
    (getRenderTarget arrayDepth (slotIndex 0 0)).1 = noError ∧
    (getRenderTarget arrayDepth (slotIndex 0 0)).2.1 = none ∧
    ((getRenderTarget cubeDepth (slotIndex 0 0)).2.2.mRenderer.calls.filter
      isDepthStencilViewCreation).length = 1 ∧
    (getRenderTarget cubeDepth (slotIndex 0 0)).2.2.mRenderer.calls.filter
      (fun call => decide (call = NativeCall.UNREACHABLE)) = [] := by
  decide

/-- C21, the counterexample. The 2D storage `levelZero256` (256 x 256 texels, 5 levels, its
level-zero-only texture in use, on a renderer above feature level 9_3 that needs the
workaround) is asked for the render target of level 0 and then for the render target of
level 1: both calls report no error, and the second hands out the target the first created,
256 x 256 texels, although level 1 is 128 x 128 texels. -/
theorem getRenderTarget2D_levelZero_shares_target :
    levelZero256.shape = Shape.Texture2D ∧
    levelZero256.getLevelCount = 5 ∧
    levelZero256.mUseLevelZeroTexture = true ∧
    levelZero256.mRenderer.zeroMaxLodWorkaround = true ∧
    D3D_FEATURE_LEVEL_9_3 < levelZero256.mRenderer.featureLevel ∧
    (getRenderTarget levelZero256 (levelIndex 0)).1 = noError ∧
    (getRenderTarget (getRenderTarget levelZero256 (levelIndex 0)).2.2 (levelIndex 1)).1
      = noError ∧
    ((getRenderTarget (getRenderTarget levelZero256 (levelIndex 0)).2.2
      (levelIndex 1)).2.1.map fun target => (target.width, target.height))
      = some (256, 256) ∧
    (getRenderTarget levelZero256 (levelIndex 0)).2.2.getLevelWidth 1 = 128 ∧
    (getRenderTarget levelZero256 (levelIndex 0)).2.2.getLevelHeight 1 = 128 := by
  decide

/-- C21, amended. For every 2D storage and every requested level.  While the full-chain
texture is in use and every per-level render target cached so far has the extents of its
level (true of every freshly constructed 2D storage), `getRenderTarget` hands out no target
but one of width `getLevelWidth(level)` and height `getLevelHeight(level)`, and the cached
targets keep the extents of their levels afterwards, so the same holds after any earlier
requests.  While the level-zero-only texture is in use there is one render target for all
levels: if it exists the call returns it, whatever the level; if it does not exist, a
successful call creates it with the extents of the requested level and keeps it. -/
theorem getRenderTarget2D_extents (s : TextureStorage11) (index : ImageIndex)
    (hshape : s.shape = Shape.Texture2D) :
    (s.mUseLevelZeroTexture = false → renderTargetsSized s = true →
      renderTargetsSized (getRenderTarget s index).2.2 = true ∧
      (getRenderTarget s index).2.2.mUseLevelZeroTexture = false ∧
      ∀ target : RenderTarget11, (getRenderTarget s index).2.1 = some target →
        target.width = s.getLevelWidth index.mipIndex ∧
          target.height = s.getLevelHeight index.mipIndex) ∧
    (s.mUseLevelZeroTexture = true →
      (∀ held : RenderTarget11, s.mLevelZeroRenderTarget = some held →
        getRenderTarget s index = (noError, some held, s)) ∧
      (s.mLevelZeroRenderTarget = none → (getRenderTarget s index).1 = noError →
        ∃ target : RenderTarget11,
          (getRenderTarget s index).2.1 = some target ∧
          (getRenderTarget s index).2.2.mLevelZeroRenderTarget = some target ∧
          (getRenderTarget s index).2.2.mUseLevelZeroTexture = true ∧
          target.width = s.getLevelWidth index.mipIndex ∧
          target.height = s.getLevelHeight index.mipIndex)) ∧
    (∀ (renderer : Renderer11) (formatInfo : TextureFormat) (renderTarget : Bool)
      (width height levels : Int) (hint : Bool) (maxLevels : Nat),
      renderTargetsSized (TextureStorage11_2D renderer formatInfo renderTarget width height
        levels hint maxLevels) = true) := by
  have hdispatch : getRenderTarget s index = getRenderTarget2D s index := by
    unfold getRenderTarget
    rw [hshape]
  rw [hdispatch]
  refine ⟨?_, ?_, ?_⟩
  · intro hfull hsized
    obtain ⟨renderer, levelSRVs, renderTarget, hform, hkeep, hout⟩ :=
      getRenderTarget2D_sized s index hfull ((renderTargetsSized_iff s).mp hsized)
    refine ⟨?_, ?_, hout⟩
    · rw [hform, renderTargetsSized_iff]
      exact hkeep
    · rw [hform]
      exact hfull
  · intro hzero
    exact getRenderTarget2D_levelZero s index hzero
  · intro renderer formatInfo renderTarget width height levels hint maxLevels
    rw [renderTargetsSized_iff, TextureStorage11_2D_renderTarget]
    intro level target hget
    rw [ptrAt_replicate_none] at hget
    exact absurd hget (by simp)

theorem getRenderTarget2D_extents_witness :
    storage256.shape = Shape.Texture2D ∧ storage256.mUseLevelZeroTexture = false ∧
    renderTargetsSized storage256 = true ∧
    renderTargetsSized (getRenderTarget storage256 (levelIndex 1)).2.2 = true :=
  ⟨by decide, by decide, by decide,
    ((getRenderTarget2D_extents storage256 (levelIndex 1) (by decide)).1 (by decide)
      (by decide)).1⟩

/-- C22, the failing input. Level 1 of the 2D storage `storage256` is 128 x 128 x 1 texels.
`setData` on level 1 with the box of origin (0,0,0) and extents 128 x 128 x 1, the full
level, commits with an explicit box, not the null box: it compares the box with the extents
of level 0.  The sibling `updateSubresourceLevel` finds the same area to be the full level
and passes the null box; and for a depth image the condition `setData` asserts,
`depthBits == 0 || fullUpdate`, is false on the full level 1 of `depth64`.  In general the
upload carries the null box exactly when the box is absent or equal to the box of level 0. -/
theorem setData_full_level_box_explicit :
    storage256.getLevelWidth 1 = 128 ∧ storage256.getLevelHeight 1 = 128 ∧
    storage256.getLevelDepth 1 = 1 ∧
    (setData storage256 (levelIndex 1) imageRGBA (some boxLevelOne)).1 = noError ∧
    lastUploadBox (setData storage256 (levelIndex 1) imageRGBA
      (some boxLevelOne)).2.mRenderer.calls
      = some (some { left := 0, top := 0, front := 0, right := 128, bottom := 128,
                     back := 1 }) ∧
    (updateSubresourceLevel storage256 none 0 (levelIndex 1)
      boxLevelOne).2.mRenderer.calls.head?
      = some (NativeCall.CopySubresourceRegion storage256.mTexture 1 0 0 0 none 0 none) ∧
    depth64.getLevelWidth 1 = 32 ∧ depth64.getLevelHeight 1 = 32 ∧
    setDataAsserts depth64 imageDepth24
      (some { x := 0, y := 0, z := 0, width := 32, height := 32, depth := 1 }) = false ∧
    (∀ (s : TextureStorage11) (index : ImageIndex) (image : Image) (destBox : Option Box),
      FAILED s.mRenderer.nextResult = false →
      (lastUploadBox (setData s index image destBox).2.mRenderer.calls = some none ↔
        (destBox = none ∨
          destBox = some { x := 0, y := 0, z := 0, width := toInt32 s.mTextureWidth,
                           height := toInt32 s.mTextureHeight,
                           depth := toInt32 s.mTextureDepth }))) := by
  refine ⟨by decide, by decide, by decide, by decide, by decide, by decide, by decide,
    by decide, by decide, ?_⟩
  intro s index image destBox hok
  rw [(setData_box s index image destBox hok).2]
  cases destBox with
  | none => simp [fullUpdate]
  | some box =>
    by_cases hfull : fullUpdate s (some box) = true
    · have hbox := hfull
      unfold fullUpdate at hbox
      simp only [beq_iff_eq] at hbox
      rw [if_pos hfull]
      exact ⟨fun _ => Or.inr (congrArg some hbox), fun _ => rfl⟩
    · have hbox := hfull
      unfold fullUpdate at hbox
      simp only [beq_iff_eq] at hbox
      simp [hfull, hbox]

/-- C23, the failing input. `setData` on level 0 of the 3D storage `volume16` with the
region x = 0, y = 0, z = 2, width 8, height 8, depth 2 is a partial update; it allocates a
conversion buffer for the two slices (8 * 8 * 4 * 2 = 512 bytes) and commits with the box
left 0, right 8, top 0, bottom 8, front 0, back 1: not front = z = 2 and back = z + depth
= 4.  The sibling `updateSubresourceLevel` builds front 2 and back 4 from the same region.
In general the box of a partial update has front 0 and back 1, whatever z and depth are. -/
theorem setData_box_front_back_fixed :
    fullUpdate volume16 (some boxSlices) = false ∧
    (setData volume16 (levelIndex 0) imageRGBA (some boxSlices)).1 = noError ∧
    (setData volume16 (levelIndex 0) imageRGBA (some boxSlices)).2.mRenderer.calls
      = [NativeCall.UpdateSubresource volume16.mTexture 0
           (some { left := 0, top := 0, front := 0, right := 8, bottom := 8, back := 1 })
           32 256,
         NativeCall.resize 512 HRESULT.S_OK] ∧
    (updateSourceBox volume16 boxSlices).front = 2 ∧
    (updateSourceBox volume16 boxSlices).back = 4 ∧
    (∀ (s : TextureStorage11) (index : ImageIndex) (image : Image) (box : Box),
      FAILED s.mRenderer.nextResult = false → fullUpdate s (some box) = false →
      lastUploadBox (setData s index image (some box)).2.mRenderer.calls
        = some (some { left := toUINT box.x, top := toUINT box.y, front := 0,
                       right := toUINT (box.x + box.width),
                       bottom := toUINT (box.y + box.height), back := 1 })) := by
  refine ⟨by decide, by decide, by decide, by decide, by decide, ?_⟩
  intro s index image box hok hpart
  rw [(setData_box s index image (some box) hok).2, hpart]
  rfl

/-- C24, the counterexample. The zero-sized 2D storage `zeroSized` has no physical resource
and `getSubresourceIndex` returns 0 for it; 0 is also the subresource index of the valid
request (level 0, layer 0) on the cube storage `cube16`, which has a resource. -/
theorem getSubresourceIndex_zero_not_a_marker :
    zeroSized.getResource = none ∧
    zeroSized.getSubresourceIndex (levelIndex 0) = 0 ∧
    cube16.getResource.isSome = true ∧
    Representable cube16 ∧
    ValidIndex cube16 6 (slotIndex 0 0) ∧
    cube16.getSubresourceIndex (slotIndex 0 0)
      = zeroSized.getSubresourceIndex (levelIndex 0) := by
  decide

/-- C24, amended. With no physical resource `getSubresourceIndex` returns 0, so a result
other than 0 is returned only when a resource exists.  The value 0 does not mark the
missing resource: on a storage that has a resource, a valid request has subresource index 0
exactly when it addresses layer 0 and its level plus the top-level offset is 0. -/
theorem getSubresourceIndex_zero (s : TextureStorage11) (layers : Nat) (index : ImageIndex)
    (hs : s.Representable) (hfit : layers * s.mMipLevels ≤ 4294967296)
    (hv : s.ValidIndex layers index) :
    (s.getResource = none → s.getSubresourceIndex index = 0) ∧
    (s.getSubresourceIndex index ≠ 0 → s.getResource.isSome = true) ∧
    (s.getResource.isSome = true →
      (s.getSubresourceIndex index = 0 ↔
        index.mipIndex + s.mTopLevel = 0 ∧ layerOf index = 0)) := by
  have hnone : s.getResource = none → s.getSubresourceIndex index = 0 := by
    intro h
    unfold getSubresourceIndex
    rw [h]
    rfl
  refine ⟨hnone, ?_, ?_⟩
  · intro hne
    cases hres : s.getResource with
    | none => exact absurd (hnone hres) hne
    | some texture => rfl
  · intro hres
    obtain ⟨hsum, hlt⟩ := getSubresourceIndex_valid s layers index hres hs hfit hv
    obtain ⟨h0, _, h2, _⟩ := hv
    have htop := hs.1
    have hprod : 0 ≤ layerOf index * (s.mMipLevels : Int) := by positivity
    constructor
    · intro hzero
      rw [hzero] at hsum
      have hmip : index.mipIndex + s.mTopLevel = 0 := by
        have : ((0 : Nat) : Int) = 0 := rfl
        omega
      refine ⟨hmip, ?_⟩
      by_contra hlayer
      have hpos : 1 ≤ layerOf index := by omega
      have hbig : (s.mMipLevels : Int) ≤ layerOf index * (s.mMipLevels : Int) := by
        nlinarith
      have : ((0 : Nat) : Int) = 0 := rfl
      omega
    · intro hboth
      rw [hboth.1, hboth.2] at hsum
      simp only [zero_mul, add_zero] at hsum
      exact_mod_cast hsum

theorem getSubresourceIndex_zero_witness :
    Representable cube16 ∧ ValidIndex cube16 6 (slotIndex 1 2) ∧
    cube16.getResource.isSome = true ∧
    (cube16.getSubresourceIndex (slotIndex 1 2) = 0 ↔
      (slotIndex 1 2).mipIndex + cube16.mTopLevel = 0 ∧ layerOf (slotIndex 1 2) = 0) :=
  ⟨by decide, by decide, by decide,
    (getSubresourceIndex_zero cube16 6 (slotIndex 1 2) (by decide) (by decide)
      (by decide)).2.2 (by decide)⟩

/-- C25, the failing input. `GL_ZERO` and `GL_NONE` are both 0, so the swizzle of four
`GL_ZERO` channels, a tuple of valid swizzle values, is equal to the default sentinel; the
sentinel is unequal to a tuple exactly when some channel is not `GL_ZERO`.  On `storage256`,
after `generateSwizzles` with (GL_RED, GL_GREEN, GL_BLUE, GL_ALPHA) blitted all 5 levels and
level 0 was invalidated, `generateSwizzles` with four `GL_ZERO` blits the levels 1 to 4 and
skips level 0, whose cache record stays the sentinel; with (GL_ZERO, GL_ZERO, GL_ZERO,
GL_ONE) it blits all 5 levels.  In general `generateSwizzles` does nothing for a level that
was just invalidated when the tuple is four `GL_ZERO`. -/
theorem generateSwizzles_skips_zero_swizzle :
    GL_ZERO = GL_NONE ∧
    isSwizzleValue GL_ZERO = true ∧
    SwizzleCacheValue.default.eq
      { swizzleRed := GL_ZERO, swizzleGreen := GL_ZERO, swizzleBlue := GL_ZERO,
        swizzleAlpha := GL_ZERO } = true ∧
    (∀ red green blue alpha : GLenum,
      SwizzleCacheValue.default.ne
        { swizzleRed := red, swizzleGreen := green, swizzleBlue := blue,
          swizzleAlpha := alpha } = true ↔
      ¬ (red = GL_ZERO ∧ green = GL_ZERO ∧ blue = GL_ZERO ∧ alpha = GL_ZERO)) ∧
    (swizzleBlits (generateSwizzles storage256 GL_RED GL_GREEN GL_BLUE GL_ALPHA).2).length
      = 5 ∧
    (generateSwizzles (invalidateSwizzleCacheLevel
      (generateSwizzles storage256 GL_RED GL_GREEN GL_BLUE GL_ALPHA).2 0)
      GL_ZERO GL_ZERO GL_ZERO GL_ZERO).1 = noError ∧
    (swizzleBlits (generateSwizzles (invalidateSwizzleCacheLevel
      (generateSwizzles storage256 GL_RED GL_GREEN GL_BLUE GL_ALPHA).2 0)
      GL_ZERO GL_ZERO GL_ZERO GL_ZERO).2).length = 5 + 4 ∧
    (swizzleBlits (generateSwizzles (invalidateSwizzleCacheLevel
      (generateSwizzles storage256 GL_RED GL_GREEN GL_BLUE GL_ALPHA).2 0)
      GL_ZERO GL_ZERO GL_ZERO GL_ONE).2).length = 5 + 5 ∧
    (∀ (s : TextureStorage11) (level : Int),
      generateSwizzlesLevel (invalidateSwizzleCacheLevel s level) GL_ZERO GL_ZERO GL_ZERO
        GL_ZERO level = (noError, invalidateSwizzleCacheLevel s level)) := by
  refine ⟨by decide, by decide, by decide, ?_, by decide, by decide, by decide, by decide, ?_⟩
  · intro red green blue alpha
    have heq : SwizzleCacheValue.default.eq
        { swizzleRed := red, swizzleGreen := green, swizzleBlue := blue,
          swizzleAlpha := alpha } = true ↔
        (red = GL_ZERO ∧ green = GL_ZERO ∧ blue = GL_ZERO ∧ alpha = GL_ZERO) := by
      simp only [SwizzleCacheValue.eq, SwizzleCacheValue.default, GL_NONE, GL_ZERO,
        Bool.and_eq_true, beq_iff_eq, and_assoc]
      constructor
      · rintro ⟨a, b, c, d⟩
        exact ⟨a.symm, b.symm, c.symm, d.symm⟩
      · rintro ⟨a, b, c, d⟩
        exact ⟨a.symm, b.symm, c.symm, d.symm⟩
    unfold SwizzleCacheValue.ne
    rw [Bool.not_eq_true', ← Bool.not_eq_true, heq]
  · intro s level
    unfold generateSwizzlesLevel
    dsimp only
    rw [swizzleAt_invalidateSwizzleCacheLevel_self]
    rfl

/-- C26, the counterexample. On `workaround256` the full-chain texture exists and is in
use.  `pickLevelZeroWorkaroundTexture(true)` switches to the level-zero-only texture (one
copy); `pickLevelZeroWorkaroundTexture(false)` then switches back to the full-chain texture,
which was in use before, and copies subresource 0 again; and a third call with `true`
switches to the level-zero-only texture, in use before, and copies a third time. -/
theorem pickLevelZeroWorkaroundTexture_copies_on_return :
    workaround256.shape = Shape.Texture2D ∧
    workaround256.mUseLevelZeroTexture = false ∧
    workaround256.mTexture = some (textureOf 1 256 256 1 5 1) ∧
    (pickLevelZeroWorkaroundTexture workaround256 true).mUseLevelZeroTexture = true ∧
    ((pickLevelZeroWorkaroundTexture workaround256 true).mRenderer.calls.filter
      isCopyCall).length = 1 ∧
    (pickLevelZeroWorkaroundTexture (pickLevelZeroWorkaroundTexture workaround256 true)
      false).mRenderer.calls.head?
      = some (NativeCall.CopySubresourceRegion (some (textureOf 1 256 256 1 5 1)) 0 0 0 0
          (some (textureOf 100 256 256 1 1 1)) 0 none) ∧
    ((pickLevelZeroWorkaroundTexture (pickLevelZeroWorkaroundTexture workaround256 true)
      false).mRenderer.calls.filter isCopyCall).length = 2 ∧
    ((pickLevelZeroWorkaroundTexture (pickLevelZeroWorkaroundTexture
      (pickLevelZeroWorkaroundTexture workaround256 true) false)
      true).mRenderer.calls.filter isCopyCall).length = 3 := by
  decide

/-- C26, amended. For every 2D storage, `pickLevelZeroWorkaroundTexture(want)` leaves the
flag of the resource in use equal to `want`; when the call switches the resource in use
(the flag was different from `want`) its last native call is the copy of subresource 0 of the
resource in use before to subresource 0 of the resource in use now, and it is the one copy
the call adds to the log, whether or not the new resource was in use before; when the call
does not switch the resource it adds no copy. -/
theorem pickLevelZeroWorkaroundTexture_copies_on_switch (s : TextureStorage11) (want : Bool)
    (hshape : s.shape = Shape.Texture2D) :
    (pickLevelZeroWorkaroundTexture s want).mUseLevelZeroTexture = want ∧
    (s.mUseLevelZeroTexture ≠ want →
      (pickLevelZeroWorkaroundTexture s want).mRenderer.calls.head? =
        some (NativeCall.CopySubresourceRegion
          (if want then (pickLevelZeroWorkaroundTexture s want).mLevelZeroTexture
            else (pickLevelZeroWorkaroundTexture s want).mTexture) 0 0 0 0
          (if want then (pickLevelZeroWorkaroundTexture s want).mTexture
            else (pickLevelZeroWorkaroundTexture s want).mLevelZeroTexture) 0 none) ∧
      ((pickLevelZeroWorkaroundTexture s want).mRenderer.calls.filter isCopyCall).length =
        (s.mRenderer.calls.filter isCopyCall).length + 1) ∧
    (s.mUseLevelZeroTexture = want →
      (pickLevelZeroWorkaroundTexture s want).mRenderer.calls.filter isCopyCall =
        s.mRenderer.calls.filter isCopyCall) := by
  have hdispatch : pickLevelZeroWorkaroundTexture s want
      = pickLevelZeroWorkaroundTexture2D s want := by
    unfold pickLevelZeroWorkaroundTexture
    rw [hshape]
  rw [hdispatch]
  exact pickLevelZeroWorkaroundTexture2D_copies s want

theorem pickLevelZeroWorkaroundTexture_copies_on_switch_witness :
    workaround256.shape = Shape.Texture2D ∧
    (pickLevelZeroWorkaroundTexture workaround256 false).mRenderer.calls.filter isCopyCall =
      workaround256.mRenderer.calls.filter isCopyCall :=
  ⟨by decide,
    (pickLevelZeroWorkaroundTexture_copies_on_switch workaround256 false (by decide)).2.2
      (by decide)⟩

/-- C27, the counterexample. The 2D storage `block8` has a resource and neither a
render-target nor a depth-stencil format: `getRenderTarget` reaches `UNREACHABLE()` and
reports no error with a null render target.  On the 2D-array storage `blockArray` of the
same formats the first `getRenderTarget` for level 0, layer 1 reports no error with a null
render target and leaves a null entry under that key, and the second call for the slot
makes no native call, reports no error and hands out the null entry. -/
theorem getRenderTarget_success_null_target :
    block8.getResource.isSome = true ∧
    block8.mRenderTargetFormat = DXGI_FORMAT_UNKNOWN ∧
    block8.mDepthStencilFormat = DXGI_FORMAT_UNKNOWN ∧
    hasTargetFormat block8 = false ∧
    (getRenderTarget block8 (levelIndex 0)).1 = noError ∧
    (getRenderTarget block8 (levelIndex 0)).2.1 = none ∧
    (getRenderTarget block8 (levelIndex 0)).2.2.mRenderer.calls.head?
      = some NativeCall.UNREACHABLE ∧
    hasTargetFormat blockArray = false ∧
    (getRenderTarget blockArray (slotIndex 0 1)).1 = noError ∧
    (getRenderTarget blockArray (slotIndex 0 1)).2.1 = none ∧
    LevelLayerMap.find (getRenderTarget blockArray (slotIndex 0 1)).2.2.mRenderTargets
      { first := 0, second := 1 } = some none ∧
    (getRenderTarget (getRenderTarget blockArray (slotIndex 0 1)).2.2 (slotIndex 0 1)).1
      = noError ∧
    (getRenderTarget (getRenderTarget blockArray (slotIndex 0 1)).2.2 (slotIndex 0 1)).2.1
      = none ∧
    (getRenderTarget (getRenderTarget blockArray (slotIndex 0 1)).2.2
      (slotIndex 0 1)).2.2.mRenderer.calls
      = (getRenderTarget blockArray (slotIndex 0 1)).2.2.mRenderer.calls := by
  decide

/-- C27, amended. For every shape, on a storage for which the override of `getRenderTarget`
finds a format to create a view with (`hasTargetFormat`), for a slot inside the array its
target is cached in, and with no null entry in the map-based caches (true of a storage that
has none yet): whenever `getRenderTarget` reports no error it hands out a render target that
is not null; the target is what the cache holds for the slot afterwards, the next call for
the slot hands out the same target and changes nothing, and the map-based caches still hold
no null entry and the storage still has its format. -/
theorem getRenderTarget_success_target (s : TextureStorage11) (index : ImageIndex)
    (hformat : hasTargetFormat s = true) (hrange : TargetSlotInRange s index)
    (hnull : noNullTargets s = true)
    (hok : (getRenderTarget s index).1.isError = false) :
    ∃ target : RenderTarget11,
      (getRenderTarget s index).2.1 = some target ∧
      cachedRenderTarget (getRenderTarget s index).2.2 index = some target ∧
      getRenderTarget (getRenderTarget s index).2.2 index
        = (noError, some target, (getRenderTarget s index).2.2) ∧
      noNullTargets (getRenderTarget s index).2.2 = true ∧
      hasTargetFormat (getRenderTarget s index).2.2 = true := by
  have hkeep : hasTargetFormat (getRenderTarget s index).2.2 = true := by
    obtain ⟨_, _, _, _, _, _, _, _, hform, _⟩ := getRenderTarget_writes s index
    rw [hform]
    exact hformat
  have hmain : (∃ target : RenderTarget11, (getRenderTarget s index).2.1 = some target) ∧
      noNullTargets (getRenderTarget s index).2.2 = true := by
    unfold hasTargetFormat at hformat
    unfold TargetSlotInRange at hrange
    cases hshape : s.shape with
    | Texture2D =>
      have hdispatch : getRenderTarget s index = getRenderTarget2D s index := by
        unfold getRenderTarget
        rw [hshape]
      rw [hshape] at hformat hrange
      rw [hdispatch] at hok ⊢
      refine ⟨getRenderTarget2D_target s index ?_ hrange hok, ?_⟩
      · simp only [Bool.or_eq_true, bne_iff_ne, ne_eq, or_assoc] at hformat
        exact hformat
      · obtain ⟨_, _, _, _, hform, _⟩ := getRenderTarget2D_writes s index
        rw [hform]
        exact hnull
    | Cube =>
      have hdispatch : getRenderTarget s index = getRenderTargetCube s index := by
        unfold getRenderTarget
        rw [hshape]
      rw [hshape] at hformat hrange
      rw [hdispatch] at hok ⊢
      refine ⟨getRenderTargetCube_target s index ?_ hrange hok, ?_⟩
      · simp only [Bool.or_eq_true, bne_iff_ne, ne_eq] at hformat
        exact hformat
      · obtain ⟨_, _, hform, _⟩ := getRenderTargetCube_writes s index
        rw [hform]
        exact hnull
    | Texture3D =>
      have hdispatch : getRenderTarget s index = getRenderTarget3D s index := by
        unfold getRenderTarget
        rw [hshape]
      rw [hshape] at hrange
      rw [hdispatch] at hok ⊢
      exact getRenderTarget3D_target s index hrange hnull hok
    | Texture2DArray =>
      have hdispatch : getRenderTarget s index = getRenderTarget2DArray s index := by
        unfold getRenderTarget
        rw [hshape]
      rw [hshape] at hformat
      rw [hdispatch] at hok ⊢
      refine getRenderTarget2DArray_target s index ?_ hnull hok
      simp only [bne_iff_ne, ne_eq] at hformat
      exact hformat
  obtain ⟨⟨target, hout⟩, hnone⟩ := hmain
  have hcached : cachedRenderTarget (getRenderTarget s index).2.2 index = some target := by
    rw [getRenderTarget_caches s index hok, hout]
  exact ⟨target, hout, hcached, getRenderTarget_cached _ index target hcached, hnone, hkeep⟩

theorem getRenderTarget_success_target_witness :
    hasTargetFormat array16 = true ∧ TargetSlotInRange array16 (slotIndex 1 2) ∧
    noNullTargets array16 = true ∧
    (getRenderTarget array16 (slotIndex 1 2)).1.isError = false ∧
    ∃ target : RenderTarget11,
      (getRenderTarget array16 (slotIndex 1 2)).2.1 = some target ∧
      cachedRenderTarget (getRenderTarget array16 (slotIndex 1 2)).2.2 (slotIndex 1 2)
        = some target ∧
      getRenderTarget (getRenderTarget array16 (slotIndex 1 2)).2.2 (slotIndex 1 2)
        = (noError, some target, (getRenderTarget array16 (slotIndex 1 2)).2.2) ∧
      noNullTargets (getRenderTarget array16 (slotIndex 1 2)).2.2 = true ∧
      hasTargetFormat (getRenderTarget array16 (slotIndex 1 2)).2.2 = true :=
  ⟨by decide, by decide, by decide, by decide,
    getRenderTarget_success_target array16 (slotIndex 1 2) (by decide) (by decide)
      (by decide) (by decide)⟩

/-- C28, the failing input. `setData` writes nothing but the device part of the renderer, so
it leaves every record of the swizzle cache as it was.  On `storage256`, after
`generateSwizzles` with (GL_RED, GL_RED, GL_RED, GL_ONE) blitted the 5 levels, `setData` on
level 0 succeeds and leaves the record of level 0 at that tuple, and the next
`generateSwizzles` with the same tuple issues no blit; after the sibling
`updateSubresourceLevel` on level 0 the record is the sentinel and the next
`generateSwizzles` blits level 0 again. -/
theorem setData_keeps_swizzle_record :
    (∀ (s : TextureStorage11) (index : ImageIndex) (image : Image) (destBox : Option Box),
      (setData s index image destBox).2.mSwizzleCache = s.mSwizzleCache) ∧
    (generateSwizzles storage256 GL_RED GL_RED GL_RED GL_ONE).1 = noError ∧
    (swizzleBlits (generateSwizzles storage256 GL_RED GL_RED GL_RED GL_ONE).2).length = 5 ∧
    (setData (generateSwizzles storage256 GL_RED GL_RED GL_RED GL_ONE).2 (levelIndex 0)
      imageRGBA none).1 = noError ∧
    swizzleAt (setData (generateSwizzles storage256 GL_RED GL_RED GL_RED GL_ONE).2
      (levelIndex 0) imageRGBA none).2.mSwizzleCache 0
      = { swizzleRed := GL_RED, swizzleGreen := GL_RED, swizzleBlue := GL_RED,
          swizzleAlpha := GL_ONE } ∧
    (swizzleBlits (generateSwizzles (setData
      (generateSwizzles storage256 GL_RED GL_RED GL_RED GL_ONE).2 (levelIndex 0) imageRGBA
      none).2 GL_RED GL_RED GL_RED GL_ONE).2).length = 5 ∧
    swizzleAt (updateSubresourceLevel
      (generateSwizzles storage256 GL_RED GL_RED GL_RED GL_ONE).2 none 0 (levelIndex 0)
      { x := 0, y := 0, z := 0, width := 256, height := 256, depth := 1 }).2.mSwizzleCache 0
      = SwizzleCacheValue.default ∧
    (swizzleBlits (generateSwizzles (updateSubresourceLevel
      (generateSwizzles storage256 GL_RED GL_RED GL_RED GL_ONE).2 none 0 (levelIndex 0)
      { x := 0, y := 0, z := 0, width := 256, height := 256, depth := 1 }).2
      GL_RED GL_RED GL_RED GL_ONE).2).length = 6 := by
  refine ⟨?_, by decide, by decide, by decide, by decide, by decide, by decide, by decide⟩
  intro s index image destBox
  obtain ⟨renderer, h⟩ := setData_writes s index image destBox
  rw [h]

/-- C29, the failing input. `storage256` has 5 levels; the sampler state `samplerOneLevel`
uses a mip-filtering minification filter with `baseLevel = maxLevel = 0`, so
`baseLevel <= maxLevel` and `baseLevel < getLevelCount()`; the mip count `getSRV` requests
is 0, not at least 1: the key carries 0 mip levels and the view `getSRV` creates is
described with 0 mip levels.  The count is `maxLevel - baseLevel`, one less than the number
of levels in the range: on a renderer of feature level 9_3 the condition `getSRV` asserts,
`mipLevels == 1 || mipLevels == mMipLevels`, is false for this sampler state and also for the
sampler state that names the whole chain, levels 0 to 4 of 5, whose count is 4.  In general
the count is at least 1 on the mip-filtered path exactly when `baseLevel < maxLevel`; the
upper bound `baseLevel + mipLevels <= getLevelCount()` holds on both paths. -/
theorem requestedMipLevels_zero_on_single_level_range :
    Representable storage256 ∧
    storage256.getLevelCount = 5 ∧
    samplerOneLevel.baseLevel ≤ samplerOneLevel.maxLevel ∧
    samplerOneLevel.baseLevel < storage256.getLevelCount ∧
    IsMipmapFiltered samplerOneLevel = true ∧
    requestedMipLevels storage256 samplerOneLevel = 0 ∧
    (getSRVKey storage256 samplerOneLevel).mipLevels = 0 ∧
    (getSRV storage256 samplerOneLevel).1 = noError ∧
    ((getSRV storage256 samplerOneLevel).2.1.map fun view => view.desc.MipLevels) = some 0 ∧
    getSRVAsserts legacy256 samplerOneLevel = false ∧
    requestedMipLevels legacy256 samplerMipmapped = 4 ∧
    getSRVAsserts legacy256 samplerMipmapped = false ∧
    (∀ (s : TextureStorage11) (samplerState : SamplerState),
      s.Representable → 0 ≤ samplerState.baseLevel →
      samplerState.baseLevel ≤ samplerState.maxLevel →
      samplerState.maxLevel < 2147483648 →
      samplerState.baseLevel < s.getLevelCount →
      samplerState.baseLevel + (requestedMipLevels s samplerState : Int) ≤ s.getLevelCount ∧
      (IsMipmapFiltered samplerState = false → requestedMipLevels s samplerState = 1) ∧
      (IsMipmapFiltered samplerState = true →
        (1 ≤ requestedMipLevels s samplerState ↔
          samplerState.baseLevel < samplerState.maxLevel))) := by
  refine ⟨by decide, by decide, by decide, by decide, by decide, by decide, by decide,
    by decide, by decide, by decide, by decide, by decide, ?_⟩
  intro s samplerState hs h0 hle hmax hlt
  obtain ⟨hupper, hflat, hmip⟩ := requestedMipLevels_range s samplerState hs h0 hle hmax hlt
  exact ⟨hupper, hflat, fun h => (hmip h).2⟩

/-- C30, the failing input. On `blockRenderer` the size adjustment turns a requested 2 x 2
texels of the block-compressed format 71 into 4 x 4 with level offset 1.  The 2D storage
constructed with 2 x 2 texels and 2 levels succeeds (its texture has 3 mip levels) and
reports `getLevelCount() = 1`, not 2; constructed with 1 x 1 texels and 1 level (offset 2)
it reports -1.  The cube, 3D and 2D-array storages constructed with the same size and
2 levels report 2.  In general, after a successful construction with positive dimensions,
`levels > 0` and a level offset that is not negative, the 2D storage reports
`levels - offset` and the other three shapes report `levels`. -/
theorem TextureStorage11_2D_levelCount_drops_offset :
    blockRenderer.makeValidSize 71 2 2 = (4, 4, 1) ∧
    ((TextureStorage11_2D blockRenderer formatBlock false 2 2 2 false 15).mTexture.map
      fun texture => texture.desc.MipLevels) = some 3 ∧
    (TextureStorage11_2D blockRenderer formatBlock false 2 2 2 false 15).mTopLevel = 1 ∧
    (TextureStorage11_2D blockRenderer formatBlock false 2 2 2 false 15).getLevelCount = 1 ∧
    (TextureStorage11_2D blockRenderer formatBlock false 1 1 1 false 15).getLevelCount = -1 ∧
    (TextureStorage11_Cube blockRenderer formatBlock false 2 2 15).getLevelCount = 2 ∧
    (TextureStorage11_3D blockRenderer formatBlock false 2 2 2 2 15).getLevelCount = 2 ∧
    (TextureStorage11_2DArray blockRenderer formatBlock false 2 2 2 2 15).getLevelCount = 2 ∧
    (∀ (renderer : Renderer11) (formatInfo : TextureFormat) (renderTarget : Bool)
      (width height depth levels : Int) (maxLevels : Nat),
      0 < width → 0 < height → 0 < depth → 0 < levels →
      renderer.nextResult = HRESULT.S_OK →
      0 ≤ (renderer.makeValidSize formatInfo.texFormat width height).2.2 →
      (renderer.makeValidSize formatInfo.texFormat width height).2.2 + levels < 2147483648 →
      (TextureStorage11_2D renderer formatInfo renderTarget width height levels false
        maxLevels).getLevelCount
        = levels - (renderer.makeValidSize formatInfo.texFormat width height).2.2 ∧
      (TextureStorage11_3D renderer formatInfo renderTarget width height depth levels
        maxLevels).getLevelCount = levels ∧
      (TextureStorage11_2DArray renderer formatInfo renderTarget width height depth levels
        maxLevels).getLevelCount = levels) ∧
    (∀ (renderer : Renderer11) (formatInfo : TextureFormat) (renderTarget : Bool)
      (size levels : Int) (maxLevels : Nat),
      0 < size → 0 < levels → renderer.nextResult = HRESULT.S_OK →
      0 ≤ (renderer.makeValidSize formatInfo.texFormat size size).2.2 →
      (renderer.makeValidSize formatInfo.texFormat size size).2.2 + levels < 2147483648 →
      (TextureStorage11_Cube renderer formatInfo renderTarget size levels
        maxLevels).getLevelCount = levels) := by
  refine ⟨by decide, by decide, by decide, by decide, by decide, by decide, by decide,
    by decide, ?_, ?_⟩
  · intro renderer formatInfo renderTarget width height depth levels maxLevels hw hh hd
      hlevels hok hoffset hfit
    have hsum : toUINT ((renderer.makeValidSize formatInfo.texFormat width height).2.2
        + levels) ≠ 0 := by
      have hc := toUINT_of_range
        (x := (renderer.makeValidSize formatInfo.texFormat width height).2.2 + levels)
        (by omega) (by omega)
      intro hzero
      rw [hzero] at hc
      have : ((0 : Nat) : Int) = 0 := rfl
      omega
    refine ⟨?_, ?_, ?_⟩
    · obtain ⟨hmip, htop, _⟩ := TextureStorage11_2D_members renderer formatInfo renderTarget
        width height levels maxLevels hw hh hok
      unfold getLevelCount
      rw [hmip, htop, toUINT_of_range (by omega) (by omega)]
      exact toInt32_toUINT (by omega) (by omega)
    · obtain ⟨hmip, htop, _⟩ := TextureStorage11_3D_members renderer formatInfo renderTarget
        width height depth levels maxLevels hw hh hd hlevels hok hsum
      exact getLevelCount_of_members _ _ levels hoffset hlevels hfit hmip htop
    · obtain ⟨hmip, htop, _⟩ := TextureStorage11_2DArray_members renderer formatInfo
        renderTarget width height depth levels maxLevels hw hh hd hlevels hok hsum
      exact getLevelCount_of_members _ _ levels hoffset hlevels hfit hmip htop
  · intro renderer formatInfo renderTarget size levels maxLevels hsize hlevels hok hoffset
      hfit
    have hsum : toUINT ((renderer.makeValidSize formatInfo.texFormat size size).2.2
        + levels) ≠ 0 := by
      have hc := toUINT_of_range
        (x := (renderer.makeValidSize formatInfo.texFormat size size).2.2 + levels)
        (by omega) (by omega)
      intro hzero
      rw [hzero] at hc
      have : ((0 : Nat) : Int) = 0 := rfl
      omega
    obtain ⟨hmip, htop, _⟩ := TextureStorage11_Cube_members renderer formatInfo renderTarget
      size levels maxLevels hsize hlevels hok hsum
    exact getLevelCount_of_members _ _ levels hoffset hlevels hfit hmip htop

end TextureStorage11

end rx
